import Mathlib

/-!
openGBW: grind-by-weight scale controller

A shallow embedding of the control core of the firmware (`src/scale.cpp`,
`src/main.cpp`, `src/display.cpp`, `src/rotary.cpp`, `include/config.hpp`).

Modelling conventions

* The global variables of the firmware are the fields of `State`; each field
  keeps the name of the C++ variable.  Function-local `static` variables are
  fields as well (they persist between calls).
* `double` and `float` values are rationals: arithmetic is exact, rounding,
  infinities and NaN are outside the model.  The one exception is the
  validation of a stored divisor at start-up, which tests for NaN: there a
  stored double is a `Dbl`.
* `unsigned long` / `unsigned int` values (32 bit on the ESP32) are naturals,
  every arithmetic operation on them is reduced modulo `2 ^ 32`.
* `long` raw counts are integers.  An HX711 sample is a sign-extended 24 bit
  value, so sums and differences of two of them fit a 32 bit `long`.
* Everything a function reads from the outside world (the clock, the sensor,
  pins, the window queries of the `MathBuffer` history, which is a library
  that is not part of the repository) is a field of an environment record
  that is passed to the function.  One call of a function sees one clock
  value.
* The recursive estimator (`SimpleKalmanFilter`, a library) is a parameter:
  a state type and an update function.
-/

namespace OpenGBW

/-! ## Constants of `config.hpp` -/

def STATUS_EMPTY : Int := 0
def STATUS_GRINDING_IN_PROGRESS : Int := 1
def STATUS_GRINDING_FINISHED : Int := 2
def STATUS_GRINDING_FAILED : Int := 3
def STATUS_IN_MENU : Int := 4
def STATUS_IN_SUBMENU : Int := 5
def STATUS_INFO_MENU : Int := 8

def SLEEP_AFTER_MS : Int := 60000
def CUP_WEIGHT : ℚ := 70
def CUP_DETECTION_TOLERANCE : ℚ := 5
def LOADCELL_SCALE_FACTOR : ℚ := 436259 / 100
def LOADCELL2_DOUT_PIN : Int := 16
def LOADCELL2_SCALE_FACTOR : ℚ := 436259 / 100
def SIGNIFICANT_WEIGHT_CHANGE : ℚ := 5
def COFFEE_DOSE_WEIGHT : ℚ := 18
def COFFEE_DOSE_OFFSET : ℚ := -5 / 2
def MAX_GRINDING_TIME : Nat := 20000
def GRINDING_FAILED_WEIGHT_TO_RESET : ℚ := 150
def AUTO_OFFSET_ADJUSTMENT : Bool := true

/-- Constants of `scale.cpp`: the auto-zero band and the required number of
stable cycles. -/
def AZT_MIN_G : ℚ := 1 / 4

def AZT_REQUIRED : Int := 8

/-! ## Machine arithmetic -/

/-- Size of the 32 bit unsigned range. -/
def U32 : Nat := 4294967296

/-- Unsigned 32 bit subtraction `a - b`. -/
def usub32 (a b : Nat) : Nat := (a % U32 + (U32 - b % U32)) % U32

/-- Unsigned 32 bit addition `a + b`. -/
def uadd32 (a b : Nat) : Nat := (a + b) % U32

/-- Conversion of an `int` to `unsigned long`, as the usual arithmetic
conversions do in a comparison of the two. -/
def toU32 (i : Int) : Nat := (i % (U32 : Int)).toNat

/-- Conversion `(long) x` of a floating value: truncation toward zero. -/
def truncToLong (x : ℚ) : Int := if 0 ≤ x then ⌊x⌋ else ⌈x⌉

/-- Modelled from the spec: the macro `ABS` is used by `scale.cpp` and is
declared in a header that is not part of the sources (the spec reads it as
the absolute value: "if the absolute error exceeds a deadband").  It is taken
in its usual form `((a) > 0 ? (a) : (a) * -1)`. -/
def ABS (a : ℚ) : ℚ := if a > 0 then a else a * -1

/-! ## Data model -/

/-- Level of a digital pin. -/
inductive PinLevel where
  | LOW
  | HIGH
  deriving DecidableEq, Repr

/-- The part of an `HX711` object that the firmware sets: raw offset and
scale divisor. -/
structure HX711 where
  OFFSET : Int
  SCALE : ℚ
  deriving DecidableEq, Repr

/-- The persistent key-value store, namespace "scale".  A key that is absent
is `none`; `getX key default` is `Option.getD`. -/
structure Preferences where
  calibration : Option ℚ
  calibration2 : Option ℚ
  offset1 : Option Int
  offset2 : Option Int
  shotOffset : Option ℚ
  offset : Option ℚ
  shotCount : Option Nat
  setWeight : Option ℚ
  cup : Option ℚ
  scaleMode : Option Bool
  grindMode : Option Bool
  sleepTime : Option Int
  grindTrigger : Option Bool
  manualGrindMode : Option Bool
  displayCompensation : Option ℚ
  autoVibe : Option Bool
  deriving DecidableEq, Repr

/-- The global variables of the firmware. -/
structure State where
  -- scale.cpp
  requestTare : Bool
  requestSetOffset : Bool
  requestCalibration : Bool
  scaleWeight : ℚ
  setWeight : ℚ
  setCupWeight : ℚ
  shotOffset : ℚ
  loadcell_offset : Int
  scaleMode : Bool
  grindMode : Bool
  grinderActive : Bool
  shotCount : Nat
  weightHistory : List (Nat × ℚ)
  weightHistory2 : List (Nat × ℚ)
  auto_zero_enabled : Bool
  auto_zero_stable : Int
  auto_zero_stable2 : Int
  history_seeded : Bool
  aztBlockUntil : Nat
  scaleLastUpdatedAt : Nat
  lastSignificantWeightChangeAt : Nat
  lastTareAt : Nat
  scaleReady : Bool
  scaleStatus : Int
  cupWeightEmpty : ℚ
  startedGrindingAt : Nat
  finishedGrindingAt : Nat
  greset : Bool
  newOffset : Bool
  useButtonToGrind : Bool
  manualGrindMode : Bool
  scaleFactor : ℚ
  scaleWeight2 : ℚ
  loadcell2_offset : Int
  auto_vibe_after_grind : Bool
  display_compensate_shot : Bool
  display_compensation_g : ℚ
  -- static locals of scaleStatusLoop and the local counter of updateScale
  grinderButtonPressed : Bool
  grinderButtonPressedAt : Nat
  manualGrinderActive : Bool
  grindingFinishedAt : Nat
  hx711_fail_count : Int
  -- main.cpp
  scaleFactor2 : ℚ
  displayLock : Bool
  calibration_mode : Bool
  calibration_tare_raw : Int
  calibration_known_weight : ℚ
  calibration_mode2 : Bool
  calibration_tare_raw2 : Int
  calibration_known_weight2 : ℚ
  loadcell : HX711
  loadcell2 : HX711
  preferences : Preferences
  -- display.cpp
  sleepTime : Int
  screenJustWoke : Bool
  currentMenuItem : Int
  currentSetting : Int
  currentSubmenu : Int
  currentSubmenuItem : Int
  -- the output pin GRINDER_ACTIVE_PIN (LOW = relay on, HIGH = relay off)
  grinderPin : PinLevel

/-- An empty store. -/
def Preferences.empty : Preferences :=
  { calibration := none, calibration2 := none, offset1 := none, offset2 := none,
    shotOffset := none, offset := none, shotCount := none, setWeight := none,
    cup := none, scaleMode := none, grindMode := none, sleepTime := none,
    grindTrigger := none, manualGrindMode := none, displayCompensation := none,
    autoVibe := none }

/-- The state after `setupScale` on an empty store: the initialisers of the
globals, with the defaults that `setupScale` loads and the relay pin driven
HIGH (grinder stopped). -/
def State.initial : State :=
  { requestTare := false, requestSetOffset := false, requestCalibration := false,
    scaleWeight := 0, setWeight := COFFEE_DOSE_WEIGHT, setCupWeight := CUP_WEIGHT,
    shotOffset := COFFEE_DOSE_OFFSET, loadcell_offset := 0, scaleMode := false,
    grindMode := false, grinderActive := false, shotCount := 0,
    weightHistory := [], weightHistory2 := [], auto_zero_enabled := true,
    auto_zero_stable := 0, auto_zero_stable2 := 0, history_seeded := false,
    aztBlockUntil := 0, scaleLastUpdatedAt := 0, lastSignificantWeightChangeAt := 0,
    lastTareAt := 0, scaleReady := false, scaleStatus := STATUS_EMPTY,
    cupWeightEmpty := 0, startedGrindingAt := 0, finishedGrindingAt := 0,
    greset := false, newOffset := false, useButtonToGrind := true,
    manualGrindMode := false, scaleFactor := LOADCELL_SCALE_FACTOR, scaleWeight2 := 0,
    loadcell2_offset := 0, auto_vibe_after_grind := false,
    display_compensate_shot := false, display_compensation_g := 1,
    grinderButtonPressed := false, grinderButtonPressedAt := 0,
    manualGrinderActive := false, grindingFinishedAt := 0, hx711_fail_count := 0,
    scaleFactor2 := LOADCELL2_SCALE_FACTOR, displayLock := false,
    calibration_mode := false, calibration_tare_raw := 0, calibration_known_weight := 0,
    calibration_mode2 := false, calibration_tare_raw2 := 0,
    calibration_known_weight2 := 0,
    loadcell := { OFFSET := 0, SCALE := LOADCELL_SCALE_FACTOR },
    loadcell2 := { OFFSET := 0, SCALE := LOADCELL2_SCALE_FACTOR },
    preferences := Preferences.empty,
    sleepTime := SLEEP_AFTER_MS, screenJustWoke := false, currentMenuItem := 0,
    currentSetting := 0, currentSubmenu := 0, currentSubmenuItem := 0,
    grinderPin := PinLevel.HIGH }

/-! ## `scale.cpp`: the actuator -/

/-- Body of `grinderToggle`: when the grinder is recorded as off the relay
pin is driven LOW (on) and `grinderActive` becomes true, otherwise the pin is
driven HIGH (off) and `grinderActive` becomes false. -/
def grinderToggle (s : State) : State :=
  if ¬ s.grinderActive then
    { s with grinderPin := PinLevel.LOW, grinderActive := true }
  else
    { s with grinderPin := PinLevel.HIGH, grinderActive := false }

/-! ## `display.cpp`: waking, leaving a menu, the display task -/

/-- Body of `wakeScreen` at clock value `now`. -/
def wakeScreen (now : Nat) (s : State) : State :=
  { s with lastSignificantWeightChangeAt := now, screenJustWoke := true,
           scaleStatus := STATUS_EMPTY }

/-- Body of `exitToMenu` (`rotary.cpp`). -/
def exitToMenu (s : State) : State :=
  if s.scaleStatus = STATUS_IN_SUBMENU ∨ s.scaleStatus = STATUS_INFO_MENU then
    { s with scaleStatus := STATUS_IN_MENU, currentSetting := -1 }
  else if s.scaleStatus = STATUS_IN_MENU then
    if s.currentSubmenu ≠ 0 then
      { s with currentSubmenu := 0, currentSubmenuItem := 0 }
    else
      { s with scaleStatus := STATUS_EMPTY, currentMenuItem := 0, currentSubmenu := 0,
               currentSubmenuItem := 0 }
  else s

/-- One iteration of the loop of `updateDisplay` at clock value `now`, as far
as it writes shared state (drawing is left out): the compensation flag is
cleared outside the finished screen; a locked display skips the iteration;
when the sleep time has elapsed since the last significant weight change the
screen is blanked and `scaleStatus` is set to `STATUS_EMPTY`; the info screen
leaves to the menu. -/
def updateDisplay (now : Nat) (s : State) : State :=
  let s1 := if s.scaleStatus ≠ STATUS_GRINDING_FINISHED then
      { s with display_compensate_shot := false } else s
  if s1.displayLock then s1
  else if usub32 now s1.lastSignificantWeightChangeAt > toU32 s1.sleepTime then
    { s1 with scaleStatus := STATUS_EMPTY }
  else if s1.scaleLastUpdatedAt = 0 then s1
  else if ¬ s1.scaleReady then s1
  else if s1.scaleStatus = STATUS_INFO_MENU then exitToMenu s1
  else s1

/-! ## `scale.cpp`: the grind state machine -/

/-- What one pass of `scaleStatusLoop` reads from outside: the clock, the
grind button, the primary sensor (for the cup capture on a button start) and
the window queries of `weightHistory`. -/
structure StatusEnv where
  /-- Value of `millis()`. -/
  now : Nat
  /-- Whether `digitalRead(GRIND_BUTTON_PIN) == LOW`. -/
  grindButtonLow : Bool
  /-- Result of `loadcell.wait_ready_timeout(500)`. -/
  ready500 : Bool
  /-- Result of `loadcell.read_average(5)`. -/
  rawTare : Int
  /-- Value of `weightHistory.averageSince(millis() - 10000)`. -/
  tenSecAvg : ℚ
  /-- Value of `weightHistory.minSince(millis() - 1000)`. -/
  min1000 : ℚ
  /-- Value of `weightHistory.maxSince(millis() - 1000)`. -/
  max1000 : ℚ
  /-- Value of `weightHistory.averageSince(millis() - 500)`. -/
  avg500 : ℚ
  /-- Value of `weightHistory.firstValueOlderThan(millis() - 5000)`. -/
  firstOlder5000 : ℚ
  /-- Value of `weightHistory.minSince(millis() - 200)`. -/
  min200 : ℚ
  /-- Value of `weightHistory.maxSince(millis() - 200)`. -/
  max200 : ℚ

/-- How a pass through the switch of `scaleStatusLoop` ends: `brk` goes on to
`rotary_loop()` and the 50 ms delay, `cont` starts the next iteration at
once. -/
inductive Flow where
  | brk
  | cont
  deriving DecidableEq, Repr

/-- The offset used in a grinding step (`currentOffset`): the shot offset,
forced to zero in scale/timer mode. -/
def currentOffset (s : State) : ℚ :=
  if s.scaleMode then 0 else s.shotOffset

/-- The completion threshold of a grinding step (`grindTarget`). -/
def grindTarget (s : State) : ℚ :=
  if s.grindMode ∧ ¬ s.manualGrindMode then
    s.setWeight + currentOffset s
  else
    s.cupWeightEmpty + s.setWeight + currentOffset s

/-- Case `STATUS_EMPTY` of the switch. -/
def statusEmpty (e : StatusEnv) (s : State) : State × Flow :=
  if s.manualGrindMode then
    if e.grindButtonLow ∧ ¬ s.manualGrinderActive then
      (wakeScreen e.now { s with manualGrinderActive := true, grinderPin := PinLevel.LOW },
        Flow.brk)
    else if ¬ e.grindButtonLow ∧ s.manualGrinderActive then
      ({ s with manualGrinderActive := false, grinderPin := PinLevel.HIGH }, Flow.brk)
    else (s, Flow.brk)
  else
    let s1 :=
      if s.grindMode ∧ e.grindButtonLow ∧ ¬ s.grinderButtonPressed then
        { wakeScreen e.now { s with grinderButtonPressed := true,
                                    grinderButtonPressedAt := e.now } with
          requestTare := true }
      else s
    if s1.grindMode ∧ s1.grinderButtonPressed ∧
        usub32 e.now s1.grinderButtonPressedAt ≥ 600 then
      let cup : ℚ :=
        if e.ready500 then ((e.rawTare - s1.loadcell.OFFSET : Int) : ℚ) / s1.scaleFactor
        else s1.scaleWeight
      let s2 := { s1 with grinderButtonPressed := false, cupWeightEmpty := cup,
                          scaleStatus := STATUS_GRINDING_IN_PROGRESS,
                          display_compensate_shot := true }
      let s3 := if ¬ s2.scaleMode then
          { s2 with newOffset := true, startedGrindingAt := e.now } else s2
      (grinderToggle s3, Flow.cont)
    else if ¬ s1.grindMode ∧
        ABS (e.min1000 - s1.setCupWeight) < CUP_DETECTION_TOLERANCE ∧
        ABS (e.max1000 - s1.setCupWeight) < CUP_DETECTION_TOLERANCE then
      let s2 := { s1 with cupWeightEmpty := e.avg500,
                          scaleStatus := STATUS_GRINDING_IN_PROGRESS,
                          display_compensate_shot := true }
      let s3 := if ¬ s2.scaleMode then
          { s2 with newOffset := true, startedGrindingAt := e.now } else s2
      (grinderToggle s3, Flow.cont)
    else (s1, Flow.brk)

/-- The statements of every failure branch of a grinding step:
`grinderToggle(); scaleStatus = STATUS_GRINDING_FAILED;`. -/
def grindFailed (s : State) : State :=
  { grinderToggle s with scaleStatus := STATUS_GRINDING_FAILED }

/-- The statements of the completion branch of a grinding step:
`finishedGrindingAt = millis(); grinderToggle(); scaleStatus =
STATUS_GRINDING_FINISHED; display_compensate_shot = true;`. -/
def grindFinished (now : Nat) (s : State) : State :=
  { grinderToggle { s with finishedGrindingAt := now } with
    scaleStatus := STATUS_GRINDING_FINISHED, display_compensate_shot := true }

/-- Case `STATUS_GRINDING_IN_PROGRESS` of the switch. -/
def statusGrinding (e : StatusEnv) (s : State) : State × Flow :=
  if s.scaleWeight < -10 then (grindFailed s, Flow.cont)
  else if ¬ s.scaleReady then (grindFailed s, Flow.cont)
  else if s.scaleMode ∧ s.startedGrindingAt = 0 ∧
      s.scaleWeight - s.cupWeightEmpty ≥ 1 / 10 then
    ({ s with startedGrindingAt := e.now }, Flow.cont)
  else if usub32 e.now s.startedGrindingAt > MAX_GRINDING_TIME ∧ ¬ s.scaleMode then
    (grindFailed s, Flow.cont)
  else if usub32 e.now s.startedGrindingAt > 5000 ∧
      s.scaleWeight - e.firstOlder5000 < 1 ∧ ¬ s.scaleMode then
    (grindFailed s, Flow.cont)
  else if e.min200 < s.cupWeightEmpty - CUP_DETECTION_TOLERANCE ∧ ¬ s.scaleMode then
    (grindFailed s, Flow.cont)
  else if e.max200 ≥ grindTarget s then (grindFinished e.now s, Flow.cont)
  else (s, Flow.brk)

/-- Case `STATUS_GRINDING_FINISHED` of the switch.  The auto-vibe pulses
drive the relay pin LOW and HIGH twice and leave it HIGH. -/
def statusFinished (e : StatusEnv) (s : State) : State × Flow :=
  let s1 := if s.grindingFinishedAt = 0 then
      { s with grindingFinishedAt := e.now } else s
  if s1.scaleWeight < 5 then
    ({ s1 with startedGrindingAt := 0, grindingFinishedAt := 0, scaleWeight := 0,
               scaleStatus := STATUS_EMPTY }, Flow.cont)
  else
    let s2 :=
      if usub32 e.now s1.finishedGrindingAt > 5000 ∧
          s1.auto_vibe_after_grind ∧ ¬ s1.grinderActive then
        { s1 with grinderPin := PinLevel.HIGH }
      else s1
    if usub32 e.now s2.grindingFinishedAt > 5000 then
      if s2.scaleWeight ≥ 3 then (s2, Flow.brk)
      else
        ({ s2 with startedGrindingAt := 0, grindingFinishedAt := 0,
                   scaleStatus := STATUS_EMPTY }, Flow.brk)
    else (s2, Flow.brk)

/-- Case `STATUS_GRINDING_FAILED` of the switch. -/
def statusFailed (s : State) : State × Flow :=
  if s.scaleWeight ≥ GRINDING_FAILED_WEIGHT_TO_RESET then
    ({ s with scaleStatus := STATUS_EMPTY }, Flow.cont)
  else (s, Flow.brk)

/-- The switch on `scaleStatus` in the loop of `scaleStatusLoop`; a status
without a case falls through to the end of the switch. -/
def statusSwitch (e : StatusEnv) (s : State) : State × Flow :=
  if s.scaleStatus = STATUS_EMPTY then statusEmpty e s
  else if s.scaleStatus = STATUS_GRINDING_IN_PROGRESS then statusGrinding e s
  else if s.scaleStatus = STATUS_GRINDING_FINISHED then statusFinished e s
  else if s.scaleStatus = STATUS_GRINDING_FAILED then statusFailed s
  else (s, Flow.brk)

/-- The statements before the switch in the loop of `scaleStatusLoop`: a
weight more than `SIGNIFICANT_WEIGHT_CHANGE` away from the ten second average
refreshes `lastSignificantWeightChangeAt`. -/
def noteWeightChange (e : StatusEnv) (s : State) : State :=
  if ABS (e.tenSecAvg - s.scaleWeight) > SIGNIFICANT_WEIGHT_CHANGE then
    { s with lastSignificantWeightChangeAt := e.now }
  else s

/-- One iteration of the loop of `scaleStatusLoop` up to the end of the
switch: the significant-weight-change timestamp, then the switch.  (After a
`brk` the loop calls `rotary_loop()`, which is a step of the rotary
handlers.) -/
def scaleStatusLoop (e : StatusEnv) (s : State) : State × Flow :=
  statusSwitch e (noteWeightChange e s)

/-- The failure conditions of a grinding step as the specification lists
them: cup removed (weight below -10 g), sensor not ready, and, outside
scale/timer mode, maximum grind time exceeded, no weight increase over the
trailing 5 s, 200 ms minimum below the cup weight minus the tolerance.  This
predicate is the specification side; `statusGrinding` is the code. -/
def grindFailure (e : StatusEnv) (s : State) : Prop :=
  s.scaleWeight < -10 ∨ s.scaleReady = false ∨
  (s.scaleMode = false ∧
    (usub32 e.now s.startedGrindingAt > 20000 ∨
     (usub32 e.now s.startedGrindingAt > 5000 ∧ s.scaleWeight - e.firstOlder5000 < 1) ∨
     e.min200 < s.cupWeightEmpty - 5))

instance (e : StatusEnv) (s : State) : Decidable (grindFailure e s) := by
  unfold grindFailure; infer_instance

/-! ## `scale.cpp`: shot-offset learning on leaving the finished screen -/

/-- What `applyShotOffsetAdjustmentOnExit` reads from outside. -/
structure ExitEnv where
  /-- Value of `weightHistory.averageSince(millis() - 500)`. -/
  avg500 : ℚ
  /-- Result of `loadcell.wait_ready_timeout(500)`. -/
  ready1 : Bool
  /-- Result of `loadcell.read_average(5)`. -/
  raw_final1 : Int
  /-- Result of `loadcell2.wait_ready_timeout(500)`. -/
  ready2 : Bool
  /-- Result of `loadcell2.read_average(5)`. -/
  raw_final2 : Int

/-- The value `actualWeight` of `applyShotOffsetAdjustmentOnExit`: fresh
per-channel grams (history average, respectively the last secondary weight,
when a channel is not ready), fused by the mean, plus the stuck-grounds
compensation when a grind was timed. -/
def actualWeight (e : ExitEnv) (s : State) : ℚ :=
  let final1 : ℚ :=
    if e.ready1 then ((e.raw_final1 - s.loadcell.OFFSET : Int) : ℚ) / s.scaleFactor
    else e.avg500
  let final2 : ℚ :=
    if LOADCELL2_DOUT_PIN ≠ -1 then
      if e.ready2 then ((e.raw_final2 - s.loadcell2.OFFSET : Int) : ℚ) / s.scaleFactor2
      else s.scaleWeight2
    else 0
  let actual : ℚ := if LOADCELL2_DOUT_PIN ≠ -1 then (final1 + final2) / 2 else final1
  if s.startedGrindingAt > 0 then actual + s.display_compensation_g else actual

/-- The value `weightError` of `applyShotOffsetAdjustmentOnExit`. -/
def weightError (e : ExitEnv) (s : State) : ℚ :=
  (s.setWeight + s.cupWeightEmpty) - actualWeight e s

/-- The two limiting assignments `if (x > 10.0) x = 10.0; if (x < -10.0)
x = -10.0;`. -/
def constrainShotOffset (x : ℚ) : ℚ :=
  let y := if x > 10 then 10 else x
  if y < -10 then -10 else y

/-- Clamping as the specification words it: `x` limited to `[lo, hi]`. -/
def clamp (x lo hi : ℚ) : ℚ := max lo (min x hi)

/-- Body of `applyShotOffsetAdjustmentOnExit`. -/
def applyShotOffsetAdjustmentOnExit (e : ExitEnv) (s : State) : State :=
  if ¬ s.newOffset then s
  else
    let s1 :=
      if AUTO_OFFSET_ADJUSTMENT then
        if ABS (weightError e s) > 3 / 10 then
          let so := constrainShotOffset (s.shotOffset + weightError e s)
          let sc := uadd32 s.shotCount 1
          { s with shotOffset := so, shotCount := sc,
                   preferences := { s.preferences with shotOffset := some so,
                                                        shotCount := some sc } }
        else
          let sc := uadd32 s.shotCount 1
          { s with shotCount := sc,
                   preferences := { s.preferences with shotCount := some sc } }
      else
        let sc := uadd32 s.shotCount 1
        { s with shotCount := sc,
                 preferences := { s.preferences with shotCount := some sc } }
    { s1 with newOffset := false }

/-! ## `scale.cpp`: the sampling task -/

/-- What the regular sampling part of one `updateScale` cycle reads from
outside. -/
structure SampleEnv where
  /-- Value of `millis()`. -/
  now : Nat
  /-- Result of `loadcell.wait_ready_timeout(300)`. -/
  ready300 : Bool
  /-- Result of `loadcell.read_average(5)` (history seed). -/
  seed_raw : Int
  /-- Result of `loadcell2.read_average(5)` (history seed). -/
  seed_raw2 : Int
  /-- Primary sample: `loadcell.read()` while grinding, `read_average(1)`
  otherwise. -/
  raw : Int
  /-- Secondary sample, read the same way from `loadcell2`. -/
  raw2 : Int
  /-- Value of `weightHistory.averageSince(millis() - 2000)`. -/
  recent_avg1 : ℚ
  /-- Value of `weightHistory2.averageSince(millis() - 2000)`. -/
  recent_avg2 : ℚ

/-- A push on a `MathBuffer<double, 100>` at clock value `now`: newest first,
the oldest entry is dropped beyond 100. -/
def historyPush (now : Nat) (v : ℚ) (h : List (Nat × ℚ)) : List (Nat × ℚ) :=
  ((now, v) :: h).take 100

/-- Primary channel grams of a sampling cycle: `(raw - raw_offset) /
scaleFactor` with `raw_offset = loadcell.get_offset()`. -/
def grams (e : SampleEnv) (s : State) : ℚ :=
  ((e.raw - s.loadcell.OFFSET : Int) : ℚ) / s.scaleFactor

/-- Secondary channel grams of a sampling cycle: `(raw2 - raw2_offset) /
scaleFactor2` with `raw2_offset = loadcell2_offset`, and 0 without a second
sensor. -/
def grams2 (e : SampleEnv) (s : State) : ℚ :=
  if LOADCELL2_DOUT_PIN ≠ -1 then
    ((e.raw2 - s.loadcell2_offset : Int) : ℚ) / s.scaleFactor2
  else 0

/-- The argument of `kalmanFilter.updateEstimate` in a sampling cycle:
`combined` with a second sensor, `grams` without. -/
def estimatorInput (e : SampleEnv) (s : State) : ℚ :=
  if LOADCELL2_DOUT_PIN ≠ -1 then (grams e s + grams2 e s) / 2 else grams e s

/-- Seeding of the histories on the first successful read. -/
def seedHistory (e : SampleEnv) (s : State) : State :=
  if ¬ s.history_seeded then
    let seed_grams : ℚ := ((e.seed_raw - s.loadcell.OFFSET : Int) : ℚ) / s.scaleFactor
    let h1 := (List.range 20).foldl (fun h _ => historyPush e.now seed_grams h)
      s.weightHistory
    let h2 :=
      if LOADCELL2_DOUT_PIN ≠ -1 then
        let seed_grams2 : ℚ :=
          ((e.seed_raw2 - s.loadcell2_offset : Int) : ℚ) / s.scaleFactor2
        (List.range 20).foldl (fun h _ => historyPush e.now seed_grams2 h)
          s.weightHistory2
      else s.weightHistory2
    { s with weightHistory := h1, weightHistory2 := h2, history_seeded := true }
  else s

/-- Auto-zero tracking of the primary channel inside the in-band branch. -/
def autoZero1 (e : SampleEnv) (s : State) : State :=
  if |e.recent_avg1| ≤ AZT_MIN_G then
    let s1 := { s with auto_zero_stable := s.auto_zero_stable + 1 }
    if s1.auto_zero_stable ≥ AZT_REQUIRED then
      { s1 with
        loadcell := { s1.loadcell with
          OFFSET := s1.loadcell.OFFSET + truncToLong (e.recent_avg1 * s1.scaleFactor) },
        auto_zero_stable := 0 }
    else s1
  else { s with auto_zero_stable := 0 }

/-- Auto-zero tracking of the secondary channel inside the in-band branch. -/
def autoZero2 (e : SampleEnv) (s : State) : State :=
  if LOADCELL2_DOUT_PIN ≠ -1 then
    if |e.recent_avg2| ≤ AZT_MIN_G then
      let s1 := { s with auto_zero_stable2 := s.auto_zero_stable2 + 1 }
      if s1.auto_zero_stable2 ≥ AZT_REQUIRED then
        { s1 with
          loadcell2 := { s1.loadcell2 with
            OFFSET := s1.loadcell2.OFFSET +
              truncToLong (e.recent_avg2 * s1.scaleFactor2) },
          auto_zero_stable2 := 0 }
      else s1
    else { s with auto_zero_stable2 := 0 }
  else s

/-- The auto-zero block of a sampling cycle. -/
def autoZero (e : SampleEnv) (s : State) : State :=
  if s.auto_zero_enabled ∧ s.scaleStatus = STATUS_EMPTY then
    if e.now < s.aztBlockUntil then
      { s with auto_zero_stable := 0, auto_zero_stable2 := 0 }
    else if s.scaleReady ∧ |s.scaleWeight| ≤ AZT_MIN_G then
      autoZero2 e (autoZero1 e s)
    else { s with auto_zero_stable := 0, auto_zero_stable2 := 0 }
  else s

/-- The regular sampling part of one cycle of `updateScale` (after the tare
handling), for an estimator with state `K` and update function `upd` that
returns the new estimator state and the estimate. -/
def updateScale {K : Type} (upd : K → ℚ → K × ℚ) (k : K) (e : SampleEnv) (s : State) :
    K × State :=
  if e.ready300 then
    let s1 := seedHistory e { s with hx711_fail_count := 0 }
    let r := upd k (estimatorInput e s1)
    let s2 :=
      if LOADCELL2_DOUT_PIN ≠ -1 then
        { s1 with scaleWeight := r.2, scaleWeight2 := grams2 e s1,
                  weightHistory := historyPush e.now r.2 s1.weightHistory,
                  weightHistory2 := historyPush e.now (grams2 e s1) s1.weightHistory2 }
      else
        { s1 with scaleWeight := r.2,
                  weightHistory := historyPush e.now r.2 s1.weightHistory }
    let s3 := autoZero e s2
    (r.1, { s3 with scaleLastUpdatedAt := e.now,
                    weightHistory := historyPush e.now s3.scaleWeight s3.weightHistory,
                    scaleReady := true })
  else
    let s1 := { s with hx711_fail_count := s.hx711_fail_count + 1, scaleReady := false }
    if s1.scaleStatus ≠ STATUS_GRINDING_IN_PROGRESS ∧ s1.hx711_fail_count ≥ 5 then
      (k, { s1 with hx711_fail_count := 0 })
    else (k, s1)

/-! ## `main.cpp`: serial calibration commands -/

/-- What a serial calibration command reads from outside, for the sensor the
command selects. -/
structure SerialEnv where
  /-- Value of `millis()`. -/
  now : Nat
  /-- Result of `wait_ready_timeout(500)` on the selected sensor. -/
  ready : Bool
  /-- Result of `read_average(20)` on the selected sensor. -/
  raw_average : Int

/-- Command `t` of `processSerialCommands` for sensor index `sensor`. -/
def serialTare (sensor : Int) (e : SerialEnv) (s : State) : State :=
  if sensor = 2 then
    if e.ready then { s with calibration_tare_raw2 := e.raw_average } else s
  else
    if e.ready then { s with calibration_tare_raw := e.raw_average } else s

/-- Command `c` of `processSerialCommands` for sensor index `sensor`. -/
def serialCalibrate (sensor : Int) (s : State) : State :=
  if sensor = 2 then
    if s.calibration_tare_raw2 = 0 then s else { s with calibration_mode2 := true }
  else
    if s.calibration_tare_raw = 0 then s else { s with calibration_mode := true }

/-- Command `w` of `processSerialCommands` for sensor index `sensor` and the
parsed weight `weight`. -/
def serialWeight (sensor : Int) (weight : ℚ) (e : SerialEnv) (s : State) : State :=
  if sensor = 2 then
    if ¬ s.calibration_mode2 then s
    else
      let s1 := { s with calibration_known_weight2 := weight }
      if s1.calibration_known_weight2 ≤ 0 ∨ s1.calibration_known_weight2 > 1000 then s1
      else if e.ready then
        let raw_diff : Int := e.raw_average - s1.calibration_tare_raw2
        let new_factor : ℚ := (raw_diff : ℚ) / s1.calibration_known_weight2
        { s1 with scaleFactor2 := new_factor,
                  loadcell2 := { s1.loadcell2 with SCALE := new_factor },
                  preferences := { s1.preferences with calibration2 := some new_factor },
                  aztBlockUntil := uadd32 e.now 10000,
                  calibration_mode2 := false, calibration_tare_raw2 := 0,
                  calibration_known_weight2 := 0 }
      else s1
  else
    if ¬ s.calibration_mode then s
    else
      let s1 := { s with calibration_known_weight := weight }
      if s1.calibration_known_weight ≤ 0 ∨ s1.calibration_known_weight > 1000 then s1
      else if e.ready then
        let raw_diff : Int := e.raw_average - s1.calibration_tare_raw
        let new_factor : ℚ := (raw_diff : ℚ) / s1.calibration_known_weight
        { s1 with scaleFactor := new_factor,
                  loadcell := { s1.loadcell with SCALE := new_factor },
                  preferences := { s1.preferences with calibration := some new_factor },
                  aztBlockUntil := uadd32 e.now 10000,
                  calibration_mode := false, calibration_tare_raw := 0,
                  calibration_known_weight := 0 }
      else s1

/-- How the confirmation wait of the guided calibration ends: an empty line
(ENTER), the line "a" in either case, any other line, or no line within
30 s. -/
inductive Confirmation where
  | enter
  | abort
  | other
  | timeout
  deriving DecidableEq, Repr

/-- The flag `user_aborted` after the confirmation wait of command `G`. -/
def userAborted : Confirmation → Bool
  | Confirmation.enter => false
  | Confirmation.abort => true
  | Confirmation.other => false
  | Confirmation.timeout => true

/-- What command `G` of `processSerialCommands` reads from outside. -/
structure GuidedEnv where
  /-- Value of `millis()` when the new factors are applied. -/
  now : Nat
  /-- Outcome of the confirmation wait. -/
  confirm : Confirmation
  /-- Result of `loadcell.wait_ready_timeout(1000)`. -/
  ready1 : Bool
  /-- Result of `loadcell.read_average(30)`. -/
  raw1 : Int
  /-- Result of `loadcell2.wait_ready_timeout(1000)`. -/
  ready2 : Bool
  /-- Result of `loadcell2.read_average(30)`. -/
  raw2 : Int

/-- The value `measured1` of command `G`: the primary reading under the
current divisor, with the offset of the sensor object. -/
def measured1 (e : GuidedEnv) (s : State) : ℚ :=
  ((e.raw1 - s.loadcell.OFFSET : Int) : ℚ) / s.scaleFactor

/-- The value `measured2` of command `G`: the secondary reading under the
current divisor, with the offset `loadcell2_offset`; 0 without a second
sensor. -/
def measured2 (e : GuidedEnv) (s : State) : ℚ :=
  if LOADCELL2_DOUT_PIN ≠ -1 then
    ((e.raw2 - s.loadcell2_offset : Int) : ℚ) / s.scaleFactor2
  else 0

/-- The value `measured_total` of command `G`: the mean of the two
contributions. -/
def measured_total (e : GuidedEnv) (s : State) : ℚ :=
  (measured1 e s + measured2 e s) / 2

/-- The value `multiplier` of command `G`. -/
def multiplier (known : ℚ) (e : GuidedEnv) (s : State) : ℚ :=
  known / measured_total e s

/-- Command `G` of `processSerialCommands` with the parsed mass `known`:
every check that fails leaves with `break` before anything is written; on
success both divisors are multiplied by `multiplier`, applied to the sensor
objects and stored, and the auto-zero cooldown is armed.  (The verification
read at the end only prints.) -/
def serialGuided (known : ℚ) (e : GuidedEnv) (s : State) : State :=
  if known ≤ 0 then s
  else if |s.scaleWeight| > 2 then s
  else if userAborted e.confirm then s
  else if LOADCELL2_DOUT_PIN ≠ -1 ∧ s.loadcell2_offset = 0 then s
  else if ¬ e.ready1 then s
  else if LOADCELL2_DOUT_PIN ≠ -1 ∧ ¬ e.ready2 then s
  else if measured_total e s ≤ 1 / 10000 then s
  else
    let s1 := { s with
      scaleFactor := s.scaleFactor * multiplier known e s,
      loadcell := { s.loadcell with SCALE := s.scaleFactor * multiplier known e s },
      preferences := { s.preferences with
        calibration := some (s.scaleFactor * multiplier known e s) } }
    let s2 :=
      if LOADCELL2_DOUT_PIN ≠ -1 then
        { s1 with
          scaleFactor2 := s1.scaleFactor2 * multiplier known e s,
          loadcell2 := { s1.loadcell2 with SCALE := s1.scaleFactor2 * multiplier known e s },
          preferences := { s1.preferences with
            calibration2 := some (s1.scaleFactor2 * multiplier known e s) } }
      else s1
    { s2 with aztBlockUntil := uadd32 e.now 10000 }

/-- Command `R` of `processSerialCommands`: the stored calibration, offsets,
shot offset and shot count are removed, the default divisors are stored and
applied to the globals and to the sensor objects. -/
def serialReset (s : State) : State :=
  let p1 := { s.preferences with
    calibration := some LOADCELL_SCALE_FACTOR,
    calibration2 := none, offset1 := none, offset2 := none,
    shotOffset := none, shotCount := none }
  let p2 := if LOADCELL2_DOUT_PIN ≠ -1 then
      { p1 with calibration2 := some LOADCELL2_SCALE_FACTOR } else p1
  let s1 := { s with
    preferences := p2, scaleFactor := LOADCELL_SCALE_FACTOR,
    loadcell := { s.loadcell with SCALE := LOADCELL_SCALE_FACTOR } }
  if LOADCELL2_DOUT_PIN ≠ -1 then
    { s1 with
      scaleFactor2 := LOADCELL2_SCALE_FACTOR,
      loadcell2 := { s1.loadcell2 with SCALE := LOADCELL2_SCALE_FACTOR } }
  else s1

/-! ## `rotary.cpp`: a button click inside a setting screen -/

/-- The statements `scaleStatus = STATUS_IN_MENU; currentSetting = -1;` that
end most setting screens. -/
def backToMenu (s : State) : State :=
  { s with scaleStatus := STATUS_IN_MENU, currentSetting := -1 }

/-- Case 1 (calibration) of the setting switch of `rotary_onButtonClick`.
`rawReading` is the result of `loadcell.get_units(10)` after
`loadcell.set_scale(1.0)`.  The new value is stored under "calibration" and
given to `loadcell.set_scale`; the display compensation is stored as well.
The global `scaleFactor` is not assigned. -/
def menuCalibration (rawReading : ℚ) (s : State) : State :=
  let newCalibrationValue : ℚ :=
    if |rawReading| < 1000 ∨ |rawReading / 100| < 100 ∨ |rawReading / 100| > 10000 then
      LOADCELL_SCALE_FACTOR
    else rawReading / 100
  backToMenu { s with
    loadcell := { s.loadcell with SCALE := newCalibrationValue },
    preferences := { s.preferences with
      calibration := some newCalibrationValue,
      displayCompensation := some s.display_compensation_g } }

/-- Case 6 (reset) of the setting switch of `rotary_onButtonClick`.  With
`greset` set the defaults are stored and the runtime values of target
weight, shot offset, cup weight and the two mode flags are reset; the stored
shot count is set to 0 and the default divisor is given to
`loadcell.set_scale`.  The globals `scaleFactor` and `shotCount` are not
assigned. -/
def menuReset (s : State) : State :=
  let s1 :=
    if s.greset then
      { s with
        setWeight := COFFEE_DOSE_WEIGHT, shotOffset := COFFEE_DOSE_OFFSET,
        setCupWeight := CUP_WEIGHT, scaleMode := false, grindMode := false,
        loadcell := { s.loadcell with SCALE := LOADCELL_SCALE_FACTOR },
        preferences := { s.preferences with
          calibration := some LOADCELL_SCALE_FACTOR,
          setWeight := some COFFEE_DOSE_WEIGHT,
          shotOffset := some COFFEE_DOSE_OFFSET,
          cup := some CUP_WEIGHT, scaleMode := some false, grindMode := some false,
          shotCount := some 0 } }
    else s
  backToMenu s1

/-- Case 0 (cup weight) of the setting switch of `rotary_onButtonClick`. -/
def menuCupWeight (s : State) : State :=
  if s.scaleWeight > 5 then
    exitToMenu { s with
      setCupWeight := s.scaleWeight,
      preferences := { s.preferences with cup := some s.scaleWeight },
      displayLock := false }
  else
    exitToMenu { s with
      setCupWeight := 10,
      preferences := { s.preferences with cup := some 10 } }

/-- The branch `scaleStatus == STATUS_IN_SUBMENU` of `rotary_onButtonClick`:
the switch on `currentSetting`.  `rawReading` is what the calibration case
reads from the sensor. -/
def submenuClick (rawReading : ℚ) (s : State) : State :=
  if s.currentSetting = 0 then menuCupWeight s
  else if s.currentSetting = 1 then menuCalibration rawReading s
  else if s.currentSetting = 2 then
    backToMenu { s with
      preferences := { s.preferences with shotOffset := some s.shotOffset } }
  else if s.currentSetting = 9 then
    backToMenu { s with
      preferences := { s.preferences with
        displayCompensation := some s.display_compensation_g } }
  else if s.currentSetting = 3 then
    backToMenu { s with
      preferences := { s.preferences with scaleMode := some s.scaleMode } }
  else if s.currentSetting = 4 then
    backToMenu { s with
      preferences := { s.preferences with grindMode := some s.grindMode } }
  else if s.currentSetting = 5 then exitToMenu { s with displayLock := false }
  else if s.currentSetting = 6 then menuReset s
  else if s.currentSetting = 8 then
    backToMenu { s with
      preferences := { s.preferences with grindTrigger := some s.useButtonToGrind } }
  else s

/-! ## `scale.cpp`: validation of a stored divisor in `setupScale` -/

/-- An IEEE double as far as the load-time validation tells values apart: a
finite value, the two infinities, not-a-number.  (The validation calls
`std::isnan`, so here the special values are part of the model.) -/
inductive Dbl where
  | finite (q : ℚ)
  | posInf
  | negInf
  | nan
  deriving DecidableEq, Repr

/-- The comparison `x <= 0` on doubles: false for NaN and for +infinity. -/
def Dbl.leZero : Dbl → Bool
  | Dbl.finite q => decide (q ≤ 0)
  | Dbl.posInf => false
  | Dbl.negInf => true
  | Dbl.nan => false

/-- The test `std::isnan(x)`. -/
def Dbl.isnan : Dbl → Bool
  | Dbl.nan => true
  | _ => false

/-- The comparison `x > 0` on doubles. -/
def Dbl.positive : Dbl → Bool
  | Dbl.finite q => decide (0 < q)
  | Dbl.posInf => true
  | Dbl.negInf => false
  | Dbl.nan => false

/-- Whether a double is finite. -/
def Dbl.isFinite : Dbl → Bool
  | Dbl.finite _ => true
  | _ => false

/-- The loading of one divisor in `setupScale` (`scaleFactor` with key
"calibration", `scaleFactor2` with key "calibration2"): `stored` is the
content of the key, `dflt` the built-in default.  The result is the live
divisor and the value written back to the store, if any. -/
def loadDivisor (dflt : ℚ) (stored : Option Dbl) : Dbl × Option Dbl :=
  let v := stored.getD (Dbl.finite dflt)
  if v.leZero ∨ v.isnan then (Dbl.finite dflt, some (Dbl.finite dflt))
  else (v, none)

/-! ## `scale.cpp`: the tare handling at the start of a sampling cycle -/

/-- What the tare handling of one `updateScale` cycle reads from outside. -/
structure TareEnv where
  /-- Value of `millis()`. -/
  now : Nat
  /-- Result of `loadcell.wait_ready_timeout(1000)` in attempt 1. -/
  ready_1 : Bool
  /-- Result of `loadcell.wait_ready_timeout(1000)` in attempt 2. -/
  ready_2 : Bool
  /-- Result of `loadcell.wait_ready_timeout(1000)` in attempt 3. -/
  ready_3 : Bool
  /-- Result of `loadcell.read_average(10)` in the attempt that is ready. -/
  off1 : Int
  /-- Result of `loadcell2.wait_ready_timeout(1000)`. -/
  ready2 : Bool
  /-- Result of `loadcell2.read_average(20)`. -/
  off2 : Int

/-- How the tare handling of a cycle ends: no tare was requested, the tare
succeeded (the estimator is replaced by a fresh one), or all three attempts
failed (the cycle skips the regular sampling). -/
inductive TareOutcome where
  | notRequested
  | tared
  | failed
  deriving DecidableEq, Repr

/-- The capture of the secondary offset after a successful primary tare:
only when `requestSetOffset` is set (and a second sensor is configured);
the cooldown `aztBlockUntil` is armed when the secondary sensor is ready. -/
def captureSecondaryOffset (e : TareEnv) (s : State) : State :=
  if s.requestSetOffset ∧ LOADCELL2_DOUT_PIN ≠ -1 then
    if e.ready2 then
      { s with
        loadcell2 := { s.loadcell2 with OFFSET := e.off2 },
        loadcell2_offset := e.off2,
        preferences := { s.preferences with offset2 := some e.off2 },
        aztBlockUntil := uadd32 e.now 10000,
        requestSetOffset := false }
    else { s with requestSetOffset := false }
  else s

/-- The statements of a ready tare attempt: the primary offset is set in
the sensor object and in `loadcell_offset` and stored, `lastTareAt` and
`scaleWeight` are reset. -/
def tarePrimary (e : TareEnv) (s : State) : State :=
  { s with
    loadcell := { s.loadcell with OFFSET := e.off1 },
    loadcell_offset := e.off1,
    preferences := { s.preferences with offset1 := some e.off1 },
    lastTareAt := e.now,
    scaleWeight := 0 }

/-- The first statement of the loop of `updateScale`: as long as no tare
has been done (`lastTareAt == 0`) a tare of both sensors is requested. -/
def startupRequest (s : State) : State :=
  if s.lastTareAt = 0 then { s with requestTare := true, requestSetOffset := true } else s

/-- The tare handling at the start of one cycle of `updateScale`: the
start-up request, up to three attempts on the primary sensor, and after a
success the capture of the secondary offset. -/
def tareStep (e : TareEnv) (s : State) : State × TareOutcome :=
  if (startupRequest s).requestTare then
    if e.ready_1 ∨ e.ready_2 ∨ e.ready_3 then
      (captureSecondaryOffset e { tarePrimary e (startupRequest s) with requestTare := false },
        TareOutcome.tared)
    else ({ startupRequest s with requestTare := false }, TareOutcome.failed)
  else (startupRequest s, TareOutcome.notRequested)

/-- One whole cycle of `updateScale`: the tare handling, then, unless the
tare failed, the regular sampling; `fresh` is the estimator that a
successful tare installs. -/
def updateScaleCycle {K : Type} (upd : K → ℚ → K × ℚ) (fresh k : K) (te : TareEnv)
    (e : SampleEnv) (s : State) : K × State :=
  if (tareStep te s).2 = TareOutcome.failed then (k, (tareStep te s).1)
  else if (tareStep te s).2 = TareOutcome.tared then
    updateScale upd fresh e (tareStep te s).1
  else updateScale upd k e (tareStep te s).1

/-! ## `main.cpp`: reading the line of a `w` command -/

/-- The test `isDigit(c)`. -/
def isDigit (c : Char) : Bool := decide (48 ≤ c.toNat) && decide (c.toNat ≤ 57)

/-- The test `isspace(c)` that `String::trim` uses. -/
def isSpace (c : Char) : Bool :=
  decide (c.toNat = 32) || (decide (9 ≤ c.toNat) && decide (c.toNat ≤ 13))

/-- The effect of `String::trim`: blanks are removed at both ends. -/
def trim (l : List Char) : List Char :=
  ((l.dropWhile isSpace).reverse.dropWhile isSpace).reverse

/-- The sensor index that `processSerialCommands` takes from a trimmed,
non-empty line: 1, or the digit in second position when there is one. -/
def sensorOf (line : List Char) : Int :=
  if line.length > 1 ∧ isDigit (line.getD 1 ' ') then
    ((line.getD 1 ' ').toNat : Int) - 48
  else 1

/-- The string `rest` of command `w`, before it is trimmed: for sensor 2 the
line from position 2 on, otherwise the line from position 1 on. -/
def restOf (line : List Char) : List Char :=
  if sensorOf line = 2 then
    if line.length > 2 then line.drop 2 else []
  else
    if line.length > 1 ∧ ¬ isDigit (line.getD 1 ' ') then line.drop 1
    else if line.length > 1 ∧ isDigit (line.getD 1 ' ') then line.drop 1
    else []

/-- The sensor index and the known weight that command `w` takes from the
received line, for a conversion `toFloat` (the library function
`String::toFloat`). -/
def parseWeight (toFloat : List Char → ℚ) (received : List Char) : Int × ℚ :=
  let line := trim received
  let rest := trim (restOf line)
  (sensorOf line, if rest.length = 0 then 0 else toFloat rest)

/-- The digits at the front of a string: their value so far, their number
so far, and what follows them. -/
def readDigits (acc cnt : Nat) : List Char → Nat × Nat × List Char
  | [] => (acc, cnt, [])
  | c :: cs =>
    if isDigit c then readDigits (acc * 10 + (c.toNat - 48)) (cnt + 1) cs
    else (acc, cnt, c :: cs)

/-- The conversion `String::toFloat` (C `atof`) on plain decimal numerals:
leading blanks, an optional sign, digits, an optional fraction; the
conversion stops at the first other character.  The result is given as
sign, the digits read as one number, and the number of fraction digits. -/
def atofParts (l : List Char) : Bool × Nat × Nat :=
  let l1 := l.dropWhile isSpace
  let neg := decide (l1.head? = some '-')
  let l2 := if l1.head? = some '-' ∨ l1.head? = some '+' then l1.drop 1 else l1
  let ip := readDigits 0 0 l2
  if ip.2.2.head? = some '.' then
    let fp := readDigits ip.1 0 (ip.2.2.drop 1)
    (neg, fp.1, fp.2.1)
  else (neg, ip.1, 0)

/-- The value of `atofParts`. -/
def atof (l : List Char) : ℚ :=
  let p := atofParts l
  let v : ℚ := (p.2.1 : ℚ) / (10 : ℚ) ^ p.2.2
  if p.1 then -v else v

/-! ## `rotary.cpp` and `display.cpp`: menu indices -/

/-- The two statements `x = (i + d) % n; x = x < 0 ? n + x : x;` of the menu
navigation in `rotary_loop`; `%` of C is the remainder of the division that
truncates toward zero. -/
def wrapIndex (i d n : Int) : Int :=
  if Int.tmod (i + d) n < 0 then n + Int.tmod (i + d) n else Int.tmod (i + d) n

/-- The value `menuDirection` of `rotary_loop`. -/
def menuDirection (encoderDelta encoderDir : Int) : Int :=
  (if encoderDelta > 0 then 1 else -1) * encoderDir

/-- Case `STATUS_IN_MENU` of the encoder switch of `rotary_loop`.
`encoderDir` and `encoderValue` are the globals of `rotary.cpp`, `newValue`
is `rotaryEncoder.readEncoder()`, the three counts are the globals
`menuItemsCount`, `modeMenuItemsCount`, `configMenuItemsCount` of
`display.cpp`.  The result is the new state and the new `encoderValue`. -/
def navigateMenu (encoderDir encoderValue newValue : Int)
    (menuItemsCount modeMenuItemsCount configMenuItemsCount : Int) (s : State) :
    State × Int :=
  if |newValue - encoderValue| ≥ 1 then
    if s.currentSubmenu = 0 then
      ({ s with currentMenuItem := (wrapIndex s.currentMenuItem
          (menuDirection (newValue - encoderValue) encoderDir) menuItemsCount) },
        newValue)
    else if s.currentSubmenu = 1 then
      ({ s with currentSubmenuItem := (wrapIndex s.currentSubmenuItem
          (menuDirection (newValue - encoderValue) encoderDir) modeMenuItemsCount) },
        newValue)
    else if s.currentSubmenu = 2 then
      ({ s with currentSubmenuItem := (wrapIndex s.currentSubmenuItem
          (menuDirection (newValue - encoderValue) encoderDir) configMenuItemsCount) },
        newValue)
    else (s, newValue)
  else (s, encoderValue)

/-- The value `prevIndex` of `showMenu`, `showModeMenu`, `showConfigMenu`:
`(current - 1) % n`, plus `n` when negative. -/
def prevIndex (current n : Int) : Int :=
  if Int.tmod (current - 1) n < 0 then Int.tmod (current - 1) n + n
  else Int.tmod (current - 1) n

/-- The value `nextIndex` of `showMenu`, `showModeMenu`, `showConfigMenu`:
`(current + 1) % n`. -/
def nextIndex (current n : Int) : Int := Int.tmod (current + 1) n

/-! ## `hx711_test/src/main.cpp`: stability of the raw history -/

def HISTORY_SIZE : Int := 20
def STABLE_THRESHOLD : Int := 2000

/-- One pass of the loop of `checkStability` over the sample `x`: the sum,
the minimum and the maximum so far. -/
def stabilityStep (acc : Int × Int × Int) (x : Int) : Int × Int × Int :=
  (acc.1 + x, min acc.2.1 x, max acc.2.2 x)

/-- Body of `checkStability(samples, count, &average)`: the result is the
returned flag and the value written to `*average` (`none` when nothing is
written).  The loop reads `samples[0]` to `samples[count - 1]`. -/
def checkStability (samples : List Int) (count : Int) : Bool × Option ℚ :=
  if count < HISTORY_SIZE then (false, none)
  else
    let r := (samples.take count.toNat).foldl stabilityStep
      (0, samples.headD 0, samples.headD 0)
    (decide (r.2.2 - r.2.1 < STABLE_THRESHOLD), some ((r.1 : ℚ) / (count : ℚ)))

/-! ## Specification-side definitions and concrete inputs -/

/-- The timer-mode start latch of a grinding step: in scale/timer mode, with
no start time recorded yet and at least 0.1 g above the cup weight, the step
only records the start time. -/
def timerLatch (s : State) : Prop :=
  s.scaleMode = true ∧ s.startedGrindingAt = 0 ∧ s.scaleWeight - s.cupWeightEmpty ≥ 1 / 10

instance (s : State) : Decidable (timerLatch s) := by
  unfold timerLatch; infer_instance

/-- The grind target as the specification words it: the target weight plus
the offset in button-activated automatic mode, the cup weight plus the target
weight plus the offset otherwise, where the offset is the shot offset outside
scale/timer mode and zero in it. -/
def targetFormula (s : State) : ℚ :=
  let offset : ℚ := if s.scaleMode = true then 0 else s.shotOffset
  if s.grindMode = true ∧ s.manualGrindMode = false then s.setWeight + offset
  else s.cupWeightEmpty + s.setWeight + offset

/-- A history environment in which every window query returns `w`, at clock
value `now`, with the grind button released and the sensor ready. -/
def steadyEnv (now : Nat) (w : ℚ) : StatusEnv :=
  { now := now, grindButtonLow := false, ready500 := true, rawTare := 0,
    tenSecAvg := w, min1000 := w, max1000 := w, avg500 := w, firstOlder5000 := w,
    min200 := w, max200 := w }

/-- A grind in progress in scale/timer mode with the cup-detection trigger:
cup 70 g, target 18 g, shot offset -2.5 g, 86 g on the platform, grinder
running since clock value 1000. -/
def timerGrind : State :=
  { State.initial with
    scaleStatus := STATUS_GRINDING_IN_PROGRESS, scaleMode := true, grinderActive := true,
    grinderPin := PinLevel.LOW, scaleReady := true, scaleLastUpdatedAt := 1,
    scaleWeight := 86, cupWeightEmpty := 70, startedGrindingAt := 1000,
    display_compensate_shot := true }

/-- An idle scale in scale/timer mode with the cup-detection trigger and a
70 g cup on the platform. -/
def timerIdle : State :=
  { State.initial with
    scaleMode := true, scaleReady := true, scaleLastUpdatedAt := 1, scaleWeight := 70 }

/-- The state after this run of the workers from `timerIdle`: the status loop
detects the cup and starts the grinder (clock 1000); 61 s later the display
task goes to sleep; the status loop detects the cup again (clock 62050). -/
def afterSleepRestart : State :=
  (scaleStatusLoop (steadyEnv 62050 72)
    (updateDisplay 62000 (scaleStatusLoop (steadyEnv 1000 70) timerIdle).1)).1

/-- The identity estimator: the estimate is the measurement. -/
def passThrough (k : Unit) (x : ℚ) : Unit × ℚ := (k, x)

/-- A scale with both divisors at 1000 counts per gram and zero offsets. -/
def evenScale : State :=
  { State.initial with
    scaleFactor := 1000, scaleFactor2 := 1000, scaleReady := true,
    loadcell := { OFFSET := 0, SCALE := 1000 }, loadcell2 := { OFFSET := 0, SCALE := 1000 } }

/-- A sampling cycle that reads 5000 counts on the primary and 7000 counts on
the secondary sensor. -/
def sample57 : SampleEnv :=
  { now := 3000, ready300 := true, seed_raw := 5000, seed_raw2 := 7000, raw := 5000,
    raw2 := 7000, recent_avg1 := 5, recent_avg2 := 7 }

/-- A finished grind on `evenScale`, waiting for the user to leave the
finished screen: cup 70 g, target 18 g, shot offset 0, an adjustment pending,
the stuck-grounds compensation set to 1 g. -/
def finishedShot : State :=
  { evenScale with
    scaleStatus := STATUS_GRINDING_FINISHED, cupWeightEmpty := 70, shotOffset := 0,
    newOffset := true, startedGrindingAt := 1000, finishedGrindingAt := 9000,
    shotCount := 41, display_compensate_shot := true }

/-- Final reads of 88500 counts on both sensors: 88.5 g fused, 89.5 g with
the compensation. -/
def exitHeavy : ExitEnv :=
  { avg500 := 88, ready1 := true, raw_final1 := 88500, ready2 := true, raw_final2 := 88500 }

/-- Sensor 1 in serial calibration mode with the tare captured at 1000
counts. -/
def calibrating : State :=
  { State.initial with calibration_mode := true, calibration_tare_raw := 1000 }

/-- The selected sensor is ready and averages 91000 counts. -/
def reads91000 : SerialEnv :=
  { now := 5000, ready := true, raw_average := 91000 }

/-- A grind in progress outside timer mode: cup 70 g, target 18 g, shot
offset 0, 80 g on the platform, grinder running since clock value 1000. -/
def cupGrind : State :=
  { State.initial with
    scaleStatus := STATUS_GRINDING_IN_PROGRESS, grinderActive := true,
    grinderPin := PinLevel.LOW, scaleReady := true, scaleLastUpdatedAt := 1,
    scaleWeight := 80, cupWeightEmpty := 70, shotOffset := 0, startedGrindingAt := 1000,
    newOffset := true, display_compensate_shot := true }

/-- The success condition of command `G` as the checks of the code state it:
positive known mass, platform reading within 2 g, confirmation not aborted
and not timed out, a secondary offset other than 0, both sensors ready, and
a measured average above 0.0001 g. -/
def guidedSucceeds (known : ℚ) (e : GuidedEnv) (s : State) : Prop :=
  0 < known ∧ |s.scaleWeight| ≤ 2 ∧ userAborted e.confirm = false ∧
  s.loadcell2_offset ≠ 0 ∧ e.ready1 = true ∧ e.ready2 = true ∧
  measured_total e s > 1 / 10000

/-- Whether auto-zero is evaluated in a sampling cycle: the primary sensor
is ready, auto-zero is enabled and the status is Empty. -/
def autoZeroEvaluated (e : SampleEnv) (s : State) : Prop :=
  e.ready300 = true ∧ s.auto_zero_enabled = true ∧ s.scaleStatus = STATUS_EMPTY

/-- The selected sensor is ready and averages 500 counts, below a tare of
1000 counts. -/
def reads500 : SerialEnv :=
  { now := 5000, ready := true, raw_average := 500 }

/-- The selected sensor is ready and averages 1000 counts, the same as a
tare of 1000 counts. -/
def reads1000 : SerialEnv :=
  { now := 5000, ready := true, raw_average := 1000 }

/-- The calibration screen of the configuration menu is open. -/
def inCalibrationMenu : State :=
  { State.initial with scaleStatus := STATUS_IN_SUBMENU, currentSetting := 1 }

/-- The reset screen is open with "reset" selected, on a scale whose live
divisor is 1000 counts per gram. -/
def inResetMenu : State :=
  { evenScale with scaleStatus := STATUS_IN_SUBMENU, currentSetting := 6, greset := true }

/-- An empty, tared scale with both divisors at 1000 counts per gram and a
secondary offset of 2000 counts. -/
def taredScale : State :=
  { evenScale with loadcell2_offset := 2000, loadcell2 := { OFFSET := 2000, SCALE := 1000 } }

/-- A confirmed guided calibration in which the channels read 98000 and
104000 counts: 98 g and 102 g on `taredScale`. -/
def guided98_102 : GuidedEnv :=
  { now := 9000, confirm := Confirmation.enter, ready1 := true, raw1 := 98000,
    ready2 := true, raw2 := 104000 }

/-- The same readings, but nobody confirms within 30 s. -/
def guidedTimeout : GuidedEnv :=
  { now := 9000, confirm := Confirmation.timeout, ready1 := true, raw1 := 98000,
    ready2 := true, raw2 := 104000 }

/-- An idle scale on which the primary stability counter stands at 7. -/
def almostStable : State :=
  { evenScale with auto_zero_stable := 7, auto_zero_stable2 := 3 }

/-- A sampling cycle that reads 100 counts on both sensors (0.1 g at 1000
counts per gram) with both 2 s averages at 0.1 g. -/
def sampleNearZero : SampleEnv :=
  { now := 30000, ready300 := true, seed_raw := 100, seed_raw2 := 100, raw := 100,
    raw2 := 100, recent_avg1 := 1 / 10, recent_avg2 := 1 / 10 }

/-- A sampling cycle with both 2 s averages at 3 g, out of the auto-zero
band. -/
def sampleOutOfBand : SampleEnv :=
  { now := 30000, ready300 := true, seed_raw := 3000, seed_raw2 := 3000, raw := 3000,
    raw2 := 3000, recent_avg1 := 3, recent_avg2 := 3 }

instance (e : SampleEnv) (s : State) : Decidable (autoZeroEvaluated e s) := by
  unfold autoZeroEvaluated; infer_instance

/-- The state of a successful sampling cycle after the estimator update and
the history pushes, before the auto-zero block (the value `s2` of
`updateScale`). -/
def sampled {K : Type} (upd : K → ℚ → K × ℚ) (k : K) (e : SampleEnv) (s : State) : State :=
  let s1 := seedHistory e { s with hx711_fail_count := 0 }
  let r := upd k (estimatorInput e s1)
  if LOADCELL2_DOUT_PIN ≠ -1 then
    { s1 with scaleWeight := r.2, scaleWeight2 := grams2 e s1,
              weightHistory := historyPush e.now r.2 s1.weightHistory,
              weightHistory2 := historyPush e.now (grams2 e s1) s1.weightHistory2 }
  else
    { s1 with scaleWeight := r.2,
              weightHistory := historyPush e.now r.2 s1.weightHistory }

/-- The primary sensor object after an auto-zero correction by the 2 s
average `avg`. -/
def corrected1 (avg : ℚ) (s : State) : HX711 :=
  { s.loadcell with OFFSET := s.loadcell.OFFSET + truncToLong (avg * s.scaleFactor) }

/-- The secondary sensor object after an auto-zero correction by the 2 s
average `avg`. -/
def corrected2 (avg : ℚ) (s : State) : HX711 :=
  { s.loadcell2 with OFFSET := s.loadcell2.OFFSET + truncToLong (avg * s.scaleFactor2) }

/-- The menu is open while the primary stability counter stands at 7. -/
def stableInMenu : State :=
  { almostStable with scaleStatus := STATUS_IN_MENU }

/-- The grind button has requested a tare of the primary sensor only, on a
scale that was tared before. -/
def buttonTare : State :=
  { evenScale with grindMode := true, lastTareAt := 500, requestTare := true,
                   requestSetOffset := false }

/-- A tare of both sensors has been requested (`tareScale`). -/
def fullTare : State :=
  { evenScale with lastTareAt := 500, requestTare := true, requestSetOffset := true }

/-- Both sensors are ready at the first attempt; the averages are 1234 and
2345 counts. -/
def tareReady : TareEnv :=
  { now := 7000, ready_1 := true, ready_2 := false, ready_3 := false, off1 := 1234,
    ready2 := true, off2 := 2345 }

/-- An idle scale on which the secondary stability counter stands at 7. -/
def almostStable2 : State :=
  { evenScale with auto_zero_stable2 := 7 }

/-- The state after one iteration of the status loop on `timerIdle` (cup
detected, grinder started) and, 61 s later, one iteration of the display
task (sleep): the status is Empty while the grinder is recorded as
running. -/
def sleptGrind : State :=
  updateDisplay 62000 (scaleStatusLoop (steadyEnv 1000 70) timerIdle).1

/-- A grind that finished at clock value 9000 and from which the cup has
been taken: 2 g on the platform. -/
def justFinished : State :=
  { cupGrind with
    scaleStatus := STATUS_GRINDING_FINISHED, grinderActive := false,
    grinderPin := PinLevel.HIGH, finishedGrindingAt := 9000, scaleWeight := 2 }

/-- The state after the sampling cycle `sampleNearZero` on `almostStable2`:
the cycle in which the secondary stability counter reaches 8. -/
def afterSecondaryCorrection : State :=
  (updateScale passThrough () sampleNearZero almostStable2).2

/-- The state after the sampling cycle `sampleOutOfBand` on `stableInMenu`:
the menu is open, the 2 s averages are out of the auto-zero band. -/
def afterMenuCycle : State :=
  (updateScale passThrough () sampleOutOfBand stableInMenu).2

/-- The menu is left after that cycle (`exitToMenu` from the main menu):
the scale is idle again. -/
def menuLeft : State := exitToMenu afterMenuCycle

/-- The readings of `sampleNearZero` three seconds later: 0.1 g on both
channels, both 2 s averages at 0.1 g. -/
def sampleLater : SampleEnv :=
  { sampleNearZero with now := 33000 }

/-- The state `buttonTare` with the primary stability counter at 7. -/
def buttonTareStable : State :=
  { buttonTare with auto_zero_stable := 7 }

/-- The state `fullTare` with the primary stability counter at 7. -/
def fullTareStable : State :=
  { fullTare with auto_zero_stable := 7 }

/-- The regular sampling right after the tare `tareReady`: the primary
sensor reads 1434 counts (0.2 g above the new offset 1234), the secondary
200 counts, both 2 s averages are 0.2 g. -/
def sampleAfterTare : SampleEnv :=
  { now := 7100, ready300 := true, seed_raw := 1434, seed_raw2 := 200, raw := 1434,
    raw2 := 200, recent_avg1 := 1 / 5, recent_avg2 := 1 / 5 }

/-- The main menu is open at its first item. -/
def menuOpen : State :=
  { State.initial with scaleStatus := STATUS_IN_MENU }

/-! ## Shared lemmas -/

theorem grinderToggle_scaleStatus (s : State) :
    (grinderToggle s).scaleStatus = s.scaleStatus := by
  unfold grinderToggle; split_ifs <;> rfl

theorem grinderToggle_on (s : State) (h : s.grinderActive = true) :
    (grinderToggle s).grinderActive = false ∧ (grinderToggle s).grinderPin = PinLevel.HIGH := by
  simp [grinderToggle, h]

theorem grinderToggle_off (s : State) (h : s.grinderActive = false) :
    (grinderToggle s).grinderActive = true ∧ (grinderToggle s).grinderPin = PinLevel.LOW := by
  simp [grinderToggle, h]

/-- The whole result of the grinding case of the switch, by cases. -/
theorem statusGrinding_cases (e : StatusEnv) (s : State) :
    statusGrinding e s =
      if grindFailure e s then (grindFailed s, Flow.cont)
      else if timerLatch s then ({ s with startedGrindingAt := e.now }, Flow.cont)
      else if e.max200 ≥ grindTarget s then (grindFinished e.now s, Flow.cont)
      else (s, Flow.brk) := by
  unfold statusGrinding
  by_cases h1 : s.scaleWeight < -10
  · rw [if_pos h1, if_pos (show grindFailure e s from Or.inl h1)]
  rw [if_neg h1]
  by_cases h2 : ¬ s.scaleReady = true
  · rw [if_pos h2, if_pos (show grindFailure e s from Or.inr (Or.inl (by simpa using h2)))]
  rw [if_neg h2]
  have h2t : s.scaleReady = true := not_not.mp h2
  by_cases h3 : s.scaleMode = true ∧ s.startedGrindingAt = 0 ∧
      s.scaleWeight - s.cupWeightEmpty ≥ 1 / 10
  · have hnf : ¬ grindFailure e s := by
      rintro (h | h | ⟨hm, _⟩)
      · exact h1 h
      · rw [h2t] at h; exact Bool.noConfusion h
      · rw [h3.1] at hm; exact Bool.noConfusion hm
    rw [if_pos h3, if_neg hnf, if_pos (show timerLatch s from h3)]
  rw [if_neg h3]
  have hnl : ¬ timerLatch s := h3
  by_cases h4 : usub32 e.now s.startedGrindingAt > MAX_GRINDING_TIME ∧ ¬ s.scaleMode = true
  · rw [if_pos h4, if_pos (show grindFailure e s from
      Or.inr (Or.inr ⟨by simpa using h4.2, Or.inl h4.1⟩))]
  rw [if_neg h4]
  by_cases h5 : usub32 e.now s.startedGrindingAt > 5000 ∧
      s.scaleWeight - e.firstOlder5000 < 1 ∧ ¬ s.scaleMode = true
  · rw [if_pos h5,
      if_pos (show grindFailure e s from
        Or.inr (Or.inr ⟨by simpa using h5.2.2, Or.inr (Or.inl ⟨h5.1, h5.2.1⟩)⟩))]
  rw [if_neg h5]
  by_cases h6 : e.min200 < s.cupWeightEmpty - CUP_DETECTION_TOLERANCE ∧ ¬ s.scaleMode = true
  · rw [if_pos h6,
      if_pos (show grindFailure e s from
        Or.inr (Or.inr ⟨by simpa using h6.2, Or.inr (Or.inr h6.1)⟩))]
  rw [if_neg h6]
  have hnf : ¬ grindFailure e s := by
    rintro (h | h | ⟨hm, h | h | h⟩)
    · exact h1 h
    · rw [h2t] at h; exact Bool.noConfusion h
    · exact h4 ⟨h, by simp [hm]⟩
    · exact h5 ⟨h.1, h.2, by simp [hm]⟩
    · exact h6 ⟨h, by simp [hm]⟩
  rw [if_neg hnf, if_neg hnl]

theorem noteWeightChange_scaleStatus (e : StatusEnv) (s : State) :
    (noteWeightChange e s).scaleStatus = s.scaleStatus := by
  unfold noteWeightChange; split_ifs <;> rfl

theorem noteWeightChange_grindFailure (e : StatusEnv) (s : State) :
    grindFailure e (noteWeightChange e s) ↔ grindFailure e s := by
  unfold noteWeightChange; split_ifs <;> exact Iff.rfl

theorem noteWeightChange_timerLatch (e : StatusEnv) (s : State) :
    timerLatch (noteWeightChange e s) ↔ timerLatch s := by
  unfold noteWeightChange; split_ifs <;> exact Iff.rfl

theorem noteWeightChange_grindTarget (e : StatusEnv) (s : State) :
    grindTarget (noteWeightChange e s) = grindTarget s := by
  unfold noteWeightChange; split_ifs <;> rfl

theorem noteWeightChange_grinderActive (e : StatusEnv) (s : State) :
    (noteWeightChange e s).grinderActive = s.grinderActive := by
  unfold noteWeightChange; split_ifs <;> rfl

theorem noteWeightChange_finishedGrindingAt (e : StatusEnv) (s : State) :
    (noteWeightChange e s).finishedGrindingAt = s.finishedGrindingAt := by
  unfold noteWeightChange; split_ifs <;> rfl

/-- In state Grinding one iteration of the status loop is the grinding case
applied after the weight-change bookkeeping. -/
theorem scaleStatusLoop_grinding (e : StatusEnv) (s : State)
    (hst : s.scaleStatus = STATUS_GRINDING_IN_PROGRESS) :
    scaleStatusLoop e s = statusGrinding e (noteWeightChange e s) := by
  have h : (noteWeightChange e s).scaleStatus = STATUS_GRINDING_IN_PROGRESS := by
    rw [noteWeightChange_scaleStatus, hst]
  unfold scaleStatusLoop statusSwitch
  rw [if_neg (by rw [h]; decide), if_pos h]

/-- One iteration of the status loop in state Grinding, by cases. -/
theorem scaleStatusLoop_grinding_cases (e : StatusEnv) (s : State)
    (hst : s.scaleStatus = STATUS_GRINDING_IN_PROGRESS) :
    scaleStatusLoop e s =
      if grindFailure e s then (grindFailed (noteWeightChange e s), Flow.cont)
      else if timerLatch s then
        ({ noteWeightChange e s with startedGrindingAt := e.now }, Flow.cont)
      else if e.max200 ≥ grindTarget s then
        (grindFinished e.now (noteWeightChange e s), Flow.cont)
      else (noteWeightChange e s, Flow.brk) := by
  rw [scaleStatusLoop_grinding e s hst, statusGrinding_cases]
  simp only [noteWeightChange_grindFailure, noteWeightChange_timerLatch,
    noteWeightChange_grindTarget]

/-- The status after one iteration of the status loop in state Grinding. -/
theorem scaleStatusLoop_grinding_status (e : StatusEnv) (s : State)
    (hst : s.scaleStatus = STATUS_GRINDING_IN_PROGRESS) :
    (scaleStatusLoop e s).1.scaleStatus =
      if grindFailure e s then STATUS_GRINDING_FAILED
      else if timerLatch s then STATUS_GRINDING_IN_PROGRESS
      else if e.max200 ≥ grindTarget s then STATUS_GRINDING_FINISHED
      else STATUS_GRINDING_IN_PROGRESS := by
  rw [scaleStatusLoop_grinding_cases e s hst]
  split_ifs
  · rfl
  · show (noteWeightChange e s).scaleStatus = _
    rw [noteWeightChange_scaleStatus, hst]
  · rfl
  · show (noteWeightChange e s).scaleStatus = _
    rw [noteWeightChange_scaleStatus, hst]

theorem grindFinished_finishedGrindingAt (now : Nat) (s : State) :
    (grindFinished now s).finishedGrindingAt = now := by
  unfold grindFinished grinderToggle; split_ifs <;> rfl

theorem grindFinished_on (now : Nat) (s : State) (h : s.grinderActive = true) :
    (grindFinished now s).grinderActive = false ∧
      (grindFinished now s).grinderPin = PinLevel.HIGH := by
  unfold grindFinished grinderToggle
  rw [if_neg (by simp [h])]
  exact ⟨rfl, rfl⟩

theorem grindFailed_on (s : State) (h : s.grinderActive = true) :
    (grindFailed s).grinderActive = false ∧ (grindFailed s).grinderPin = PinLevel.HIGH := by
  unfold grindFailed grinderToggle
  rw [if_neg (by simp [h])]
  exact ⟨rfl, rfl⟩

theorem grindFailed_off (s : State) (h : s.grinderActive = false) :
    (grindFailed s).grinderActive = true ∧ (grindFailed s).grinderPin = PinLevel.LOW := by
  unfold grindFailed grinderToggle
  rw [if_pos (by simp [h])]
  exact ⟨rfl, rfl⟩

/-- A grinding step with the weight below -10 g ends in Failed for every
input, and `grinderToggle` inverts the recorded grinder state. -/
theorem scaleStatusLoop_cup_removed (e : StatusEnv) (s : State)
    (hst : s.scaleStatus = STATUS_GRINDING_IN_PROGRESS) (hw : s.scaleWeight < -10) :
    (scaleStatusLoop e s).1.scaleStatus = STATUS_GRINDING_FAILED ∧
    (s.grinderActive = true →
      (scaleStatusLoop e s).1.grinderActive = false ∧
      (scaleStatusLoop e s).1.grinderPin = PinLevel.HIGH) ∧
    (s.grinderActive = false →
      (scaleStatusLoop e s).1.grinderActive = true ∧
      (scaleStatusLoop e s).1.grinderPin = PinLevel.LOW) := by
  have hf : grindFailure e s := Or.inl hw
  rw [scaleStatusLoop_grinding_cases e s hst, if_pos hf]
  refine ⟨rfl, ?_, ?_⟩
  · intro ha
    exact grindFailed_on _ (by rw [noteWeightChange_grinderActive]; exact ha)
  · intro ha
    exact grindFailed_off _ (by rw [noteWeightChange_grinderActive]; exact ha)

/-! ## Grind completion and failure (C1 to C5) -/

/-- C1 as stated fails in scale/timer mode.  Cup 70 g, target 18 g, shot
offset -2.5 g, cup-detection trigger, no failure condition: the 200 ms
maximum 86 g reaches cupWeightEmpty + setWeight + shotOffset = 85.5 g, yet the
step stays Grinding, because the offset is forced to zero in timer mode and
the threshold is 88 g. -/
theorem grind_completion_timer_mode_counterexample :
    timerGrind.scaleStatus = STATUS_GRINDING_IN_PROGRESS ∧
    timerGrind.grindMode = false ∧
    ¬ grindFailure (steadyEnv 5000 86) timerGrind ∧
    (steadyEnv 5000 86).max200 ≥
      timerGrind.cupWeightEmpty + timerGrind.setWeight + timerGrind.shotOffset ∧
    (scaleStatusLoop (steadyEnv 5000 86) timerGrind).1.scaleStatus
      ≠ STATUS_GRINDING_FINISHED := by
  have hst : timerGrind.scaleStatus = STATUS_GRINDING_IN_PROGRESS := rfl
  have hnf : ¬ grindFailure (steadyEnv 5000 86) timerGrind := by
    norm_num [grindFailure, timerGrind, steadyEnv, State.initial]
  refine ⟨hst, rfl, hnf, ?_, ?_⟩
  · norm_num [timerGrind, steadyEnv, State.initial, COFFEE_DOSE_WEIGHT, COFFEE_DOSE_OFFSET]
  · rw [scaleStatusLoop_grinding_status _ _ hst, if_neg hnf]
    have hl : ¬ timerLatch timerGrind := by
      simp [timerLatch, timerGrind, State.initial]
    have ht : ¬ (steadyEnv 5000 86).max200 ≥ grindTarget timerGrind := by
      norm_num [grindTarget, currentOffset, timerGrind, steadyEnv, State.initial,
        COFFEE_DOSE_WEIGHT]
    rw [if_neg hl, if_neg ht]
    decide

/-- C1, amended.  Outside scale/timer mode, with the cup-detection trigger
(grindMode false), a status-loop step taken in state Grinding in which no
failure condition holds ends in Finished if and only if the 200 ms maximum is
at least cupWeightEmpty + setWeight + shotOffset, and otherwise stays
Grinding; for 70 g, 18 g and 0 g the threshold is 88 g.  On the transition
the finish timestamp is the clock value, and a grinder that was recorded as
running is switched off (flag false, relay pin HIGH). -/
theorem grind_completion_cup_aware (e : StatusEnv) (s : State)
    (hst : s.scaleStatus = STATUS_GRINDING_IN_PROGRESS)
    (hgm : s.grindMode = false) (hsm : s.scaleMode = false)
    (hnf : ¬ grindFailure e s) :
    ((scaleStatusLoop e s).1.scaleStatus = STATUS_GRINDING_FINISHED ↔
      e.max200 ≥ s.cupWeightEmpty + s.setWeight + s.shotOffset) ∧
    (¬ e.max200 ≥ s.cupWeightEmpty + s.setWeight + s.shotOffset →
      (scaleStatusLoop e s).1.scaleStatus = STATUS_GRINDING_IN_PROGRESS) ∧
    (e.max200 ≥ s.cupWeightEmpty + s.setWeight + s.shotOffset →
      (scaleStatusLoop e s).1.finishedGrindingAt = e.now ∧
      (s.grinderActive = true →
        (scaleStatusLoop e s).1.grinderActive = false ∧
        (scaleStatusLoop e s).1.grinderPin = PinLevel.HIGH)) ∧
    (s.cupWeightEmpty = 70 → s.setWeight = 18 → s.shotOffset = 0 →
      ((scaleStatusLoop e s).1.scaleStatus = STATUS_GRINDING_FINISHED ↔
        e.max200 ≥ 88)) := by
  have hl : ¬ timerLatch s := by
    rintro ⟨hm, _⟩
    rw [hsm] at hm
    exact Bool.noConfusion hm
  have ht : grindTarget s = s.cupWeightEmpty + s.setWeight + s.shotOffset := by
    simp [grindTarget, currentOffset, hgm, hsm]
  have hiff : (scaleStatusLoop e s).1.scaleStatus = STATUS_GRINDING_FINISHED ↔
      e.max200 ≥ s.cupWeightEmpty + s.setWeight + s.shotOffset := by
    rw [scaleStatusLoop_grinding_status e s hst, if_neg hnf, if_neg hl, ht]
    constructor
    · intro h
      by_contra hc
      rw [if_neg hc] at h
      revert h
      decide
    · intro h
      rw [if_pos h]
  refine ⟨hiff, ?_, ?_, ?_⟩
  · intro h
    rw [scaleStatusLoop_grinding_status e s hst, if_neg hnf, if_neg hl, ht, if_neg h]
  · intro h
    have hr : scaleStatusLoop e s = (grindFinished e.now (noteWeightChange e s), Flow.cont) := by
      rw [scaleStatusLoop_grinding_cases e s hst, if_neg hnf, if_neg hl, ht, if_pos h]
    rw [hr]
    refine ⟨grindFinished_finishedGrindingAt _ _, ?_⟩
    intro ha
    exact grindFinished_on _ _ (by rw [noteWeightChange_grinderActive]; exact ha)
  · intro h1 h2 h3
    rw [hiff, h1, h2, h3]
    norm_num

/-- Witness of `grind_completion_cup_aware`: cup 70 g, target 18 g, shot
offset 0, 200 ms maximum 88 g. -/
theorem grind_completion_cup_aware_witness :
    (cupGrind.scaleStatus = STATUS_GRINDING_IN_PROGRESS ∧ cupGrind.grindMode = false ∧
      cupGrind.scaleMode = false ∧ ¬ grindFailure (steadyEnv 5000 88) cupGrind) ∧
    (scaleStatusLoop (steadyEnv 5000 88) cupGrind).1.scaleStatus
      = STATUS_GRINDING_FINISHED := by
  have hnf : ¬ grindFailure (steadyEnv 5000 88) cupGrind := by
    norm_num [grindFailure, cupGrind, steadyEnv, State.initial, usub32, U32]
  refine ⟨⟨rfl, rfl, rfl, hnf⟩, ?_⟩
  exact (grind_completion_cup_aware (steadyEnv 5000 88) cupGrind rfl rfl rfl hnf).1.mpr
    (by norm_num [cupGrind, steadyEnv, State.initial, COFFEE_DOSE_WEIGHT])

/-- C2, the code at a failing input.  The state `afterSleepRestart` is
reached from an idle scale by the status loop, the display task and the
status loop again; it is Grinding with the grinder recorded as off and the
relay pin HIGH.  With the weight at -11 g the next status-loop step ends in
Failed and `grinderToggle` switches the grinder on: flag true, relay pin
LOW. -/
theorem grind_failure_toggle_switches_grinder_on :
    afterSleepRestart.scaleStatus = STATUS_GRINDING_IN_PROGRESS ∧
    afterSleepRestart.grinderActive = false ∧
    afterSleepRestart.grinderPin = PinLevel.HIGH ∧
    (scaleStatusLoop (steadyEnv 62100 (-11))
      { afterSleepRestart with scaleWeight := -11 }).1.scaleStatus
        = STATUS_GRINDING_FAILED ∧
    (scaleStatusLoop (steadyEnv 62100 (-11))
      { afterSleepRestart with scaleWeight := -11 }).1.grinderActive = true ∧
    (scaleStatusLoop (steadyEnv 62100 (-11))
      { afterSleepRestart with scaleWeight := -11 }).1.grinderPin = PinLevel.LOW := by
  norm_num [afterSleepRestart, updateDisplay, scaleStatusLoop, statusSwitch, statusEmpty,
    statusGrinding, grindFailed, noteWeightChange, timerIdle, steadyEnv, State.initial, ABS,
    grinderToggle, STATUS_EMPTY, CUP_WEIGHT, CUP_DETECTION_TOLERANCE,
    SIGNIFICANT_WEIGHT_CHANGE, usub32, toU32, U32, SLEEP_AFTER_MS,
    STATUS_GRINDING_IN_PROGRESS, STATUS_GRINDING_FINISHED, STATUS_GRINDING_FAILED]

/-- C3, the code at a failing input.  In the running timer-mode grind
`timerGrind`, 62 s after the last significant weight change, one iteration of
the display task, and likewise a call of `wakeScreen`, sets the status to
Empty: neither Finished nor Failed, and the grinder is still recorded as
running with the relay pin LOW. -/
theorem display_sleep_interrupts_grind :
    timerGrind.scaleStatus = STATUS_GRINDING_IN_PROGRESS ∧
    (updateDisplay 62000 timerGrind).scaleStatus = STATUS_EMPTY ∧
    (updateDisplay 62000 timerGrind).grinderActive = true ∧
    (updateDisplay 62000 timerGrind).grinderPin = PinLevel.LOW ∧
    (wakeScreen 62000 timerGrind).scaleStatus = STATUS_EMPTY ∧
    (wakeScreen 62000 timerGrind).grinderActive = true ∧
    (wakeScreen 62000 timerGrind).grinderPin = PinLevel.LOW := by
  norm_num [updateDisplay, wakeScreen, timerGrind, State.initial, usub32, toU32, U32,
    SLEEP_AFTER_MS, STATUS_EMPTY, STATUS_GRINDING_IN_PROGRESS, STATUS_GRINDING_FINISHED]

/-- C4.  The completion threshold of a grinding step is setWeight + offset in
button-activated automatic mode (grindMode on, manual mode off) and
cupWeightEmpty + setWeight + offset in every other mode, with offset the shot
offset outside scale/timer mode and 0 in it; and a status-loop step in state
Grinding that reaches the completion check (no failure condition, no
timer-mode start latch) ends in Finished exactly when the 200 ms maximum is
at least that threshold. -/
theorem grind_target_formula (e : StatusEnv) (s : State) :
    grindTarget s = targetFormula s ∧
    (s.scaleStatus = STATUS_GRINDING_IN_PROGRESS → ¬ grindFailure e s → ¬ timerLatch s →
      ((scaleStatusLoop e s).1.scaleStatus = STATUS_GRINDING_FINISHED ↔
        e.max200 ≥ targetFormula s)) := by
  have ht : grindTarget s = targetFormula s := by
    unfold grindTarget currentOffset targetFormula
    cases s.grindMode <;> cases s.manualGrindMode <;> cases s.scaleMode <;> simp
  refine ⟨ht, ?_⟩
  intro hst hnf hl
  rw [scaleStatusLoop_grinding_status e s hst, if_neg hnf, if_neg hl, ht]
  constructor
  · intro h
    by_contra hc
    rw [if_neg hc] at h
    revert h
    decide
  · intro h
    rw [if_pos h]

/-- Witness of `grind_target_formula`: the running grind `cupGrind` (cup
70 g, target 18 g, offset 0) with a 200 ms maximum of 88 g. -/
theorem grind_target_formula_witness :
    (cupGrind.scaleStatus = STATUS_GRINDING_IN_PROGRESS ∧
      ¬ grindFailure (steadyEnv 5000 88) cupGrind ∧ ¬ timerLatch cupGrind) ∧
    targetFormula cupGrind = 88 ∧
    (scaleStatusLoop (steadyEnv 5000 88) cupGrind).1.scaleStatus
      = STATUS_GRINDING_FINISHED := by
  have hnf : ¬ grindFailure (steadyEnv 5000 88) cupGrind := by
    norm_num [grindFailure, cupGrind, steadyEnv, State.initial, usub32, U32]
  have hl : ¬ timerLatch cupGrind := by
    norm_num [timerLatch, cupGrind, State.initial]
  have h88 : targetFormula cupGrind = 88 := by
    norm_num [targetFormula, cupGrind, State.initial, COFFEE_DOSE_WEIGHT]
  refine ⟨⟨rfl, hnf, hl⟩, h88, ?_⟩
  exact ((grind_target_formula (steadyEnv 5000 88) cupGrind).2 rfl hnf hl).mpr
    (by rw [h88]; norm_num [steadyEnv])

/-- C5.  A status-loop step taken in state Grinding ends in Failed if and
only if the weight is below -10 g, or the scale is not ready, or, outside
scale/timer mode, the elapsed grind time exceeds 20000 ms, or it exceeds
5000 ms with less than 1 g gained since the first history value older than
5 s, or the 200 ms minimum is below cupWeightEmpty - 5.  In timer mode with
the weight at least -10 g and the scale ready no step ends in Failed. -/
theorem grind_failure_characterisation (e : StatusEnv) (s : State)
    (hst : s.scaleStatus = STATUS_GRINDING_IN_PROGRESS) :
    ((scaleStatusLoop e s).1.scaleStatus = STATUS_GRINDING_FAILED ↔
      (s.scaleWeight < -10 ∨ s.scaleReady = false ∨
        (s.scaleMode = false ∧
          (usub32 e.now s.startedGrindingAt > 20000 ∨
           (usub32 e.now s.startedGrindingAt > 5000 ∧
              s.scaleWeight - e.firstOlder5000 < 1) ∨
           e.min200 < s.cupWeightEmpty - 5)))) ∧
    (s.scaleMode = true → s.scaleWeight ≥ -10 → s.scaleReady = true →
      (scaleStatusLoop e s).1.scaleStatus ≠ STATUS_GRINDING_FAILED) := by
  have hiff : (scaleStatusLoop e s).1.scaleStatus = STATUS_GRINDING_FAILED ↔
      grindFailure e s := by
    rw [scaleStatusLoop_grinding_status e s hst]
    constructor
    · intro h
      by_contra hc
      rw [if_neg hc] at h
      revert h
      split_ifs <;> decide
    · intro h
      rw [if_pos h]
  refine ⟨hiff, ?_⟩
  intro hm hw hr
  rw [Ne, hiff]
  rintro (h | h | ⟨h, _⟩)
  · exact absurd hw (not_le.mpr h)
  · rw [hr] at h; exact Bool.noConfusion h
  · rw [hm] at h; exact Bool.noConfusion h

/-- Witness of `grind_failure_characterisation`: in the running grind
`cupGrind`, 21 s after the start, the step ends in Failed. -/
theorem grind_failure_characterisation_witness :
    cupGrind.scaleStatus = STATUS_GRINDING_IN_PROGRESS ∧
    (scaleStatusLoop (steadyEnv 22000 80) cupGrind).1.scaleStatus
      = STATUS_GRINDING_FAILED :=
  ⟨rfl, (grind_failure_characterisation (steadyEnv 22000 80) cupGrind rfl).1.mpr
    (Or.inr (Or.inr ⟨rfl, Or.inl (by norm_num [cupGrind, steadyEnv, State.initial,
      usub32, U32])⟩))⟩

/-! ## Fusion, shot-offset learning, serial calibration (C6 to C10) -/

theorem estimatorInput_seedHistory (e : SampleEnv) (s : State) :
    estimatorInput e (seedHistory e s) = estimatorInput e s := by
  unfold seedHistory; dsimp only; split_ifs <;> rfl

theorem autoZero1_scaleWeight (e : SampleEnv) (s : State) :
    (autoZero1 e s).scaleWeight = s.scaleWeight := by
  unfold autoZero1; dsimp only; split_ifs <;> rfl

theorem autoZero2_scaleWeight (e : SampleEnv) (s : State) :
    (autoZero2 e s).scaleWeight = s.scaleWeight := by
  unfold autoZero2; dsimp only; split_ifs <;> rfl

theorem autoZero_scaleWeight (e : SampleEnv) (s : State) :
    (autoZero e s).scaleWeight = s.scaleWeight := by
  unfold autoZero
  split_ifs
  · rfl
  · rw [autoZero2_scaleWeight, autoZero1_scaleWeight]
  · rfl
  · rfl

/-- The estimator state and the weight after a successful sampling cycle are
the result of the estimator update on `estimatorInput`. -/
theorem updateScale_ready {K : Type} (upd : K → ℚ → K × ℚ) (k : K) (e : SampleEnv)
    (s : State) (hr : e.ready300 = true) :
    (updateScale upd k e s).1 = (upd k (estimatorInput e s)).1 ∧
    (updateScale upd k e s).2.scaleWeight = (upd k (estimatorInput e s)).2 := by
  have hin : estimatorInput e (seedHistory e { s with hx711_fail_count := 0 }) =
      estimatorInput e s := by
    rw [estimatorInput_seedHistory]; rfl
  unfold updateScale
  rw [if_pos hr]
  dsimp only
  rw [hin]
  refine ⟨rfl, ?_⟩
  rw [autoZero_scaleWeight]
  split_ifs <;> rfl

/-- C6.  With both channels configured, in every sampling cycle in which the
primary sensor is ready the value given to the estimator, and so the
estimator state and the weight after the cycle, come from the mean
(grams1 + grams2) / 2 of the per-channel grams (raw - offset) / divisor (the
secondary offset being `loadcell2_offset`); for 5 g and 7 g the value is
6 g. -/
theorem fusion_is_mean {K : Type} (upd : K → ℚ → K × ℚ) (k : K) (e : SampleEnv)
    (s : State) (hr : e.ready300 = true) :
    estimatorInput e s =
      (((e.raw - s.loadcell.OFFSET : Int) : ℚ) / s.scaleFactor +
        ((e.raw2 - s.loadcell2_offset : Int) : ℚ) / s.scaleFactor2) / 2 ∧
    (updateScale upd k e s).1 =
      (upd k ((((e.raw - s.loadcell.OFFSET : Int) : ℚ) / s.scaleFactor +
        ((e.raw2 - s.loadcell2_offset : Int) : ℚ) / s.scaleFactor2) / 2)).1 ∧
    (updateScale upd k e s).2.scaleWeight =
      (upd k ((((e.raw - s.loadcell.OFFSET : Int) : ℚ) / s.scaleFactor +
        ((e.raw2 - s.loadcell2_offset : Int) : ℚ) / s.scaleFactor2) / 2)).2 ∧
    (((e.raw - s.loadcell.OFFSET : Int) : ℚ) / s.scaleFactor = 5 →
      ((e.raw2 - s.loadcell2_offset : Int) : ℚ) / s.scaleFactor2 = 7 →
      estimatorInput e s = 6 ∧
      (updateScale upd k e s).2.scaleWeight = (upd k 6).2) := by
  have hin : estimatorInput e s =
      (((e.raw - s.loadcell.OFFSET : Int) : ℚ) / s.scaleFactor +
        ((e.raw2 - s.loadcell2_offset : Int) : ℚ) / s.scaleFactor2) / 2 := by
    unfold estimatorInput grams grams2
    rw [if_pos (by decide), if_pos (by decide)]
  have h := updateScale_ready upd k e s hr
  rw [hin] at h
  refine ⟨hin, h.1, h.2, ?_⟩
  intro h5 h7
  have h6 : estimatorInput e s = 6 := by
    rw [hin, h5, h7]; norm_num
  refine ⟨h6, ?_⟩
  rw [(updateScale_ready upd k e s hr).2, h6]

/-- Witness of `fusion_is_mean`: 5000 and 7000 counts at 1000 counts per
gram give 6 g after the cycle with the identity estimator. -/
theorem fusion_is_mean_witness :
    sample57.ready300 = true ∧
    (updateScale passThrough () sample57 evenScale).2.scaleWeight = 6 := by
  refine ⟨rfl, ?_⟩
  have h := (fusion_is_mean passThrough () sample57 evenScale rfl).2.2.2
    (by norm_num [sample57, evenScale, State.initial])
    (by norm_num [sample57, evenScale, State.initial])
  rw [h.2]
  rfl

theorem ABS_eq_abs (a : ℚ) : ABS a = |a| := by
  unfold ABS
  split_ifs with h
  · rw [abs_of_pos h]
  · rw [abs_of_nonpos (not_lt.mp h)]; ring

theorem constrainShotOffset_eq_clamp (x : ℚ) :
    constrainShotOffset x = clamp x (-10) 10 := by
  unfold constrainShotOffset clamp
  by_cases h1 : x > 10
  · rw [if_pos h1, if_neg (by norm_num), min_eq_right (le_of_lt h1), max_eq_right (by norm_num)]
  · rw [if_neg h1, min_eq_left (not_lt.mp h1)]
    by_cases h2 : x < -10
    · rw [if_pos h2, max_eq_left (le_of_lt h2)]
    · rw [if_neg h2, max_eq_right (not_lt.mp h2)]

/-- The result of the exit adjustment above the deadband. -/
theorem applyShotOffsetAdjustmentOnExit_adjust (e : ExitEnv) (s : State)
    (hp : s.newOffset = true) (herr : |weightError e s| > 3 / 10) :
    applyShotOffsetAdjustmentOnExit e s =
      { s with
        shotOffset := constrainShotOffset (s.shotOffset + weightError e s),
        shotCount := uadd32 s.shotCount 1,
        preferences := { s.preferences with
          shotOffset := some (constrainShotOffset (s.shotOffset + weightError e s)),
          shotCount := some (uadd32 s.shotCount 1) },
        newOffset := false } := by
  unfold applyShotOffsetAdjustmentOnExit
  dsimp only
  rw [if_neg (by simp [hp]), if_pos (show AUTO_OFFSET_ADJUSTMENT = true from rfl),
    if_pos (by rw [ABS_eq_abs]; exact herr)]

theorem uadd32_one (n : Nat) (h : n + 1 < 4294967296) : uadd32 n 1 = n + 1 := by
  unfold uadd32 U32
  exact Nat.mod_eq_of_lt h

/-- C7.  When the exit adjustment runs with an adjustment pending and the
error (setWeight + cupWeightEmpty) - actualWeight is more than 0.3 g in
absolute value, the new shot offset is the old one plus the error, clamped to
[-10, 10]; the 32 bit shot counter is incremented by one; both new values are
written to the store; and for a target of 88 g and an actual weight of
89.5 g the offset changes by exactly -1.5 g when the clamp does not bind. -/
theorem shot_offset_learning (e : ExitEnv) (s : State)
    (hp : s.newOffset = true) (herr : |weightError e s| > 3 / 10) :
    (applyShotOffsetAdjustmentOnExit e s).shotOffset =
      clamp (s.shotOffset + ((s.setWeight + s.cupWeightEmpty) - actualWeight e s)) (-10) 10 ∧
    (applyShotOffsetAdjustmentOnExit e s).shotCount = (s.shotCount + 1) % 4294967296 ∧
    (s.shotCount + 1 < 4294967296 →
      (applyShotOffsetAdjustmentOnExit e s).shotCount = s.shotCount + 1) ∧
    (applyShotOffsetAdjustmentOnExit e s).preferences.shotOffset =
      some (applyShotOffsetAdjustmentOnExit e s).shotOffset ∧
    (applyShotOffsetAdjustmentOnExit e s).preferences.shotCount =
      some (applyShotOffsetAdjustmentOnExit e s).shotCount ∧
    (s.setWeight + s.cupWeightEmpty = 88 → actualWeight e s = 895 / 10 →
      -10 ≤ s.shotOffset - 15 / 10 → s.shotOffset - 15 / 10 ≤ 10 →
      (applyShotOffsetAdjustmentOnExit e s).shotOffset - s.shotOffset = -(15 / 10)) := by
  rw [applyShotOffsetAdjustmentOnExit_adjust e s hp herr]
  refine ⟨?_, rfl, ?_, rfl, rfl, ?_⟩
  · show constrainShotOffset (s.shotOffset + weightError e s) = _
    rw [constrainShotOffset_eq_clamp]; rfl
  · intro h
    exact uadd32_one _ h
  · intro ht ha hlo hhi
    show constrainShotOffset (s.shotOffset + weightError e s) - s.shotOffset = _
    have hw : s.shotOffset + weightError e s = s.shotOffset - 15 / 10 := by
      unfold weightError; rw [ht, ha]; ring
    rw [hw, constrainShotOffset_eq_clamp]
    unfold clamp
    rw [min_eq_left hhi, max_eq_right hlo]
    ring

/-- Witness of `shot_offset_learning`: target 88 g, actual weight 89.5 g,
old offset 0, counter 41. -/
theorem shot_offset_learning_witness :
    (finishedShot.newOffset = true ∧ |weightError exitHeavy finishedShot| > 3 / 10) ∧
    (applyShotOffsetAdjustmentOnExit exitHeavy finishedShot).shotOffset
      - finishedShot.shotOffset = -(15 / 10) ∧
    (applyShotOffsetAdjustmentOnExit exitHeavy finishedShot).shotCount = 42 := by
  have ha : actualWeight exitHeavy finishedShot = 895 / 10 := by
    norm_num [actualWeight, exitHeavy, finishedShot, evenScale, State.initial,
      LOADCELL2_DOUT_PIN]
  have ht : finishedShot.setWeight + finishedShot.cupWeightEmpty = 88 := by
    norm_num [finishedShot, evenScale, State.initial, COFFEE_DOSE_WEIGHT]
  have herr : |weightError exitHeavy finishedShot| > 3 / 10 := by
    unfold weightError
    rw [ht, ha]
    norm_num [abs_of_neg]
  have h := shot_offset_learning exitHeavy finishedShot rfl herr
  exact ⟨⟨rfl, herr⟩,
    h.2.2.2.2.2 ht ha (by norm_num [finishedShot]) (by norm_num [finishedShot]),
    h.2.2.1 (by norm_num [finishedShot])⟩

/-- C9.  Calling the exit adjustment twice in a row changes nothing the
second time, whatever the sensors read in either call: the state after two
calls is the state after one, in particular the shot offset, the shot counter
and the store. -/
theorem exit_adjustment_idempotent (e1 e2 : ExitEnv) (s : State) :
    applyShotOffsetAdjustmentOnExit e2 (applyShotOffsetAdjustmentOnExit e1 s) =
      applyShotOffsetAdjustmentOnExit e1 s ∧
    (applyShotOffsetAdjustmentOnExit e2 (applyShotOffsetAdjustmentOnExit e1 s)).shotOffset =
      (applyShotOffsetAdjustmentOnExit e1 s).shotOffset ∧
    (applyShotOffsetAdjustmentOnExit e2 (applyShotOffsetAdjustmentOnExit e1 s)).shotCount =
      (applyShotOffsetAdjustmentOnExit e1 s).shotCount ∧
    (applyShotOffsetAdjustmentOnExit e2 (applyShotOffsetAdjustmentOnExit e1 s)).preferences =
      (applyShotOffsetAdjustmentOnExit e1 s).preferences := by
  have hclear : (applyShotOffsetAdjustmentOnExit e1 s).newOffset = false := by
    unfold applyShotOffsetAdjustmentOnExit
    by_cases hp : s.newOffset = true
    · rw [if_neg (by simp [hp])]
    · rw [if_pos hp]; simpa using hp
  have hsame : applyShotOffsetAdjustmentOnExit e2 (applyShotOffsetAdjustmentOnExit e1 s) =
      applyShotOffsetAdjustmentOnExit e1 s := by
    generalize applyShotOffsetAdjustmentOnExit e1 s = t at hclear ⊢
    unfold applyShotOffsetAdjustmentOnExit
    rw [if_pos (by simp [hclear])]
  exact ⟨hsame, by rw [hsame], by rw [hsame], by rw [hsame]⟩

/-- C10.  A serial `w` calibration that succeeds (the sensor is in
calibration mode, the known weight is in (0, 1000], the sensor is ready)
installs (raw_with_weight - tare_raw) / known_weight as the live divisor of
the selected channel, in the global and in the sensor object, and writes the
same value to the store; for tare 1000, reading 91000 and 100 g the divisor
is 900. -/
theorem serial_calibration_formula (sensor : Int) (w : ℚ) (e : SerialEnv) (s : State)
    (hw0 : 0 < w) (hw1 : w ≤ 1000) (hr : e.ready = true) :
    (sensor ≠ 2 → s.calibration_mode = true →
      (serialWeight sensor w e s).scaleFactor =
        ((e.raw_average - s.calibration_tare_raw : Int) : ℚ) / w ∧
      (serialWeight sensor w e s).loadcell.SCALE =
        ((e.raw_average - s.calibration_tare_raw : Int) : ℚ) / w ∧
      (serialWeight sensor w e s).preferences.calibration =
        some (((e.raw_average - s.calibration_tare_raw : Int) : ℚ) / w)) ∧
    (sensor = 2 → s.calibration_mode2 = true →
      (serialWeight sensor w e s).scaleFactor2 =
        ((e.raw_average - s.calibration_tare_raw2 : Int) : ℚ) / w ∧
      (serialWeight sensor w e s).loadcell2.SCALE =
        ((e.raw_average - s.calibration_tare_raw2 : Int) : ℚ) / w ∧
      (serialWeight sensor w e s).preferences.calibration2 =
        some (((e.raw_average - s.calibration_tare_raw2 : Int) : ℚ) / w)) ∧
    (sensor ≠ 2 → s.calibration_mode = true → s.calibration_tare_raw = 1000 →
      e.raw_average = 91000 → w = 100 →
      (serialWeight sensor w e s).scaleFactor = 900 ∧
      (serialWeight sensor w e s).loadcell.SCALE = 900 ∧
      (serialWeight sensor w e s).preferences.calibration = some 900) := by
  have hrange : ¬ (w ≤ 0 ∨ w > 1000) := by
    rintro (h | h)
    · exact absurd hw0 (not_lt.mpr h)
    · exact absurd hw1 (not_le.mpr h)
  have h1 : sensor ≠ 2 → s.calibration_mode = true →
      (serialWeight sensor w e s).scaleFactor =
        ((e.raw_average - s.calibration_tare_raw : Int) : ℚ) / w ∧
      (serialWeight sensor w e s).loadcell.SCALE =
        ((e.raw_average - s.calibration_tare_raw : Int) : ℚ) / w ∧
      (serialWeight sensor w e s).preferences.calibration =
        some (((e.raw_average - s.calibration_tare_raw : Int) : ℚ) / w) := by
    intro hs hm
    unfold serialWeight
    dsimp only
    rw [if_neg hs, if_neg (by simp [hm]), if_neg hrange, if_pos hr]
    exact ⟨rfl, rfl, rfl⟩
  refine ⟨h1, ?_, ?_⟩
  · intro hs hm
    unfold serialWeight
    dsimp only
    rw [if_pos hs, if_neg (by simp [hm]), if_neg hrange, if_pos hr]
    exact ⟨rfl, rfl, rfl⟩
  · intro hs hm ht hraw hw
    have h := h1 hs hm
    rw [ht, hraw] at h
    rw [hw] at h ⊢
    norm_num at h
    exact h

/-- Witness of `serial_calibration_formula`: sensor 1, tare 1000, reading
91000, known weight 100 g. -/
theorem serial_calibration_formula_witness :
    ((0 : ℚ) < 100 ∧ (100 : ℚ) ≤ 1000 ∧ reads91000.ready = true) ∧
    (serialWeight 1 100 reads91000 calibrating).scaleFactor = 900 ∧
    (serialWeight 1 100 reads91000 calibrating).loadcell.SCALE = 900 ∧
    (serialWeight 1 100 reads91000 calibrating).preferences.calibration = some 900 :=
  ⟨⟨by norm_num, by norm_num, rfl⟩,
    (serial_calibration_formula 1 100 reads91000 calibrating (by norm_num) (by norm_num)
      rfl).2.2 (by decide) rfl rfl rfl rfl⟩

/-! ## Calibration paths and load-time validation (C11 to C18) -/

/-- C11, the code at failing inputs.  A serial calibration of sensor 1 with
tare 1000 counts, a reading of 500 counts and a known weight of 100 g
installs the divisor -5 in `scaleFactor`, in the sensor object and in the
store.  The menu calibration with a raw reading of -50000 passes its
validation (which tests absolute values) and gives -500 to the sensor
object and to the store. -/
theorem serial_calibration_installs_negative_divisor :
    (serialWeight 1 100 reads500 calibrating).scaleFactor = -5 ∧
    (serialWeight 1 100 reads500 calibrating).loadcell.SCALE = -5 ∧
    (serialWeight 1 100 reads500 calibrating).preferences.calibration = some (-5) ∧
    (submenuClick (-50000) inCalibrationMenu).loadcell.SCALE = -500 ∧
    (submenuClick (-50000) inCalibrationMenu).preferences.calibration = some (-500) := by
  refine ⟨?_, ?_, ?_, ?_, ?_⟩
  · norm_num [serialWeight, reads500, calibrating, State.initial]
  · norm_num [serialWeight, reads500, calibrating, State.initial]
  · norm_num [serialWeight, reads500, calibrating, State.initial]
  · norm_num [submenuClick, menuCalibration, backToMenu, inCalibrationMenu, State.initial,
      abs_of_neg, abs_of_pos]
  · norm_num [submenuClick, menuCalibration, backToMenu, inCalibrationMenu, State.initial,
      abs_of_neg, abs_of_pos]

/-- The state after a serial weight command whose weight is out of range:
untouched when the sensor is not in calibration mode, and otherwise only the
recorded known weight is overwritten. -/
theorem serialWeight_out_of_range (sensor : Int) (w : ℚ) (e : SerialEnv) (s : State)
    (h : w ≤ 0 ∨ w > 1000) :
    serialWeight sensor w e s = s ∨
    serialWeight sensor w e s = { s with calibration_known_weight := w } ∨
    serialWeight sensor w e s = { s with calibration_known_weight2 := w } := by
  unfold serialWeight
  dsimp only
  by_cases hs : sensor = 2
  · rw [if_pos hs]
    by_cases hm : ¬ s.calibration_mode2 = true
    · rw [if_pos hm]; exact Or.inl rfl
    · rw [if_neg hm, if_pos h]; exact Or.inr (Or.inr rfl)
  · rw [if_neg hs]
    by_cases hm : ¬ s.calibration_mode = true
    · rw [if_pos hm]; exact Or.inl rfl
    · rw [if_neg hm, if_pos h]; exact Or.inr (Or.inl rfl)

/-- C12.  A serial `w` command whose parsed known weight is at most 0 or
above 1000, for either sensor, leaves both live divisors (globals and sensor
objects), both stored divisors and the auto-zero cooldown deadline
unchanged, and the sensor stays in the calibration mode it was in. -/
theorem out_of_range_weight_rejected (sensor : Int) (w : ℚ) (e : SerialEnv) (s : State)
    (h : w ≤ 0 ∨ w > 1000) :
    (serialWeight sensor w e s).scaleFactor = s.scaleFactor ∧
    (serialWeight sensor w e s).scaleFactor2 = s.scaleFactor2 ∧
    (serialWeight sensor w e s).loadcell = s.loadcell ∧
    (serialWeight sensor w e s).loadcell2 = s.loadcell2 ∧
    (serialWeight sensor w e s).preferences = s.preferences ∧
    (serialWeight sensor w e s).aztBlockUntil = s.aztBlockUntil ∧
    (serialWeight sensor w e s).calibration_mode = s.calibration_mode ∧
    (serialWeight sensor w e s).calibration_mode2 = s.calibration_mode2 := by
  rcases serialWeight_out_of_range sensor w e s h with h1 | h1 | h1 <;> rw [h1] <;>
    exact ⟨rfl, rfl, rfl, rfl, rfl, rfl, rfl, rfl⟩

/-- Witness of `out_of_range_weight_rejected`: 1500 g on sensor 1 in
calibration mode. -/
theorem out_of_range_weight_rejected_witness :
    ((1500 : ℚ) ≤ 0 ∨ (1500 : ℚ) > 1000) ∧
    (serialWeight 1 1500 reads91000 calibrating).scaleFactor = calibrating.scaleFactor ∧
    (serialWeight 1 1500 reads91000 calibrating).preferences = calibrating.preferences ∧
    (serialWeight 1 1500 reads91000 calibrating).aztBlockUntil = calibrating.aztBlockUntil :=
  have h := out_of_range_weight_rejected 1 1500 reads91000 calibrating
    (Or.inr (by norm_num))
  ⟨Or.inr (by norm_num), h.1, h.2.2.2.2.1, h.2.2.2.2.2.1⟩

/-- C13, the code at a failing input.  A serial calibration of sensor 1 in
which the reading with the weight placed equals the tare (1000 counts both,
known weight 100 g) does not abort: the divisor 0 is installed in
`scaleFactor` and in the sensor object and stored, and the calibration state
is cleared. -/
theorem zero_difference_calibration_installs_zero :
    calibrating.scaleFactor = 436259 / 100 ∧
    (serialWeight 1 100 reads1000 calibrating).scaleFactor = 0 ∧
    (serialWeight 1 100 reads1000 calibrating).loadcell.SCALE = 0 ∧
    (serialWeight 1 100 reads1000 calibrating).preferences.calibration = some 0 ∧
    (serialWeight 1 100 reads1000 calibrating).calibration_mode = false ∧
    (serialWeight 1 100 reads1000 calibrating).calibration_tare_raw = 0 := by
  refine ⟨?_, ?_, ?_, ?_, ?_, ?_⟩ <;>
    norm_num [serialWeight, reads1000, calibrating, State.initial, LOADCELL_SCALE_FACTOR]

/-- C14, the code at failing inputs.  The menu calibration with a raw
reading of 450000 stores 4500 under "calibration" and gives it to the sensor
object, while `scaleFactor`, the divisor of the sampling pipeline, stays at
4362.59.  The menu reset on a scale with live divisor 1000 stores the
default 4362.59 while `scaleFactor` stays at 1000. -/
theorem menu_calibration_leaves_scaleFactor :
    (submenuClick 450000 inCalibrationMenu).preferences.calibration = some 4500 ∧
    (submenuClick 450000 inCalibrationMenu).loadcell.SCALE = 4500 ∧
    (submenuClick 450000 inCalibrationMenu).scaleFactor = 436259 / 100 ∧
    (submenuClick 450000 inCalibrationMenu).scaleStatus = STATUS_IN_MENU ∧
    (submenuClick 0 inResetMenu).preferences.calibration = some (436259 / 100) ∧
    (submenuClick 0 inResetMenu).scaleFactor = 1000 := by
  refine ⟨?_, ?_, ?_, ?_, ?_, ?_⟩
  · norm_num [submenuClick, menuCalibration, backToMenu, inCalibrationMenu, State.initial,
      abs_of_pos]
  · norm_num [submenuClick, menuCalibration, backToMenu, inCalibrationMenu, State.initial,
      abs_of_pos]
  · norm_num [submenuClick, menuCalibration, backToMenu, inCalibrationMenu, State.initial,
      LOADCELL_SCALE_FACTOR]
  · norm_num [submenuClick, menuCalibration, backToMenu, inCalibrationMenu, State.initial]
  · norm_num [submenuClick, menuReset, backToMenu, inResetMenu, evenScale, State.initial,
      LOADCELL_SCALE_FACTOR]
  · norm_num [submenuClick, menuReset, backToMenu, inResetMenu, evenScale, State.initial]

/-- The result of a guided calibration whose checks all pass. -/
theorem serialGuided_success (known : ℚ) (e : GuidedEnv) (s : State)
    (h : guidedSucceeds known e s) :
    serialGuided known e s =
      { s with
        scaleFactor := s.scaleFactor * multiplier known e s,
        scaleFactor2 := s.scaleFactor2 * multiplier known e s,
        loadcell := { s.loadcell with SCALE := s.scaleFactor * multiplier known e s },
        loadcell2 := { s.loadcell2 with SCALE := s.scaleFactor2 * multiplier known e s },
        preferences := { s.preferences with
          calibration := some (s.scaleFactor * multiplier known e s),
          calibration2 := some (s.scaleFactor2 * multiplier known e s) },
        aztBlockUntil := uadd32 e.now 10000 } := by
  obtain ⟨h1, h2, h3, h4, h5, h6, h7⟩ := h
  unfold serialGuided
  dsimp only
  rw [if_neg (not_le.mpr h1), if_neg (not_lt.mpr h2), if_neg (by simp [h3]),
    if_neg (fun hc => h4 hc.2), if_neg (by simp [h5]), if_neg (by simp [h6]),
    if_neg (not_le.mpr h7), if_pos (by decide)]

/-- A guided calibration in which one of the checks fails leaves the state
as it was. -/
theorem serialGuided_abort (known : ℚ) (e : GuidedEnv) (s : State)
    (h : ¬ guidedSucceeds known e s) :
    serialGuided known e s = s := by
  unfold serialGuided
  dsimp only
  by_cases h1 : known ≤ 0
  · rw [if_pos h1]
  rw [if_neg h1]
  by_cases h2 : |s.scaleWeight| > 2
  · rw [if_pos h2]
  rw [if_neg h2]
  by_cases h3 : userAborted e.confirm = true
  · rw [if_pos h3]
  rw [if_neg h3]
  by_cases h4 : LOADCELL2_DOUT_PIN ≠ -1 ∧ s.loadcell2_offset = 0
  · rw [if_pos h4]
  rw [if_neg h4]
  by_cases h5 : ¬ e.ready1 = true
  · rw [if_pos h5]
  rw [if_neg h5]
  by_cases h6 : LOADCELL2_DOUT_PIN ≠ -1 ∧ ¬ e.ready2 = true
  · rw [if_pos h6]
  rw [if_neg h6]
  by_cases h7 : measured_total e s ≤ 1 / 10000
  · rw [if_pos h7]
  exfalso
  apply h
  refine ⟨not_le.mp h1, not_lt.mp h2, by simpa using h3, ?_, not_not.mp h5, ?_,
    not_le.mp h7⟩
  · intro hc
    exact h4 ⟨by decide, hc⟩
  · by_contra hc
    exact h6 ⟨by decide, hc⟩

theorem measured_total_eq (e : GuidedEnv) (s : State) :
    measured_total e s =
      (((e.raw1 - s.loadcell.OFFSET : Int) : ℚ) / s.scaleFactor +
        ((e.raw2 - s.loadcell2_offset : Int) : ℚ) / s.scaleFactor2) / 2 := by
  unfold measured_total measured1 measured2
  rw [if_pos (by decide)]

theorem multiplier_pos (known : ℚ) (e : GuidedEnv) (s : State)
    (h : guidedSucceeds known e s) : 0 < multiplier known e s := by
  obtain ⟨h1, _, _, _, _, _, h7⟩ := h
  unfold multiplier
  exact div_pos h1 (lt_trans (by norm_num) h7)

/-- C15.  In a guided calibration that succeeds the multiplier is
known_mass / ((measured1 + measured2) / 2), the measured values being the
readings under the current divisors, and both divisors are multiplied by it;
when the channels measure 98 g and 102 g and the known mass is 100 g the
multiplier is exactly 1 and both divisors are unchanged. -/
theorem guided_unit_multiplier (known : ℚ) (e : GuidedEnv) (s : State)
    (h : guidedSucceeds known e s) :
    multiplier known e s =
      known / ((((e.raw1 - s.loadcell.OFFSET : Int) : ℚ) / s.scaleFactor +
        ((e.raw2 - s.loadcell2_offset : Int) : ℚ) / s.scaleFactor2) / 2) ∧
    (serialGuided known e s).scaleFactor = s.scaleFactor * multiplier known e s ∧
    (serialGuided known e s).scaleFactor2 = s.scaleFactor2 * multiplier known e s ∧
    (((e.raw1 - s.loadcell.OFFSET : Int) : ℚ) / s.scaleFactor = 98 →
      ((e.raw2 - s.loadcell2_offset : Int) : ℚ) / s.scaleFactor2 = 102 → known = 100 →
      multiplier known e s = 1 ∧
      (serialGuided known e s).scaleFactor = s.scaleFactor ∧
      (serialGuided known e s).scaleFactor2 = s.scaleFactor2) := by
  have hm : multiplier known e s =
      known / ((((e.raw1 - s.loadcell.OFFSET : Int) : ℚ) / s.scaleFactor +
        ((e.raw2 - s.loadcell2_offset : Int) : ℚ) / s.scaleFactor2) / 2) := by
    unfold multiplier; rw [measured_total_eq]
  rw [serialGuided_success known e s h]
  refine ⟨hm, rfl, rfl, ?_⟩
  intro h98 h102 hk
  have h1 : multiplier known e s = 1 := by
    rw [hm, h98, h102, hk]; norm_num
  refine ⟨h1, ?_, ?_⟩
  · show s.scaleFactor * multiplier known e s = s.scaleFactor
    rw [h1, mul_one]
  · show s.scaleFactor2 * multiplier known e s = s.scaleFactor2
    rw [h1, mul_one]

theorem guided98_102_measures :
    ((guided98_102.raw1 - taredScale.loadcell.OFFSET : Int) : ℚ) / taredScale.scaleFactor
      = 98 ∧
    ((guided98_102.raw2 - taredScale.loadcell2_offset : Int) : ℚ) / taredScale.scaleFactor2
      = 102 := by
  constructor <;> norm_num [guided98_102, taredScale, evenScale, State.initial]

theorem guided98_102_succeeds (known : ℚ) (hk : 0 < known) :
    guidedSucceeds known guided98_102 taredScale := by
  have hm := guided98_102_measures
  refine ⟨hk, ?_, rfl, ?_, rfl, rfl, ?_⟩
  · norm_num [taredScale, evenScale, State.initial]
  · norm_num [taredScale]
  · rw [measured_total_eq, hm.1, hm.2]; norm_num

/-- Witness of `guided_unit_multiplier`: 98 g and 102 g measured on
`taredScale`, known mass 100 g. -/
theorem guided_unit_multiplier_witness :
    guidedSucceeds 100 guided98_102 taredScale ∧
    multiplier 100 guided98_102 taredScale = 1 ∧
    (serialGuided 100 guided98_102 taredScale).scaleFactor = taredScale.scaleFactor ∧
    (serialGuided 100 guided98_102 taredScale).scaleFactor2 = taredScale.scaleFactor2 :=
  ⟨guided98_102_succeeds 100 (by norm_num),
    (guided_unit_multiplier 100 guided98_102 taredScale
      (guided98_102_succeeds 100 (by norm_num))).2.2.2
      guided98_102_measures.1 guided98_102_measures.2 rfl⟩

/-- C16.  In a guided calibration that succeeds both divisors are multiplied
by the same multiplier, the quotient scaleFactor / scaleFactor2 is the same
after as before, and no raw offset changes (sensor objects and globals). -/
theorem guided_preserves_ratio (known : ℚ) (e : GuidedEnv) (s : State)
    (h : guidedSucceeds known e s) :
    (serialGuided known e s).scaleFactor = s.scaleFactor * multiplier known e s ∧
    (serialGuided known e s).scaleFactor2 = s.scaleFactor2 * multiplier known e s ∧
    (serialGuided known e s).scaleFactor / (serialGuided known e s).scaleFactor2 =
      s.scaleFactor / s.scaleFactor2 ∧
    (serialGuided known e s).loadcell.OFFSET = s.loadcell.OFFSET ∧
    (serialGuided known e s).loadcell2.OFFSET = s.loadcell2.OFFSET ∧
    (serialGuided known e s).loadcell_offset = s.loadcell_offset ∧
    (serialGuided known e s).loadcell2_offset = s.loadcell2_offset := by
  have hpos := multiplier_pos known e s h
  rw [serialGuided_success known e s h]
  refine ⟨rfl, rfl, ?_, rfl, rfl, rfl, rfl⟩
  show s.scaleFactor * multiplier known e s / (s.scaleFactor2 * multiplier known e s) =
    s.scaleFactor / s.scaleFactor2
  exact mul_div_mul_right _ _ (ne_of_gt hpos)

/-- Witness of `guided_preserves_ratio`: 98 g and 102 g measured on
`taredScale`, known mass 50 g: both divisors are halved. -/
theorem guided_preserves_ratio_witness :
    guidedSucceeds 50 guided98_102 taredScale ∧
    (serialGuided 50 guided98_102 taredScale).scaleFactor /
      (serialGuided 50 guided98_102 taredScale).scaleFactor2 =
      taredScale.scaleFactor / taredScale.scaleFactor2 ∧
    (serialGuided 50 guided98_102 taredScale).loadcell2_offset = 2000 :=
  have h := guided_preserves_ratio 50 guided98_102 taredScale
    (guided98_102_succeeds 50 (by norm_num))
  ⟨guided98_102_succeeds 50 (by norm_num), h.2.2.1, h.2.2.2.2.2.2⟩

/-- C17.  On every abort path of the guided calibration (known mass at most
0, platform reading beyond 2 g in absolute value, abort typed, confirmation
timeout, secondary offset 0, a sensor not ready, measured average at most
0.0001) the command changes nothing: both live divisors, both stored
divisors, all raw offsets and the auto-zero cooldown deadline are what they
were. -/
theorem guided_abort_atomic (known : ℚ) (e : GuidedEnv) (s : State)
    (h : known ≤ 0 ∨ |s.scaleWeight| > 2 ∨ e.confirm = Confirmation.abort ∨
      e.confirm = Confirmation.timeout ∨ s.loadcell2_offset = 0 ∨ e.ready1 = false ∨
      e.ready2 = false ∨ measured_total e s ≤ 1 / 10000) :
    serialGuided known e s = s ∧
    (serialGuided known e s).scaleFactor = s.scaleFactor ∧
    (serialGuided known e s).scaleFactor2 = s.scaleFactor2 ∧
    (serialGuided known e s).loadcell = s.loadcell ∧
    (serialGuided known e s).loadcell2 = s.loadcell2 ∧
    (serialGuided known e s).preferences.calibration = s.preferences.calibration ∧
    (serialGuided known e s).preferences.calibration2 = s.preferences.calibration2 ∧
    (serialGuided known e s).loadcell_offset = s.loadcell_offset ∧
    (serialGuided known e s).loadcell2_offset = s.loadcell2_offset ∧
    (serialGuided known e s).aztBlockUntil = s.aztBlockUntil := by
  have hn : ¬ guidedSucceeds known e s := by
    rintro ⟨h1, h2, h3, h4, h5, h6, h7⟩
    rcases h with h | h | h | h | h | h | h | h
    · exact absurd h1 (not_lt.mpr h)
    · exact absurd h2 (not_le.mpr h)
    · rw [h] at h3; exact Bool.noConfusion h3
    · rw [h] at h3; exact Bool.noConfusion h3
    · exact h4 h
    · rw [h5] at h; exact Bool.noConfusion h
    · rw [h6] at h; exact Bool.noConfusion h
    · exact absurd h7 (not_lt.mpr h)
  have hs := serialGuided_abort known e s hn
  rw [hs]
  exact ⟨rfl, rfl, rfl, rfl, rfl, rfl, rfl, rfl, rfl, rfl⟩

/-- Witness of `guided_abort_atomic`: nobody confirms within 30 s. -/
theorem guided_abort_atomic_witness :
    guidedTimeout.confirm = Confirmation.timeout ∧
    serialGuided 100 guidedTimeout taredScale = taredScale :=
  ⟨rfl, (guided_abort_atomic 100 guidedTimeout taredScale
    (Or.inr (Or.inr (Or.inr (Or.inl rfl))))).1⟩

/-- C18, the code at a failing input.  A stored +infinity is not at most 0
and not NaN, so it passes the validation, becomes the live divisor and
nothing is written back: the live divisor after the load is not finite.
The values the guard does catch (-infinity, NaN, 0) are replaced by the
default. -/
theorem load_keeps_infinite_divisor :
    (loadDivisor LOADCELL_SCALE_FACTOR (some Dbl.posInf)).1 = Dbl.posInf ∧
    (loadDivisor LOADCELL_SCALE_FACTOR (some Dbl.posInf)).2 = none ∧
    (loadDivisor LOADCELL_SCALE_FACTOR (some Dbl.posInf)).1.isFinite = false ∧
    (loadDivisor LOADCELL_SCALE_FACTOR (some Dbl.negInf)).1 = Dbl.finite LOADCELL_SCALE_FACTOR ∧
    (loadDivisor LOADCELL_SCALE_FACTOR (some Dbl.nan)).1 = Dbl.finite LOADCELL_SCALE_FACTOR ∧
    (loadDivisor LOADCELL_SCALE_FACTOR (some (Dbl.finite 0))).1
      = Dbl.finite LOADCELL_SCALE_FACTOR := by
  refine ⟨?_, ?_, ?_, ?_, ?_, ?_⟩ <;> simp [loadDivisor, Dbl.leZero, Dbl.isnan, Dbl.isFinite]

/-- What the load-time validation does for every stored divisor v of either
channel (default dflt > 0): when v > 0, which includes +infinity, the live
divisor after the load is v and nothing is written; otherwise (v at most 0
or NaN) the live divisor is the default and the default is written back.
In particular a finite v > 0 is kept, and the live divisor after the load
is always > 0 and never NaN. -/
theorem load_divisor_validation (dflt : ℚ) (v : Dbl) (hd : 0 < dflt) :
    (v.positive = true → loadDivisor dflt (some v) = (v, none)) ∧
    (v.positive = false →
      loadDivisor dflt (some v) = (Dbl.finite dflt, some (Dbl.finite dflt))) ∧
    (∀ q : ℚ, v = Dbl.finite q → 0 < q →
      (loadDivisor dflt (some v)).1 = Dbl.finite q) ∧
    (loadDivisor dflt (some v)).1.positive = true ∧
    (loadDivisor dflt (some v)).1.isnan = false := by
  cases v with
  | finite q =>
    by_cases hq : 0 < q
    · have hle : ¬ q ≤ 0 := not_le.mpr hq
      simp [loadDivisor, Dbl.leZero, Dbl.isnan, Dbl.positive, hq, hle]
    · have hle : q ≤ 0 := not_lt.mp hq
      simp [loadDivisor, Dbl.leZero, Dbl.isnan, Dbl.positive, hq, hle, hd]
  | posInf => simp [loadDivisor, Dbl.leZero, Dbl.isnan, Dbl.positive]
  | negInf => simp [loadDivisor, Dbl.leZero, Dbl.isnan, Dbl.positive, hd]
  | nan => simp [loadDivisor, Dbl.leZero, Dbl.isnan, Dbl.positive, hd]

/-- Witness of `load_divisor_validation`: a stored -5 is replaced by the
default 4362.59, which is written back. -/
theorem load_divisor_validation_witness :
    (0 : ℚ) < LOADCELL_SCALE_FACTOR ∧
    loadDivisor LOADCELL_SCALE_FACTOR (some (Dbl.finite (-5))) =
      (Dbl.finite LOADCELL_SCALE_FACTOR, some (Dbl.finite LOADCELL_SCALE_FACTOR)) :=
  ⟨by norm_num [LOADCELL_SCALE_FACTOR],
    (load_divisor_validation LOADCELL_SCALE_FACTOR (Dbl.finite (-5))
      (by norm_num [LOADCELL_SCALE_FACTOR])).2.1 (by simp [Dbl.positive])⟩

/-! ## Auto-zero tracking (C19, C20) -/

theorem autoZero1_secondary (e : SampleEnv) (s : State) :
    (autoZero1 e s).loadcell2 = s.loadcell2 ∧
    (autoZero1 e s).auto_zero_stable2 = s.auto_zero_stable2 ∧
    (autoZero1 e s).scaleFactor2 = s.scaleFactor2 := by
  unfold autoZero1; dsimp only; split_ifs <;> exact ⟨rfl, rfl, rfl⟩

theorem autoZero2_primary (e : SampleEnv) (s : State) :
    (autoZero2 e s).loadcell = s.loadcell ∧
    (autoZero2 e s).auto_zero_stable = s.auto_zero_stable := by
  unfold autoZero2; dsimp only; split_ifs <;> exact ⟨rfl, rfl⟩

theorem autoZero1_primary (e : SampleEnv) (s : State) :
    ((autoZero1 e s).loadcell, (autoZero1 e s).auto_zero_stable) =
      if |e.recent_avg1| ≤ 1 / 4 then
        if s.auto_zero_stable + 1 ≥ 8 then (corrected1 e.recent_avg1 s, 0)
        else (s.loadcell, s.auto_zero_stable + 1)
      else (s.loadcell, 0) := by
  unfold autoZero1 corrected1 AZT_MIN_G AZT_REQUIRED; dsimp only; split_ifs <;> rfl

theorem autoZero2_secondary (e : SampleEnv) (s : State) :
    ((autoZero2 e s).loadcell2, (autoZero2 e s).auto_zero_stable2) =
      if |e.recent_avg2| ≤ 1 / 4 then
        if s.auto_zero_stable2 + 1 ≥ 8 then (corrected2 e.recent_avg2 s, 0)
        else (s.loadcell2, s.auto_zero_stable2 + 1)
      else (s.loadcell2, 0) := by
  unfold autoZero2 corrected2 AZT_MIN_G AZT_REQUIRED
  rw [if_pos (by decide)]
  dsimp only; split_ifs <;> rfl

/-- The primary sensor object and stability counter after the auto-zero
block. -/
theorem autoZero_primary (e : SampleEnv) (s : State) :
    ((autoZero e s).loadcell, (autoZero e s).auto_zero_stable) =
      if s.auto_zero_enabled = true ∧ s.scaleStatus = STATUS_EMPTY then
        if e.now < s.aztBlockUntil then (s.loadcell, 0)
        else if s.scaleReady = true ∧ |s.scaleWeight| ≤ 1 / 4 then
          if |e.recent_avg1| ≤ 1 / 4 then
            if s.auto_zero_stable + 1 ≥ 8 then (corrected1 e.recent_avg1 s, 0)
            else (s.loadcell, s.auto_zero_stable + 1)
          else (s.loadcell, 0)
        else (s.loadcell, 0)
      else (s.loadcell, s.auto_zero_stable) := by
  unfold autoZero AZT_MIN_G
  by_cases h1 : s.auto_zero_enabled = true ∧ s.scaleStatus = STATUS_EMPTY
  · rw [if_pos h1, if_pos h1]
    by_cases h2 : e.now < s.aztBlockUntil
    · rw [if_pos h2, if_pos h2]
    rw [if_neg h2, if_neg h2]
    by_cases h3 : s.scaleReady = true ∧ |s.scaleWeight| ≤ 1 / 4
    · rw [if_pos h3, if_pos h3, (autoZero2_primary e _).1, (autoZero2_primary e _).2]
      exact autoZero1_primary e s
    · rw [if_neg h3, if_neg h3]
  · rw [if_neg h1, if_neg h1]

/-- The secondary sensor object and stability counter after the auto-zero
block. -/
theorem autoZero_secondary (e : SampleEnv) (s : State) :
    ((autoZero e s).loadcell2, (autoZero e s).auto_zero_stable2) =
      if s.auto_zero_enabled = true ∧ s.scaleStatus = STATUS_EMPTY then
        if e.now < s.aztBlockUntil then (s.loadcell2, 0)
        else if s.scaleReady = true ∧ |s.scaleWeight| ≤ 1 / 4 then
          if |e.recent_avg2| ≤ 1 / 4 then
            if s.auto_zero_stable2 + 1 ≥ 8 then (corrected2 e.recent_avg2 s, 0)
            else (s.loadcell2, s.auto_zero_stable2 + 1)
          else (s.loadcell2, 0)
        else (s.loadcell2, 0)
      else (s.loadcell2, s.auto_zero_stable2) := by
  unfold autoZero AZT_MIN_G
  by_cases h1 : s.auto_zero_enabled = true ∧ s.scaleStatus = STATUS_EMPTY
  · rw [if_pos h1, if_pos h1]
    by_cases h2 : e.now < s.aztBlockUntil
    · rw [if_pos h2, if_pos h2]
    rw [if_neg h2, if_neg h2]
    by_cases h3 : s.scaleReady = true ∧ |s.scaleWeight| ≤ 1 / 4
    · rw [if_pos h3, if_pos h3, autoZero2_secondary]
      unfold corrected2
      rw [(autoZero1_secondary e s).1, (autoZero1_secondary e s).2.1,
        (autoZero1_secondary e s).2.2]
    · rw [if_neg h3, if_neg h3]
  · rw [if_neg h1, if_neg h1]

theorem sampled_fields {K : Type} (upd : K → ℚ → K × ℚ) (k : K) (e : SampleEnv)
    (s : State) :
    (sampled upd k e s).loadcell = s.loadcell ∧
    (sampled upd k e s).loadcell2 = s.loadcell2 ∧
    (sampled upd k e s).auto_zero_stable = s.auto_zero_stable ∧
    (sampled upd k e s).auto_zero_stable2 = s.auto_zero_stable2 ∧
    (sampled upd k e s).auto_zero_enabled = s.auto_zero_enabled ∧
    (sampled upd k e s).scaleStatus = s.scaleStatus ∧
    (sampled upd k e s).aztBlockUntil = s.aztBlockUntil ∧
    (sampled upd k e s).scaleReady = s.scaleReady ∧
    (sampled upd k e s).scaleFactor = s.scaleFactor ∧
    (sampled upd k e s).scaleFactor2 = s.scaleFactor2 ∧
    (sampled upd k e s).loadcell_offset = s.loadcell_offset ∧
    (sampled upd k e s).loadcell2_offset = s.loadcell2_offset := by
  unfold sampled seedHistory
  dsimp only
  split_ifs <;> exact ⟨rfl, rfl, rfl, rfl, rfl, rfl, rfl, rfl, rfl, rfl, rfl, rfl⟩

/-- A successful sampling cycle is the auto-zero block applied to `sampled`,
followed by the final timestamp, history push and ready flag. -/
theorem updateScale_ready_eq {K : Type} (upd : K → ℚ → K × ℚ) (k : K) (e : SampleEnv)
    (s : State) (hr : e.ready300 = true) :
    (updateScale upd k e s).2 =
      { autoZero e (sampled upd k e s) with
        scaleLastUpdatedAt := e.now,
        weightHistory := historyPush e.now (autoZero e (sampled upd k e s)).scaleWeight
          (autoZero e (sampled upd k e s)).weightHistory,
        scaleReady := true } := by
  unfold updateScale sampled
  rw [if_pos hr]

/-- A sampling cycle in which the sensor is not ready leaves the sensor
objects, the offsets and the stability counters as they are. -/
theorem updateScale_not_ready {K : Type} (upd : K → ℚ → K × ℚ) (k : K) (e : SampleEnv)
    (s : State) (hr : ¬ e.ready300 = true) :
    (updateScale upd k e s).2.loadcell = s.loadcell ∧
    (updateScale upd k e s).2.loadcell2 = s.loadcell2 ∧
    (updateScale upd k e s).2.auto_zero_stable = s.auto_zero_stable ∧
    (updateScale upd k e s).2.auto_zero_stable2 = s.auto_zero_stable2 ∧
    (updateScale upd k e s).2.loadcell_offset = s.loadcell_offset ∧
    (updateScale upd k e s).2.loadcell2_offset = s.loadcell2_offset := by
  unfold updateScale
  rw [if_neg hr]
  dsimp only
  split_ifs <;> exact ⟨rfl, rfl, rfl, rfl, rfl, rfl⟩

/-- The primary sensor object and stability counter after a sampling
cycle. -/
theorem updateScale_primary {K : Type} (upd : K → ℚ → K × ℚ) (k : K) (e : SampleEnv)
    (s : State) :
    ((updateScale upd k e s).2.loadcell, (updateScale upd k e s).2.auto_zero_stable) =
      if autoZeroEvaluated e s then
        if e.now < s.aztBlockUntil then (s.loadcell, 0)
        else if s.scaleReady = true ∧ |(sampled upd k e s).scaleWeight| ≤ 1 / 4 then
          if |e.recent_avg1| ≤ 1 / 4 then
            if s.auto_zero_stable + 1 ≥ 8 then (corrected1 e.recent_avg1 s, 0)
            else (s.loadcell, s.auto_zero_stable + 1)
          else (s.loadcell, 0)
        else (s.loadcell, 0)
      else (s.loadcell, s.auto_zero_stable) := by
  obtain ⟨f1, _, f3, _, f5, f6, f7, f8, f9, _, _, _⟩ := sampled_fields upd k e s
  by_cases hr : e.ready300 = true
  · rw [updateScale_ready_eq upd k e s hr]
    show ((autoZero e (sampled upd k e s)).loadcell,
      (autoZero e (sampled upd k e s)).auto_zero_stable) = _
    rw [autoZero_primary]
    unfold corrected1
    rw [f1, f3, f5, f6, f7, f8, f9]
    by_cases h1 : s.auto_zero_enabled = true ∧ s.scaleStatus = STATUS_EMPTY
    · rw [if_pos h1, if_pos (show autoZeroEvaluated e s from ⟨hr, h1.1, h1.2⟩)]
    · rw [if_neg h1, if_neg (show ¬ autoZeroEvaluated e s from fun h => h1 ⟨h.2.1, h.2.2⟩)]
  · have h := updateScale_not_ready upd k e s hr
    rw [h.1, h.2.2.1, if_neg (show ¬ autoZeroEvaluated e s from fun h => hr h.1)]

/-- The secondary sensor object and stability counter after a sampling
cycle. -/
theorem updateScale_secondary {K : Type} (upd : K → ℚ → K × ℚ) (k : K) (e : SampleEnv)
    (s : State) :
    ((updateScale upd k e s).2.loadcell2, (updateScale upd k e s).2.auto_zero_stable2) =
      if autoZeroEvaluated e s then
        if e.now < s.aztBlockUntil then (s.loadcell2, 0)
        else if s.scaleReady = true ∧ |(sampled upd k e s).scaleWeight| ≤ 1 / 4 then
          if |e.recent_avg2| ≤ 1 / 4 then
            if s.auto_zero_stable2 + 1 ≥ 8 then (corrected2 e.recent_avg2 s, 0)
            else (s.loadcell2, s.auto_zero_stable2 + 1)
          else (s.loadcell2, 0)
        else (s.loadcell2, 0)
      else (s.loadcell2, s.auto_zero_stable2) := by
  obtain ⟨_, f2, _, f4, f5, f6, f7, f8, _, f10, _, _⟩ := sampled_fields upd k e s
  by_cases hr : e.ready300 = true
  · rw [updateScale_ready_eq upd k e s hr]
    show ((autoZero e (sampled upd k e s)).loadcell2,
      (autoZero e (sampled upd k e s)).auto_zero_stable2) = _
    rw [autoZero_secondary]
    unfold corrected2
    rw [f2, f4, f5, f6, f7, f8, f10]
    by_cases h1 : s.auto_zero_enabled = true ∧ s.scaleStatus = STATUS_EMPTY
    · rw [if_pos h1, if_pos (show autoZeroEvaluated e s from ⟨hr, h1.1, h1.2⟩)]
    · rw [if_neg h1, if_neg (show ¬ autoZeroEvaluated e s from fun h => h1 ⟨h.2.1, h.2.2⟩)]
  · have h := updateScale_not_ready upd k e s hr
    rw [h.2.1, h.2.2.2.1, if_neg (show ¬ autoZeroEvaluated e s from fun h => hr h.1)]

/-- What follows for one channel from the case table of a sampling cycle:
`lc`, `c` are the sensor object and counter before, `lc1`, `c1` after, `cor`
the corrected sensor object. -/
theorem azt_channel_facts (ev blocked quiet inband : Prop) [Decidable ev]
    [Decidable blocked] [Decidable quiet] [Decidable inband]
    (lc lc1 cor : HX711) (c c1 : Int)
    (h : (lc1, c1) =
      if ev then
        if blocked then (lc, 0)
        else if quiet then
          if inband then (if c + 1 ≥ 8 then (cor, 0) else (lc, c + 1)) else (lc, 0)
        else (lc, 0)
      else (lc, c)) :
    (lc1.OFFSET ≠ lc.OFFSET → ev ∧ ¬ blocked ∧ inband ∧ c + 1 ≥ 8 ∧ c1 = 0) ∧
    (ev → ¬ inband → c1 = 0 ∧ lc1 = lc) ∧
    (c1 ≠ 0 → c1 ≠ c → c1 = c + 1 ∧ ev ∧ inband ∧ lc1 = lc) ∧
    (¬ ev → c1 = c ∧ lc1 = lc) ∧
    (blocked → lc1 = lc ∧ (ev → c1 = 0)) := by
  by_cases h1 : ev
  · rw [if_pos h1] at h
    by_cases h2 : blocked
    · rw [if_pos h2] at h
      obtain ⟨rfl, rfl⟩ := Prod.mk.inj h
      simp [h1, h2]
    rw [if_neg h2] at h
    by_cases h3 : quiet
    · rw [if_pos h3] at h
      by_cases h4 : inband
      · rw [if_pos h4] at h
        by_cases h5 : c + 1 ≥ 8
        · rw [if_pos h5] at h
          obtain ⟨rfl, rfl⟩ := Prod.mk.inj h
          simp [h1, h2, h4, h5]
        · rw [if_neg h5] at h
          obtain ⟨rfl, rfl⟩ := Prod.mk.inj h
          simp [h1, h2, h4]
      · rw [if_neg h4] at h
        obtain ⟨rfl, rfl⟩ := Prod.mk.inj h
        simp [h1, h2, h4]
    · rw [if_neg h3] at h
      obtain ⟨rfl, rfl⟩ := Prod.mk.inj h
      simp [h1, h2]
  · rw [if_neg h1] at h
    obtain ⟨rfl, rfl⟩ := Prod.mk.inj h
    simp [h1]

theorem autoZero_global_offsets (e : SampleEnv) (s : State) :
    (autoZero e s).loadcell_offset = s.loadcell_offset ∧
    (autoZero e s).loadcell2_offset = s.loadcell2_offset := by
  have h1 : ∀ t : State, (autoZero1 e t).loadcell_offset = t.loadcell_offset ∧
      (autoZero1 e t).loadcell2_offset = t.loadcell2_offset := by
    intro t; unfold autoZero1; dsimp only; split_ifs <;> exact ⟨rfl, rfl⟩
  have h2 : ∀ t : State, (autoZero2 e t).loadcell_offset = t.loadcell_offset ∧
      (autoZero2 e t).loadcell2_offset = t.loadcell2_offset := by
    intro t; unfold autoZero2; dsimp only; split_ifs <;> exact ⟨rfl, rfl⟩
  unfold autoZero
  split_ifs
  · exact ⟨rfl, rfl⟩
  · exact ⟨by rw [(h2 _).1, (h1 _).1], by rw [(h2 _).2, (h1 _).2]⟩
  · exact ⟨rfl, rfl⟩
  · exact ⟨rfl, rfl⟩

/-- The sampling part of a cycle never writes the globals `loadcell_offset`
and `loadcell2_offset`. -/
theorem updateScale_global_offsets {K : Type} (upd : K → ℚ → K × ℚ) (k : K)
    (e : SampleEnv) (s : State) :
    (updateScale upd k e s).2.loadcell_offset = s.loadcell_offset ∧
    (updateScale upd k e s).2.loadcell2_offset = s.loadcell2_offset := by
  by_cases hr : e.ready300 = true
  · rw [updateScale_ready_eq upd k e s hr]
    obtain ⟨_, _, _, _, _, _, _, _, _, _, f11, f12⟩ := sampled_fields upd k e s
    show (autoZero e (sampled upd k e s)).loadcell_offset = _ ∧
      (autoZero e (sampled upd k e s)).loadcell2_offset = _
    rw [(autoZero_global_offsets e _).1, (autoZero_global_offsets e _).2, f11, f12]
    exact ⟨rfl, rfl⟩
  · have h := updateScale_not_ready upd k e s hr
    exact ⟨h.2.2.2.2.1, h.2.2.2.2.2⟩

theorem sampled_scaleWeight {K : Type} (upd : K → ℚ → K × ℚ) (k : K) (e : SampleEnv)
    (s : State) :
    (sampled upd k e s).scaleWeight = (upd k (estimatorInput e s)).2 := by
  have hin : estimatorInput e (seedHistory e { s with hx711_fail_count := 0 }) =
      estimatorInput e s := by
    rw [estimatorInput_seedHistory]; rfl
  unfold sampled
  dsimp only
  rw [hin]
  split_ifs <;> rfl

/-- A correction does happen: on the idle scale `almostStable` (primary
counter 7) a cycle that reads 0.1 g with a 2 s average of 0.1 g moves the
primary offset by 100 counts and resets the counter, while the secondary
counter goes from 3 to 4. -/
theorem azt_fires_at_eight :
    (updateScale passThrough () sampleNearZero almostStable).2.loadcell.OFFSET = 100 ∧
    (updateScale passThrough () sampleNearZero almostStable).2.auto_zero_stable = 0 ∧
    (updateScale passThrough () sampleNearZero almostStable).2.auto_zero_stable2 = 4 := by
  have hev : autoZeroEvaluated sampleNearZero almostStable := ⟨rfl, rfl, rfl⟩
  have hnb : ¬ sampleNearZero.now < almostStable.aztBlockUntil := by
    norm_num [sampleNearZero, almostStable, evenScale, State.initial]
  have hq : almostStable.scaleReady = true ∧
      |(sampled passThrough () sampleNearZero almostStable).scaleWeight| ≤ 1 / 4 := by
    refine ⟨rfl, ?_⟩
    rw [sampled_scaleWeight]
    norm_num [passThrough, estimatorInput, grams, grams2, sampleNearZero, almostStable,
      evenScale, State.initial, LOADCELL2_DOUT_PIN, abs_of_pos]
  have hin1 : |sampleNearZero.recent_avg1| ≤ 1 / 4 := by
    norm_num [sampleNearZero, abs_of_pos]
  have hin2 : |sampleNearZero.recent_avg2| ≤ 1 / 4 := by
    norm_num [sampleNearZero, abs_of_pos]
  have h1 := updateScale_primary passThrough () sampleNearZero almostStable
  rw [if_pos hev, if_neg hnb, if_pos hq, if_pos hin1,
    if_pos (show almostStable.auto_zero_stable + 1 ≥ 8 by decide)] at h1
  have h2 := updateScale_secondary passThrough () sampleNearZero almostStable
  rw [if_pos hev, if_neg hnb, if_pos hq, if_pos hin2,
    if_neg (show ¬ almostStable.auto_zero_stable2 + 1 ≥ 8 by decide)] at h2
  obtain ⟨h1a, h1b⟩ := Prod.mk.inj h1
  obtain ⟨_, h2b⟩ := Prod.mk.inj h2
  refine ⟨?_, h1b, ?_⟩
  · rw [h1a]
    norm_num [corrected1, truncToLong, sampleNearZero, almostStable, evenScale,
      State.initial]
  · rw [h2b]; rfl

/-- Outside the idle state an out-of-band cycle does not reset the counter:
with the menu open (auto-zero is not evaluated) a cycle whose 2 s averages
are 3 g, out of the band, leaves the primary counter at 7. -/
theorem azt_counter_kept_outside_idle :
    sampleOutOfBand.ready300 = true ∧
    ¬ |sampleOutOfBand.recent_avg1| ≤ 1 / 4 ∧
    stableInMenu.auto_zero_stable = 7 ∧
    (updateScale passThrough () sampleOutOfBand stableInMenu).2.auto_zero_stable = 7 := by
  have hne : ¬ autoZeroEvaluated sampleOutOfBand stableInMenu := by
    rintro ⟨_, _, h⟩
    revert h
    decide
  have h1 := updateScale_primary passThrough () sampleOutOfBand stableInMenu
  rw [if_neg hne] at h1
  refine ⟨rfl, ?_, rfl, ?_⟩
  · norm_num [sampleOutOfBand, abs_of_pos]
  · rw [(Prod.mk.inj h1).2]; rfl

/-- One sampling cycle, for each channel: the cycle changes the raw offset
of the sensor object by auto-zero only if auto-zero is evaluated (sensor
ready, AZT enabled, status Empty), the cooldown is over, the 2 s average is
in band and the stability counter reaches 8 in that cycle, and then the
counter is 0 after the cycle; a cycle in which auto-zero is evaluated and
the 2 s average is out of band sets the counter to 0 and leaves the offset
unchanged; the counter only moves by a reset to 0 or by +1 in an evaluated
in-band cycle; a cycle in which auto-zero is not evaluated leaves counter
and sensor object as they are. -/
theorem azt_firing_threshold {K : Type} (upd : K → ℚ → K × ℚ) (k : K) (e : SampleEnv)
    (s : State) :
    (((updateScale upd k e s).2.loadcell.OFFSET ≠ s.loadcell.OFFSET →
        autoZeroEvaluated e s ∧ ¬ e.now < s.aztBlockUntil ∧ |e.recent_avg1| ≤ 1 / 4 ∧
        s.auto_zero_stable + 1 ≥ 8 ∧ (updateScale upd k e s).2.auto_zero_stable = 0) ∧
      (autoZeroEvaluated e s → ¬ |e.recent_avg1| ≤ 1 / 4 →
        (updateScale upd k e s).2.auto_zero_stable = 0 ∧
        (updateScale upd k e s).2.loadcell = s.loadcell) ∧
      ((updateScale upd k e s).2.auto_zero_stable ≠ 0 →
        (updateScale upd k e s).2.auto_zero_stable ≠ s.auto_zero_stable →
        (updateScale upd k e s).2.auto_zero_stable = s.auto_zero_stable + 1 ∧
        autoZeroEvaluated e s ∧ |e.recent_avg1| ≤ 1 / 4 ∧
        (updateScale upd k e s).2.loadcell = s.loadcell) ∧
      (¬ autoZeroEvaluated e s →
        (updateScale upd k e s).2.auto_zero_stable = s.auto_zero_stable ∧
        (updateScale upd k e s).2.loadcell = s.loadcell)) ∧
    (((updateScale upd k e s).2.loadcell2.OFFSET ≠ s.loadcell2.OFFSET →
        autoZeroEvaluated e s ∧ ¬ e.now < s.aztBlockUntil ∧ |e.recent_avg2| ≤ 1 / 4 ∧
        s.auto_zero_stable2 + 1 ≥ 8 ∧ (updateScale upd k e s).2.auto_zero_stable2 = 0) ∧
      (autoZeroEvaluated e s → ¬ |e.recent_avg2| ≤ 1 / 4 →
        (updateScale upd k e s).2.auto_zero_stable2 = 0 ∧
        (updateScale upd k e s).2.loadcell2 = s.loadcell2) ∧
      ((updateScale upd k e s).2.auto_zero_stable2 ≠ 0 →
        (updateScale upd k e s).2.auto_zero_stable2 ≠ s.auto_zero_stable2 →
        (updateScale upd k e s).2.auto_zero_stable2 = s.auto_zero_stable2 + 1 ∧
        autoZeroEvaluated e s ∧ |e.recent_avg2| ≤ 1 / 4 ∧
        (updateScale upd k e s).2.loadcell2 = s.loadcell2) ∧
      (¬ autoZeroEvaluated e s →
        (updateScale upd k e s).2.auto_zero_stable2 = s.auto_zero_stable2 ∧
        (updateScale upd k e s).2.loadcell2 = s.loadcell2)) := by
  have h1 := azt_channel_facts _ _ _ _ _ _ _ _ _ (updateScale_primary upd k e s)
  have h2 := azt_channel_facts _ _ _ _ _ _ _ _ _ (updateScale_secondary upd k e s)
  exact ⟨⟨h1.1, h1.2.1, h1.2.2.1, h1.2.2.2.1⟩, ⟨h2.1, h2.2.1, h2.2.2.1, h2.2.2.2.1⟩⟩

/-- Witness of `azt_firing_threshold`: on the idle scale `almostStable` a
cycle whose 2 s averages are 3 g resets the primary counter from 7 to 0 and
leaves the sensor object alone. -/
theorem azt_firing_threshold_witness :
    (autoZeroEvaluated sampleOutOfBand almostStable ∧
      ¬ |sampleOutOfBand.recent_avg1| ≤ 1 / 4) ∧
    (updateScale passThrough () sampleOutOfBand almostStable).2.auto_zero_stable = 0 ∧
    (updateScale passThrough () sampleOutOfBand almostStable).2.loadcell
      = almostStable.loadcell :=
  have hev : autoZeroEvaluated sampleOutOfBand almostStable := ⟨rfl, rfl, rfl⟩
  have hob : ¬ |sampleOutOfBand.recent_avg1| ≤ 1 / 4 := by
    norm_num [sampleOutOfBand, abs_of_pos]
  ⟨⟨hev, hob⟩,
    (azt_firing_threshold passThrough () sampleOutOfBand almostStable).1.2.1 hev hob⟩

theorem autoZero_kept (e : SampleEnv) (s : State) :
    (autoZero e s).scaleStatus = s.scaleStatus ∧
    (autoZero e s).currentSubmenu = s.currentSubmenu ∧
    (autoZero e s).auto_zero_enabled = s.auto_zero_enabled ∧
    (autoZero e s).aztBlockUntil = s.aztBlockUntil ∧
    (autoZero e s).scaleFactor = s.scaleFactor ∧
    (autoZero e s).scaleFactor2 = s.scaleFactor2 := by
  have h1 : ∀ t : State, (autoZero1 e t).scaleStatus = t.scaleStatus ∧
      (autoZero1 e t).currentSubmenu = t.currentSubmenu ∧
      (autoZero1 e t).auto_zero_enabled = t.auto_zero_enabled ∧
      (autoZero1 e t).aztBlockUntil = t.aztBlockUntil ∧
      (autoZero1 e t).scaleFactor = t.scaleFactor ∧
      (autoZero1 e t).scaleFactor2 = t.scaleFactor2 := by
    intro t; unfold autoZero1; dsimp only; split_ifs <;> exact ⟨rfl, rfl, rfl, rfl, rfl, rfl⟩
  have h2 : ∀ t : State, (autoZero2 e t).scaleStatus = t.scaleStatus ∧
      (autoZero2 e t).currentSubmenu = t.currentSubmenu ∧
      (autoZero2 e t).auto_zero_enabled = t.auto_zero_enabled ∧
      (autoZero2 e t).aztBlockUntil = t.aztBlockUntil ∧
      (autoZero2 e t).scaleFactor = t.scaleFactor ∧
      (autoZero2 e t).scaleFactor2 = t.scaleFactor2 := by
    intro t; unfold autoZero2; dsimp only; split_ifs <;> exact ⟨rfl, rfl, rfl, rfl, rfl, rfl⟩
  unfold autoZero
  split_ifs
  · exact ⟨rfl, rfl, rfl, rfl, rfl, rfl⟩
  · obtain ⟨a1, a2, a3, a4, a5, a6⟩ := h2 (autoZero1 e s)
    obtain ⟨b1, b2, b3, b4, b5, b6⟩ := h1 s
    exact ⟨a1.trans b1, a2.trans b2, a3.trans b3, a4.trans b4, a5.trans b5, a6.trans b6⟩
  · exact ⟨rfl, rfl, rfl, rfl, rfl, rfl⟩
  · exact ⟨rfl, rfl, rfl, rfl, rfl, rfl⟩

theorem sampled_currentSubmenu {K : Type} (upd : K → ℚ → K × ℚ) (k : K) (e : SampleEnv)
    (s : State) : (sampled upd k e s).currentSubmenu = s.currentSubmenu := by
  unfold sampled seedHistory
  dsimp only
  split_ifs <;> rfl

/-- What a successful sampling cycle never changes: the status, the open
submenu, the auto-zero switch, the cooldown deadline, the divisors and the
global secondary offset; the scale is ready after it. -/
theorem updateScale_kept {K : Type} (upd : K → ℚ → K × ℚ) (k : K) (e : SampleEnv)
    (s : State) (hr : e.ready300 = true) :
    (updateScale upd k e s).2.scaleStatus = s.scaleStatus ∧
    (updateScale upd k e s).2.currentSubmenu = s.currentSubmenu ∧
    (updateScale upd k e s).2.auto_zero_enabled = s.auto_zero_enabled ∧
    (updateScale upd k e s).2.aztBlockUntil = s.aztBlockUntil ∧
    (updateScale upd k e s).2.scaleFactor = s.scaleFactor ∧
    (updateScale upd k e s).2.scaleFactor2 = s.scaleFactor2 ∧
    (updateScale upd k e s).2.loadcell2_offset = s.loadcell2_offset ∧
    (updateScale upd k e s).2.scaleReady = true := by
  obtain ⟨_, _, _, _, f5, f6, f7, _, f9, f10, _, _⟩ := sampled_fields upd k e s
  obtain ⟨a1, a2, a3, a4, a5, a6⟩ := autoZero_kept e (sampled upd k e s)
  refine ⟨?_, ?_, ?_, ?_, ?_, ?_, (updateScale_global_offsets upd k e s).2, ?_⟩
  all_goals rw [updateScale_ready_eq upd k e s hr]
  · exact a1.trans f6
  · exact a2.trans (sampled_currentSubmenu upd k e s)
  · exact a3.trans f5
  · exact a4.trans f7
  · exact a5.trans f9
  · exact a6.trans f10

/-- A sampling cycle in which auto-zero is evaluated after the cooldown, on
a ready scale near zero, with the 2 s average of the primary channel in band
and the primary counter at 7 or more, moves the primary offset by the 2 s
average in counts and resets the counter. -/
theorem updateScale_fires {K : Type} (upd : K → ℚ → K × ℚ) (k : K) (e : SampleEnv)
    (s : State) (hev : autoZeroEvaluated e s) (hnb : ¬ e.now < s.aztBlockUntil)
    (hready : s.scaleReady = true) (hq : |(upd k (estimatorInput e s)).2| ≤ 1 / 4)
    (hin : |e.recent_avg1| ≤ 1 / 4) (hc : s.auto_zero_stable + 1 ≥ 8) :
    (updateScale upd k e s).2.loadcell.OFFSET =
      s.loadcell.OFFSET + truncToLong (e.recent_avg1 * s.scaleFactor) ∧
    (updateScale upd k e s).2.auto_zero_stable = 0 := by
  have h1 := updateScale_primary upd k e s
  rw [if_pos hev, if_neg hnb,
    if_pos (show s.scaleReady = true ∧ |(sampled upd k e s).scaleWeight| ≤ 1 / 4 from
      ⟨hready, by rw [sampled_scaleWeight]; exact hq⟩),
    if_pos hin, if_pos hc] at h1
  obtain ⟨h1a, h1b⟩ := Prod.mk.inj h1
  exact ⟨by rw [h1a]; rfl, h1b⟩

theorem estimatorInput_eq (e : SampleEnv) (s : State) :
    estimatorInput e s =
      (((e.raw - s.loadcell.OFFSET : Int) : ℚ) / s.scaleFactor +
        ((e.raw2 - s.loadcell2_offset : Int) : ℚ) / s.scaleFactor2) / 2 := by
  unfold estimatorInput grams grams2
  rw [if_pos (by decide), if_pos (by decide)]

/-- C19, the code at a failing input.  With the menu open and the primary
counter at 7 (`stableInMenu`), a cycle whose 2 s averages are 3 g, out of
the band, leaves the counter at 7: auto-zero is not evaluated outside the
idle state and nothing resets the counter there.  The menu is left
(`exitToMenu`), and the first in-band cycle after that takes the counter to
8 and moves the primary offset from 0 to 100 counts, although the cycle
before it was out of band. -/
theorem azt_fires_after_out_of_band_cycle :
    stableInMenu.auto_zero_stable = 7 ∧
    stableInMenu.loadcell.OFFSET = 0 ∧
    sampleOutOfBand.ready300 = true ∧
    ¬ |sampleOutOfBand.recent_avg1| ≤ 1 / 4 ∧
    afterMenuCycle.auto_zero_stable = 7 ∧
    afterMenuCycle.loadcell.OFFSET = 0 ∧
    menuLeft.scaleStatus = STATUS_EMPTY ∧
    menuLeft.auto_zero_stable = 7 ∧
    |sampleLater.recent_avg1| ≤ 1 / 4 ∧
    (updateScale passThrough () sampleLater menuLeft).2.loadcell.OFFSET = 100 ∧
    (updateScale passThrough () sampleLater menuLeft).2.auto_zero_stable = 0 := by
  have hne : ¬ autoZeroEvaluated sampleOutOfBand stableInMenu := by
    rintro ⟨_, _, h⟩
    revert h
    decide
  have hp := updateScale_primary passThrough () sampleOutOfBand stableInMenu
  rw [if_neg hne] at hp
  obtain ⟨hpa, hpb⟩ := Prod.mk.inj hp
  obtain ⟨k1, k2, k3, k4, k5, k6, k7, k8⟩ :=
    updateScale_kept passThrough () sampleOutOfBand stableInMenu rfl
  have a1 : afterMenuCycle.auto_zero_stable = 7 := hpb
  have a2 : afterMenuCycle.loadcell = stableInMenu.loadcell := hpa
  have a3 : afterMenuCycle.scaleStatus = STATUS_IN_MENU := k1
  have a4 : afterMenuCycle.currentSubmenu = 0 := k2
  have hm : menuLeft =
      { afterMenuCycle with scaleStatus := STATUS_EMPTY, currentMenuItem := 0,
                            currentSubmenu := 0, currentSubmenuItem := 0 } := by
    unfold menuLeft exitToMenu
    rw [if_neg (by rw [a3]; decide), if_pos a3, if_neg (by rw [a4]; decide)]
  have m1 : menuLeft.scaleStatus = STATUS_EMPTY := by rw [hm]
  have m2 : menuLeft.auto_zero_stable = 7 := by rw [hm]; exact a1
  have m3 : menuLeft.loadcell.OFFSET = 0 := by
    rw [hm]
    show afterMenuCycle.loadcell.OFFSET = 0
    rw [a2]; rfl
  have m4 : menuLeft.auto_zero_enabled = true := by rw [hm]; exact k3
  have m5 : menuLeft.aztBlockUntil = 0 := by rw [hm]; exact k4
  have m6 : menuLeft.scaleFactor = 1000 := by rw [hm]; exact k5
  have m7 : menuLeft.scaleFactor2 = 1000 := by rw [hm]; exact k6
  have m8 : menuLeft.loadcell2_offset = 0 := by rw [hm]; exact k7
  have m9 : menuLeft.scaleReady = true := by rw [hm]; exact k8
  have hin : |sampleLater.recent_avg1| ≤ 1 / 4 := by
    norm_num [sampleLater, sampleNearZero, abs_of_pos]
  have hf := updateScale_fires passThrough () sampleLater menuLeft ⟨rfl, m4, m1⟩
    (by rw [m5]; exact Nat.not_lt_zero _) m9
    (by
      show |estimatorInput sampleLater menuLeft| ≤ 1 / 4
      rw [estimatorInput_eq, m3, m6, m7, m8]
      norm_num [sampleLater, sampleNearZero, abs_of_pos])
    hin (by rw [m2]; decide)
  refine ⟨rfl, rfl, rfl, ?_, a1, by rw [a2]; rfl, m1, m2, hin, ?_, hf.2⟩
  · norm_num [sampleOutOfBand, abs_of_pos]
  · rw [hf.1, m3, m6]
    norm_num [truncToLong, sampleLater, sampleNearZero]

/-! ## Tare handling and the cooldown (C21), secondary auto-zero (C22) -/

theorem startupRequest_cases (s : State) :
    (s.lastTareAt = 0 ∧ startupRequest s =
        { s with requestTare := true, requestSetOffset := true }) ∨
    (s.lastTareAt ≠ 0 ∧ startupRequest s = s) := by
  unfold startupRequest
  by_cases h : s.lastTareAt = 0
  · rw [if_pos h]; exact Or.inl ⟨h, rfl⟩
  · rw [if_neg h]; exact Or.inr ⟨h, rfl⟩

theorem startupRequest_aztBlockUntil (s : State) :
    (startupRequest s).aztBlockUntil = s.aztBlockUntil := by
  unfold startupRequest; split_ifs <;> rfl

theorem captureSecondaryOffset_aztBlockUntil (e : TareEnv) (s : State) :
    (captureSecondaryOffset e s).aztBlockUntil =
      if s.requestSetOffset = true ∧ e.ready2 = true then uadd32 e.now 10000
      else s.aztBlockUntil := by
  unfold captureSecondaryOffset
  by_cases h1 : s.requestSetOffset = true
  · rw [if_pos ⟨h1, by decide⟩]
    by_cases h2 : e.ready2 = true
    · rw [if_pos h2, if_pos ⟨h1, h2⟩]
    · rw [if_neg h2, if_neg (fun h => h2 h.2)]
  · rw [if_neg (fun h => h1 h.1), if_neg (fun h => h1 h.1)]

/-- The outcome and the cooldown deadline after a tare that is requested and
finds the primary sensor ready in one of the three attempts. -/
theorem tareStep_tared (e : TareEnv) (s : State)
    (hreq : (startupRequest s).requestTare = true)
    (hready : e.ready_1 = true ∨ e.ready_2 = true ∨ e.ready_3 = true) :
    (tareStep e s).2 = TareOutcome.tared ∧
    (tareStep e s).1.aztBlockUntil =
      if (startupRequest s).requestSetOffset = true ∧ e.ready2 = true then
        uadd32 e.now 10000
      else s.aztBlockUntil := by
  unfold tareStep
  rw [if_pos hreq, if_pos hready]
  refine ⟨rfl, ?_⟩
  show (captureSecondaryOffset e _).aztBlockUntil = _
  rw [captureSecondaryOffset_aztBlockUntil]
  show (if (startupRequest s).requestSetOffset = true ∧ e.ready2 = true then _
    else (startupRequest s).aztBlockUntil) = _
  rw [startupRequest_aztBlockUntil]

/-- C21, the code at failing inputs.  The tare requested by the grind
button (`requestTare` without `requestSetOffset`) succeeds at clock value
7000, sets the primary offset to 1234 and leaves `aztBlockUntil` at 0
instead of 17000.  The menu calibration completes (divisor 4500 applied,
back in the menu) and leaves `aztBlockUntil` at 0 as well.  Without the
cooldown auto-zero is free at once: with the primary counter at 7, the
regular sampling of the same cycle moves the offset just set from 1234 to
1434; after a tare of both sensors, which arms the cooldown, the same
sampling leaves it at 1234. -/
theorem primary_only_tare_leaves_cooldown :
    (tareStep tareReady buttonTare).2 = TareOutcome.tared ∧
    (tareStep tareReady buttonTare).1.lastTareAt = 7000 ∧
    (tareStep tareReady buttonTare).1.loadcell.OFFSET = 1234 ∧
    (tareStep tareReady buttonTare).1.aztBlockUntil = 0 ∧
    uadd32 tareReady.now 10000 = 17000 ∧
    (submenuClick 450000 inCalibrationMenu).scaleStatus = STATUS_IN_MENU ∧
    (submenuClick 450000 inCalibrationMenu).loadcell.SCALE = 4500 ∧
    (submenuClick 450000 inCalibrationMenu).aztBlockUntil = 0 ∧
    (updateScaleCycle passThrough () () tareReady sampleAfterTare
      buttonTareStable).2.loadcell.OFFSET = 1434 ∧
    (tareStep tareReady fullTareStable).1.aztBlockUntil = 17000 ∧
    (updateScaleCycle passThrough () () tareReady sampleAfterTare
      fullTareStable).2.loadcell.OFFSET = 1234 := by
  have b0 : (tareStep tareReady buttonTareStable).2 = TareOutcome.tared := by
    norm_num [tareStep, startupRequest, buttonTareStable, buttonTare, tareReady, evenScale,
      State.initial]
  have f0 : (tareStep tareReady fullTareStable).2 = TareOutcome.tared := by
    norm_num [tareStep, startupRequest, fullTareStable, fullTare, tareReady, evenScale,
      State.initial]
  have hb : (tareStep tareReady buttonTareStable).1.auto_zero_enabled = true ∧
      (tareStep tareReady buttonTareStable).1.scaleStatus = STATUS_EMPTY ∧
      (tareStep tareReady buttonTareStable).1.aztBlockUntil = 0 ∧
      (tareStep tareReady buttonTareStable).1.scaleReady = true ∧
      (tareStep tareReady buttonTareStable).1.loadcell.OFFSET = 1234 ∧
      (tareStep tareReady buttonTareStable).1.scaleFactor = 1000 ∧
      (tareStep tareReady buttonTareStable).1.scaleFactor2 = 1000 ∧
      (tareStep tareReady buttonTareStable).1.loadcell2_offset = 0 ∧
      (tareStep tareReady buttonTareStable).1.auto_zero_stable = 7 := by
    norm_num [tareStep, startupRequest, captureSecondaryOffset, tarePrimary,
      buttonTareStable, buttonTare, tareReady, evenScale, State.initial, STATUS_EMPTY]
  have hf : (tareStep tareReady fullTareStable).1.auto_zero_enabled = true ∧
      (tareStep tareReady fullTareStable).1.scaleStatus = STATUS_EMPTY ∧
      (tareStep tareReady fullTareStable).1.aztBlockUntil = 17000 ∧
      (tareStep tareReady fullTareStable).1.loadcell.OFFSET = 1234 := by
    norm_num [tareStep, startupRequest, captureSecondaryOffset, tarePrimary,
      fullTareStable, fullTare, tareReady, evenScale, State.initial, STATUS_EMPTY,
      LOADCELL2_DOUT_PIN, uadd32, U32]
  obtain ⟨b1, b2, b3, b4, b5, b6, b7, b8, b9⟩ := hb
  obtain ⟨f1, f2, f3, f4⟩ := hf
  refine ⟨?_, ?_, ?_, ?_, ?_, ?_, ?_, ?_, ?_, f3, ?_⟩
  · norm_num [tareStep, startupRequest, buttonTare, tareReady, evenScale, State.initial]
  · norm_num [tareStep, startupRequest, captureSecondaryOffset, tarePrimary, buttonTare,
      tareReady, evenScale, State.initial]
  · norm_num [tareStep, startupRequest, captureSecondaryOffset, tarePrimary, buttonTare,
      tareReady, evenScale, State.initial]
  · norm_num [tareStep, startupRequest, captureSecondaryOffset, tarePrimary, buttonTare,
      tareReady, evenScale, State.initial]
  · norm_num [uadd32, U32, tareReady]
  · norm_num [submenuClick, menuCalibration, backToMenu, inCalibrationMenu, State.initial]
  · norm_num [submenuClick, menuCalibration, backToMenu, inCalibrationMenu, State.initial]
  · norm_num [submenuClick, menuCalibration, backToMenu, inCalibrationMenu, State.initial]
  · unfold updateScaleCycle
    rw [if_neg (by rw [b0]; decide), if_pos b0]
    have h := updateScale_fires passThrough () sampleAfterTare
      (tareStep tareReady buttonTareStable).1 ⟨rfl, b1, b2⟩
      (by rw [b3]; exact Nat.not_lt_zero _) b4
      (by
        show |estimatorInput sampleAfterTare (tareStep tareReady buttonTareStable).1| ≤ 1 / 4
        rw [estimatorInput_eq, b5, b6, b7, b8]
        norm_num [sampleAfterTare, abs_of_pos])
      (by norm_num [sampleAfterTare, abs_of_pos]) (by rw [b9]; decide)
    rw [h.1, b5, b6]
    norm_num [truncToLong, sampleAfterTare]
  · unfold updateScaleCycle
    rw [if_neg (by rw [f0]; decide), if_pos f0]
    have h := updateScale_primary passThrough () sampleAfterTare
      (tareStep tareReady fullTareStable).1
    rw [if_pos (show autoZeroEvaluated sampleAfterTare (tareStep tareReady fullTareStable).1
        from ⟨rfl, f1, f2⟩),
      if_pos (show sampleAfterTare.now < (tareStep tareReady fullTareStable).1.aztBlockUntil
        by rw [f3]; norm_num [sampleAfterTare])] at h
    rw [(Prod.mk.inj h).1, f4]

/-- Where the cooldown is armed.  It is armed, `aztBlockUntil` = completion time
+ 10000 ms (32 bit), by every successful tare of the sampling task in which
the secondary offset is captured (start-up tare or `requestSetOffset` set,
secondary sensor ready), by every serial `w` calibration that succeeds and
by every guided calibration that succeeds.  A successful tare of the primary
sensor alone (`requestSetOffset` not set) and the menu calibration leave
`aztBlockUntil` as it was. -/
theorem cooldown_armed (te : TareEnv) (se : SerialEnv) (ge : GuidedEnv) (sensor : Int)
    (w known rawReading : ℚ) (s : State) :
    ((s.lastTareAt = 0 ∨ (s.requestTare = true ∧ s.requestSetOffset = true)) →
      (te.ready_1 = true ∨ te.ready_2 = true ∨ te.ready_3 = true) → te.ready2 = true →
      (tareStep te s).2 = TareOutcome.tared ∧
      (tareStep te s).1.aztBlockUntil = uadd32 te.now 10000) ∧
    (s.lastTareAt ≠ 0 → s.requestTare = true → s.requestSetOffset = false →
      (te.ready_1 = true ∨ te.ready_2 = true ∨ te.ready_3 = true) →
      (tareStep te s).2 = TareOutcome.tared ∧
      (tareStep te s).1.aztBlockUntil = s.aztBlockUntil) ∧
    (0 < w → w ≤ 1000 → se.ready = true →
      ((sensor ≠ 2 ∧ s.calibration_mode = true) ∨
        (sensor = 2 ∧ s.calibration_mode2 = true)) →
      (serialWeight sensor w se s).aztBlockUntil = uadd32 se.now 10000) ∧
    (guidedSucceeds known ge s →
      (serialGuided known ge s).aztBlockUntil = uadd32 ge.now 10000) ∧
    (menuCalibration rawReading s).aztBlockUntil = s.aztBlockUntil := by
  refine ⟨?_, ?_, ?_, ?_, rfl⟩
  · intro hreq hready h2
    have hs : (startupRequest s).requestTare = true ∧
        (startupRequest s).requestSetOffset = true := by
      rcases startupRequest_cases s with ⟨_, h⟩ | ⟨hne, h⟩
      · rw [h]; exact ⟨rfl, rfl⟩
      · rw [h]
        rcases hreq with h0 | h1
        · exact absurd h0 hne
        · exact h1
    have h := tareStep_tared te s hs.1 hready
    rw [if_pos ⟨hs.2, h2⟩] at h
    exact h
  · intro hne hreq hset hready
    have hsame : startupRequest s = s := by
      rcases startupRequest_cases s with ⟨h0, _⟩ | ⟨_, h⟩
      · exact absurd h0 hne
      · exact h
    have h := tareStep_tared te s (by rw [hsame]; exact hreq) hready
    rw [hsame, if_neg (by rw [hset]; exact fun hc => Bool.noConfusion hc.1)] at h
    exact h
  · intro hw0 hw1 hr hmode
    have hrange : ¬ (w ≤ 0 ∨ w > 1000) := by
      rintro (h | h)
      · exact absurd hw0 (not_lt.mpr h)
      · exact absurd hw1 (not_le.mpr h)
    unfold serialWeight
    dsimp only
    rcases hmode with ⟨hs, hm⟩ | ⟨hs, hm⟩
    · rw [if_neg hs, if_neg (by simp [hm]), if_neg hrange, if_pos hr]
    · rw [if_pos hs, if_neg (by simp [hm]), if_neg hrange, if_pos hr]
  · intro hg
    rw [serialGuided_success known ge s hg]

/-- Witness of `cooldown_armed`: the tare of both sensors requested on
`fullTare` succeeds at clock value 7000 and arms the cooldown until
17000. -/
theorem cooldown_armed_witness :
    (fullTare.requestTare = true ∧ fullTare.requestSetOffset = true ∧
      tareReady.ready_1 = true ∧ tareReady.ready2 = true) ∧
    (tareStep tareReady fullTare).1.aztBlockUntil = 17000 := by
  have h := (cooldown_armed tareReady reads91000 guided98_102 1 100 100 0 fullTare).1
    (Or.inr ⟨rfl, rfl⟩) (Or.inl rfl) rfl
  refine ⟨⟨rfl, rfl, rfl, rfl⟩, ?_⟩
  rw [h.2]
  norm_num [uadd32, U32, tareReady]

theorem autoZero_scaleFactor2 (e : SampleEnv) (s : State) :
    (autoZero e s).scaleFactor2 = s.scaleFactor2 := by
  have h1 : ∀ t : State, (autoZero1 e t).scaleFactor2 = t.scaleFactor2 := by
    intro t; unfold autoZero1; dsimp only; split_ifs <;> rfl
  have h2 : ∀ t : State, (autoZero2 e t).scaleFactor2 = t.scaleFactor2 := by
    intro t; unfold autoZero2; dsimp only; split_ifs <;> rfl
  unfold autoZero
  split_ifs
  · rfl
  · rw [h2, h1]
  · rfl
  · rfl

/-- C22, the code at a failing input.  On `almostStable2` (secondary offset
0 in the sensor object and in `loadcell2_offset`, divisor 1000) a cycle with
a 2 s average of 0.1 g makes auto-zero add the correction 100 to the offset
of the secondary sensor object.  The global `loadcell2_offset`, which the
sampling uses, stays 0, so in the next cycle a raw reading of 100 counts
gives 0.1 g for the secondary channel and not (100 - (0 + 100)) / 1000 =
0 g.  For the primary channel the sampling reads the offset of the sensor
object, so there the correction does take effect. -/
theorem secondary_autozero_not_applied :
    almostStable2.loadcell2.OFFSET = 0 ∧
    afterSecondaryCorrection.loadcell2.OFFSET = 100 ∧
    afterSecondaryCorrection.auto_zero_stable2 = 0 ∧
    afterSecondaryCorrection.loadcell2_offset = 0 ∧
    afterSecondaryCorrection.scaleFactor2 = 1000 ∧
    sampleNearZero.raw2 = 100 ∧
    grams2 sampleNearZero afterSecondaryCorrection = 1 / 10 ∧
    (((sampleNearZero.raw2 - (almostStable2.loadcell2.OFFSET + 100) : Int) : ℚ) /
      afterSecondaryCorrection.scaleFactor2) = 0 := by
  have h1 : afterSecondaryCorrection.loadcell2.OFFSET = 100 ∧
      afterSecondaryCorrection.auto_zero_stable2 = 0 := by
    have hev : autoZeroEvaluated sampleNearZero almostStable2 := ⟨rfl, rfl, rfl⟩
    have hnb : ¬ sampleNearZero.now < almostStable2.aztBlockUntil := by
      norm_num [sampleNearZero, almostStable2, evenScale, State.initial]
    have hq : almostStable2.scaleReady = true ∧
        |(sampled passThrough () sampleNearZero almostStable2).scaleWeight| ≤ 1 / 4 := by
      refine ⟨rfl, ?_⟩
      rw [sampled_scaleWeight]
      norm_num [passThrough, estimatorInput, grams, grams2, sampleNearZero, almostStable2,
        evenScale, State.initial, LOADCELL2_DOUT_PIN, abs_of_pos]
    have hin2 : |sampleNearZero.recent_avg2| ≤ 1 / 4 := by
      norm_num [sampleNearZero, abs_of_pos]
    have h2 := updateScale_secondary passThrough () sampleNearZero almostStable2
    rw [if_pos hev, if_neg hnb, if_pos hq, if_pos hin2,
      if_pos (show almostStable2.auto_zero_stable2 + 1 ≥ 8 by decide)] at h2
    obtain ⟨h2a, h2b⟩ := Prod.mk.inj h2
    refine ⟨?_, h2b⟩
    show (updateScale passThrough () sampleNearZero almostStable2).2.loadcell2.OFFSET = 100
    rw [h2a]
    norm_num [corrected2, truncToLong, sampleNearZero, almostStable2, evenScale,
      State.initial]
  have h3 : afterSecondaryCorrection.loadcell2_offset = 0 :=
    (updateScale_global_offsets passThrough () sampleNearZero almostStable2).2
  have h4 : afterSecondaryCorrection.scaleFactor2 = 1000 := by
    have hr : sampleNearZero.ready300 = true := rfl
    show (updateScale passThrough () sampleNearZero almostStable2).2.scaleFactor2 = 1000
    rw [updateScale_ready_eq passThrough () sampleNearZero almostStable2 hr]
    show (autoZero sampleNearZero _).scaleFactor2 = 1000
    rw [autoZero_scaleFactor2]
    exact (sampled_fields passThrough () sampleNearZero almostStable2).2.2.2.2.2.2.2.2.2.1
  refine ⟨rfl, h1.1, h1.2, h3, h4, rfl, ?_, ?_⟩
  · unfold grams2
    rw [if_pos (by decide), h3, h4]
    norm_num [sampleNearZero]
  · rw [h4]
    norm_num [sampleNearZero, almostStable2, evenScale, State.initial]

/-! ## The state machine outside the grinding case (C23, C24, C27, C28) -/

theorem grinderToggle_grinderActive (s : State) :
    (grinderToggle s).grinderActive = !s.grinderActive := by
  unfold grinderToggle
  cases h : s.grinderActive <;> simp

theorem grinderToggle_cupWeightEmpty (s : State) :
    (grinderToggle s).cupWeightEmpty = s.cupWeightEmpty := by
  unfold grinderToggle; split_ifs <;> rfl

/-- The Empty case with manual mode off and the cup-detection trigger: the
grind starts exactly when the 1 s minimum and maximum are both within 5 g of
the configured cup weight; then the cup weight is the 500 ms average and
`grinderToggle` inverts the recorded grinder state; otherwise nothing
changes. -/
theorem statusEmpty_cup_detection (e : StatusEnv) (s : State)
    (hm : s.manualGrindMode = false) (hg : s.grindMode = false) :
    (ABS (e.min1000 - s.setCupWeight) < 5 ∧ ABS (e.max1000 - s.setCupWeight) < 5 →
      (statusEmpty e s).1.scaleStatus = STATUS_GRINDING_IN_PROGRESS ∧
      (statusEmpty e s).1.cupWeightEmpty = e.avg500 ∧
      (statusEmpty e s).1.grinderActive = !s.grinderActive) ∧
    (¬ (ABS (e.min1000 - s.setCupWeight) < 5 ∧ ABS (e.max1000 - s.setCupWeight) < 5) →
      statusEmpty e s = (s, Flow.brk)) := by
  have hb : ¬ (s.grindMode = true ∧ e.grindButtonLow = true ∧
      ¬ s.grinderButtonPressed = true) := by
    rw [hg]; exact fun h => Bool.noConfusion h.1
  have hp : ¬ (s.grindMode = true ∧ s.grinderButtonPressed = true ∧
      usub32 e.now s.grinderButtonPressedAt ≥ 600) := by
    rw [hg]; exact fun h => Bool.noConfusion h.1
  unfold statusEmpty
  dsimp only
  rw [if_neg (by rw [hm]; exact Bool.noConfusion), if_neg hb, if_neg hp]
  unfold CUP_DETECTION_TOLERANCE
  constructor
  · intro hc
    rw [if_pos ⟨by rw [hg]; exact Bool.noConfusion, hc.1, hc.2⟩]
    refine ⟨?_, ?_, ?_⟩
    · show (grinderToggle _).scaleStatus = _
      rw [grinderToggle_scaleStatus]; split_ifs <;> rfl
    · show (grinderToggle _).cupWeightEmpty = _
      rw [grinderToggle_cupWeightEmpty]; split_ifs <;> rfl
    · show (grinderToggle _).grinderActive = _
      rw [grinderToggle_grinderActive]; split_ifs <;> rfl
  · intro hc
    rw [if_neg (fun h => hc ⟨h.2.1, h.2.2⟩)]

theorem noteWeightChange_fields (e : StatusEnv) (s : State) :
    (noteWeightChange e s).manualGrindMode = s.manualGrindMode ∧
    (noteWeightChange e s).grindMode = s.grindMode ∧
    (noteWeightChange e s).setCupWeight = s.setCupWeight ∧
    (noteWeightChange e s).scaleWeight = s.scaleWeight ∧
    (noteWeightChange e s).finishedGrindingAt = s.finishedGrindingAt ∧
    (noteWeightChange e s).grindingFinishedAt = s.grindingFinishedAt := by
  unfold noteWeightChange; split_ifs <;> exact ⟨rfl, rfl, rfl, rfl, rfl, rfl⟩

/-- C23, the code at a failing input.  The state `sleptGrind` is reached
from an idle scale by the status loop and the display task: status Empty,
manual mode off, cup-detection trigger, grinder still recorded as running.
With the 1 s minimum and maximum at 72 g (cup weight 70 g) the status-loop
step starts a grind, sets cupWeightEmpty to the 500 ms average, and
`grinderToggle` switches the grinder off: flag false, relay pin HIGH. -/
theorem cup_detection_toggle_switches_grinder_off :
    sleptGrind.scaleStatus = STATUS_EMPTY ∧
    sleptGrind.manualGrindMode = false ∧
    sleptGrind.grindMode = false ∧
    sleptGrind.grinderActive = true ∧
    ABS ((steadyEnv 62050 72).min1000 - sleptGrind.setCupWeight) < 5 ∧
    ABS ((steadyEnv 62050 72).max1000 - sleptGrind.setCupWeight) < 5 ∧
    (scaleStatusLoop (steadyEnv 62050 72) sleptGrind).1.scaleStatus
      = STATUS_GRINDING_IN_PROGRESS ∧
    (scaleStatusLoop (steadyEnv 62050 72) sleptGrind).1.cupWeightEmpty = 72 ∧
    (scaleStatusLoop (steadyEnv 62050 72) sleptGrind).1.grinderActive = false ∧
    (scaleStatusLoop (steadyEnv 62050 72) sleptGrind).1.grinderPin = PinLevel.HIGH := by
  norm_num [sleptGrind, updateDisplay, scaleStatusLoop, statusSwitch, statusEmpty,
    noteWeightChange, timerIdle, steadyEnv, State.initial, ABS, grinderToggle,
    STATUS_EMPTY, CUP_WEIGHT, CUP_DETECTION_TOLERANCE, SIGNIFICANT_WEIGHT_CHANGE, usub32,
    toU32, U32, SLEEP_AFTER_MS, STATUS_GRINDING_IN_PROGRESS, STATUS_GRINDING_FINISHED]

/-- C24, the code at a failing input.  In `justFinished` the grind finished
at clock value 9000 and 2 g are on the platform; at clock value 10000, one
second after the finish, the status-loop step sets the status to Empty. -/
theorem finished_leaves_before_settle_delay :
    justFinished.scaleStatus = STATUS_GRINDING_FINISHED ∧
    justFinished.finishedGrindingAt = 9000 ∧
    usub32 (steadyEnv 10000 2).now justFinished.finishedGrindingAt = 1000 ∧
    (scaleStatusLoop (steadyEnv 10000 2) justFinished).1.scaleStatus = STATUS_EMPTY := by
  refine ⟨rfl, rfl, ?_, ?_⟩
  · norm_num [usub32, U32, steadyEnv, justFinished]
  · norm_num [scaleStatusLoop, statusSwitch, statusFinished, noteWeightChange, justFinished,
      cupGrind, steadyEnv, State.initial, ABS, STATUS_EMPTY, STATUS_GRINDING_IN_PROGRESS,
      STATUS_GRINDING_FINISHED, SIGNIFICANT_WEIGHT_CHANGE]

theorem grindFailed_finishedGrindingAt (s : State) :
    (grindFailed s).finishedGrindingAt = s.finishedGrindingAt := by
  unfold grindFailed grinderToggle; split_ifs <;> rfl

/-- C28.  For every status-loop step taken in state Grinding in which a
failure condition holds (weight below -10 g, scale not ready, or, outside
scale/timer mode, more than 20 s of grinding, no increase of 1 g over the
trailing 5 s, or the 200 ms minimum below the cup weight minus 5 g) and the
200 ms maximum reaches the grind target, the resulting status is Failed, not
Finished, and finishedGrindingAt is what it was. -/
theorem failure_precedes_completion (e : StatusEnv) (s : State)
    (hst : s.scaleStatus = STATUS_GRINDING_IN_PROGRESS)
    (hf : s.scaleWeight < -10 ∨ s.scaleReady = false ∨
      (s.scaleMode = false ∧
        (usub32 e.now s.startedGrindingAt > 20000 ∨
         (usub32 e.now s.startedGrindingAt > 5000 ∧ s.scaleWeight - e.firstOlder5000 < 1) ∨
         e.min200 < s.cupWeightEmpty - 5)))
    (_hmax : e.max200 ≥ grindTarget s) :
    (scaleStatusLoop e s).1.scaleStatus = STATUS_GRINDING_FAILED ∧
    (scaleStatusLoop e s).1.scaleStatus ≠ STATUS_GRINDING_FINISHED ∧
    (scaleStatusLoop e s).1.finishedGrindingAt = s.finishedGrindingAt := by
  rw [scaleStatusLoop_grinding_cases e s hst, if_pos (show grindFailure e s from hf)]
  refine ⟨rfl, ?_, ?_⟩
  · show STATUS_GRINDING_FAILED ≠ STATUS_GRINDING_FINISHED
    decide
  · show (grindFailed (noteWeightChange e s)).finishedGrindingAt = _
    rw [grindFailed_finishedGrindingAt, noteWeightChange_finishedGrindingAt]

/-- Witness of `failure_precedes_completion`: the grind `cupGrind` (started
at clock value 1000, target 88 g) at clock value 22000 with 100 g in every
window: the time limit has passed and the target is reached. -/
theorem failure_precedes_completion_witness :
    cupGrind.scaleStatus = STATUS_GRINDING_IN_PROGRESS ∧
    usub32 (steadyEnv 22000 100).now cupGrind.startedGrindingAt > 20000 ∧
    (steadyEnv 22000 100).max200 ≥ grindTarget cupGrind ∧
    (scaleStatusLoop (steadyEnv 22000 100) cupGrind).1.scaleStatus = STATUS_GRINDING_FAILED ∧
    (scaleStatusLoop (steadyEnv 22000 100) cupGrind).1.finishedGrindingAt =
      cupGrind.finishedGrindingAt :=
  have ht : usub32 (steadyEnv 22000 100).now cupGrind.startedGrindingAt > 20000 := by
    norm_num [usub32, U32, steadyEnv, cupGrind]
  have hm : (steadyEnv 22000 100).max200 ≥ grindTarget cupGrind := by
    norm_num [grindTarget, currentOffset, steadyEnv, cupGrind, State.initial,
      COFFEE_DOSE_WEIGHT]
  have h := failure_precedes_completion (steadyEnv 22000 100) cupGrind rfl
    (Or.inr (Or.inr ⟨rfl, Or.inl ht⟩)) hm
  ⟨rfl, ht, hm, h.1, h.2.2⟩

/-- After a guided calibration that succeeds, the fused weight recomputed
from the same raw readings and offsets under the new divisors is the
measured average squared, divided by the known mass. -/
theorem serialGuided_recomputed (known : ℚ) (e : GuidedEnv) (s : State)
    (h : guidedSucceeds known e s) :
    measured_total e (serialGuided known e s) =
      measured_total e s * measured_total e s / known := by
  rw [serialGuided_success known e s h, measured_total_eq]
  show (((e.raw1 - s.loadcell.OFFSET : Int) : ℚ) / (s.scaleFactor * multiplier known e s) +
      ((e.raw2 - s.loadcell2_offset : Int) : ℚ) / (s.scaleFactor2 * multiplier known e s)) / 2
    = _
  rw [← div_div, ← div_div, ← add_div, div_right_comm, ← measured_total_eq]
  unfold multiplier
  rw [div_div_eq_mul_div]

/-- C26, the code at a failing input.  On `taredScale` (divisors 1000, raw
offsets 0 and 2000) the channels read 98000 and 104000 counts, that is 98 g
and 102 g, average 100 g; the known mass is 50 g.  The guided calibration
succeeds and installs the divisors 500 and 500; under them the same readings
with the same offsets give (196 + 204) / 2 = 200 g, not 50 g. -/
theorem guided_calibration_misses_known_mass :
    guidedSucceeds 50 guided98_102 taredScale ∧
    measured_total guided98_102 taredScale = 100 ∧
    (serialGuided 50 guided98_102 taredScale).scaleFactor = 500 ∧
    (serialGuided 50 guided98_102 taredScale).scaleFactor2 = 500 ∧
    (serialGuided 50 guided98_102 taredScale).loadcell.OFFSET = taredScale.loadcell.OFFSET ∧
    (serialGuided 50 guided98_102 taredScale).loadcell2_offset = taredScale.loadcell2_offset ∧
    (((guided98_102.raw1 - taredScale.loadcell.OFFSET : Int) : ℚ) /
        (serialGuided 50 guided98_102 taredScale).scaleFactor +
      ((guided98_102.raw2 - taredScale.loadcell2_offset : Int) : ℚ) /
        (serialGuided 50 guided98_102 taredScale).scaleFactor2) / 2 = 200 := by
  have hs := guided98_102_succeeds 50 (by norm_num)
  have hm := guided98_102_measures
  have hmt : measured_total guided98_102 taredScale = 100 := by
    rw [measured_total_eq, hm.1, hm.2]; norm_num
  have hmul : multiplier 50 guided98_102 taredScale = 1 / 2 := by
    unfold multiplier; rw [hmt]; norm_num
  have hf1 : (serialGuided 50 guided98_102 taredScale).scaleFactor = 500 := by
    rw [serialGuided_success 50 guided98_102 taredScale hs]
    show taredScale.scaleFactor * multiplier 50 guided98_102 taredScale = 500
    rw [hmul]; norm_num [taredScale, evenScale]
  have hf2 : (serialGuided 50 guided98_102 taredScale).scaleFactor2 = 500 := by
    rw [serialGuided_success 50 guided98_102 taredScale hs]
    show taredScale.scaleFactor2 * multiplier 50 guided98_102 taredScale = 500
    rw [hmul]; norm_num [taredScale, evenScale]
  refine ⟨hs, hmt, hf1, hf2, ?_, ?_, ?_⟩
  · rw [serialGuided_success 50 guided98_102 taredScale hs]
  · rw [serialGuided_success 50 guided98_102 taredScale hs]
  · rw [hf1, hf2]
    norm_num [guided98_102, taredScale, evenScale, State.initial]

/-! ## Menu indices (C29) -/

theorem tmod_gt_neg (a n : Int) (hn : 0 < n) : -n < Int.tmod a n := by
  obtain ⟨k, rfl⟩ := Int.eq_ofNat_of_zero_le hn.le
  cases a with
  | ofNat m =>
    exact lt_of_lt_of_le (by omega) (Int.tmod_nonneg _ (Int.ofNat_nonneg m))
  | negSucc m =>
    show -(k : Int) < -((Nat.succ m % k : Nat) : Int)
    have hk : 0 < k := by omega
    have : Nat.succ m % k < k := Nat.mod_lt _ hk
    omega

/-- The remainder of the truncating division, raised by the divisor when it
is negative, is the remainder of the Euclidean division. -/
theorem tmod_wrap_eq_emod (a n : Int) (hn : 0 < n) :
    (if Int.tmod a n < 0 then n + Int.tmod a n else Int.tmod a n) = a % n := by
  have hlt := Int.tmod_lt_of_pos a hn
  have hgt := tmod_gt_neg a n hn
  have ha : a % n = Int.tmod a n % n := by
    conv_lhs => rw [← Int.tmod_add_tdiv a n]
    rw [Int.add_mul_emod_self_left]
  rw [ha]
  split_ifs with h
  · rw [← Int.add_emod_self_left, Int.emod_eq_of_lt (by omega) (by omega)]
  · rw [Int.emod_eq_of_lt (by omega) hlt]

theorem wrapIndex_bounds (i d n : Int) (hn : 0 < n) :
    wrapIndex i d n = (i + d) % n ∧ 0 ≤ wrapIndex i d n ∧ wrapIndex i d n < n := by
  have h : wrapIndex i d n = (i + d) % n := tmod_wrap_eq_emod (i + d) n hn
  rw [h]
  exact ⟨rfl, Int.emod_nonneg _ (ne_of_gt hn), Int.emod_lt_of_pos _ hn⟩

theorem prevIndex_bounds (i n : Int) (hn : 0 < n) :
    prevIndex i n = (i - 1) % n ∧ 0 ≤ prevIndex i n ∧ prevIndex i n < n := by
  have h : prevIndex i n = (i - 1) % n := by
    unfold prevIndex
    rw [add_comm (Int.tmod (i - 1) n) n]
    exact tmod_wrap_eq_emod (i - 1) n hn
  rw [h]
  exact ⟨rfl, Int.emod_nonneg _ (ne_of_gt hn), Int.emod_lt_of_pos _ hn⟩

theorem nextIndex_bounds (i n : Int) (hn : 0 < n) (hi : 0 ≤ i) :
    nextIndex i n = (i + 1) % n ∧ 0 ≤ nextIndex i n ∧ nextIndex i n < n := by
  have h : nextIndex i n = (i + 1) % n :=
    Int.tmod_eq_emod (by omega) hn.le
  rw [h]
  exact ⟨rfl, Int.emod_nonneg _ (ne_of_gt hn), Int.emod_lt_of_pos _ hn⟩

theorem menuDirection_unit (delta encoderDir : Int) (h : encoderDir = 1 ∨ encoderDir = -1) :
    menuDirection delta encoderDir = 1 ∨ menuDirection delta encoderDir = -1 := by
  unfold menuDirection
  rcases h with h | h <;> rw [h] <;> split_ifs <;> decide

/-- A step by 1 or -1 modulo n > 1 leaves no index of [0, n) where it
was. -/
theorem emod_step_ne (i d n : Int) (hn : 1 < n) (hi : 0 ≤ i) (hin : i < n)
    (hd : d = 1 ∨ d = -1) : (i + d) % n ≠ i := by
  intro h
  have h1 : (i + d) % n = i % n := by rw [h, Int.emod_eq_of_lt hi hin]
  have h2 : (i + d - i) % n = 0 := Int.emod_eq_emod_iff_emod_sub_eq_zero.mp h1
  have h3 : n ∣ d := by
    have : i + d - i = d := by ring
    rw [this] at h2
    exact Int.dvd_of_emod_eq_zero h2
  have h4 : n ∣ 1 := by
    rcases hd with hd | hd
    · rw [hd] at h3; exact h3
    · rw [hd] at h3; exact (Int.dvd_neg).mp h3
  have := Int.le_of_dvd (by decide) h4
  omega

/-- The navigation step of `rotary_loop` by cases: after a move the index of
the open menu is `wrapIndex` of it and the new encoder value is recorded;
without a move nothing changes. -/
theorem navigateMenu_cases (encoderDir encoderValue newValue a b c : Int) (s : State) :
    (|newValue - encoderValue| ≥ 1 → s.currentSubmenu = 0 →
      (navigateMenu encoderDir encoderValue newValue a b c s).1.currentMenuItem =
        wrapIndex s.currentMenuItem (menuDirection (newValue - encoderValue) encoderDir) a ∧
      (navigateMenu encoderDir encoderValue newValue a b c s).1.currentSubmenuItem =
        s.currentSubmenuItem ∧
      (navigateMenu encoderDir encoderValue newValue a b c s).2 = newValue) ∧
    (|newValue - encoderValue| ≥ 1 → s.currentSubmenu = 1 →
      (navigateMenu encoderDir encoderValue newValue a b c s).1.currentSubmenuItem =
        wrapIndex s.currentSubmenuItem (menuDirection (newValue - encoderValue) encoderDir) b ∧
      (navigateMenu encoderDir encoderValue newValue a b c s).1.currentMenuItem =
        s.currentMenuItem ∧
      (navigateMenu encoderDir encoderValue newValue a b c s).2 = newValue) ∧
    (|newValue - encoderValue| ≥ 1 → s.currentSubmenu = 2 →
      (navigateMenu encoderDir encoderValue newValue a b c s).1.currentSubmenuItem =
        wrapIndex s.currentSubmenuItem (menuDirection (newValue - encoderValue) encoderDir) c ∧
      (navigateMenu encoderDir encoderValue newValue a b c s).1.currentMenuItem =
        s.currentMenuItem ∧
      (navigateMenu encoderDir encoderValue newValue a b c s).2 = newValue) ∧
    (¬ |newValue - encoderValue| ≥ 1 →
      navigateMenu encoderDir encoderValue newValue a b c s = (s, encoderValue)) := by
  unfold navigateMenu
  refine ⟨?_, ?_, ?_, ?_⟩
  · intro hmove hs
    rw [if_pos hmove, if_pos hs]
    exact ⟨rfl, rfl, rfl⟩
  · intro hmove hs
    rw [if_pos hmove, if_neg (by rw [hs]; decide), if_pos hs]
    exact ⟨rfl, rfl, rfl⟩
  · intro hmove hs
    rw [if_pos hmove, if_neg (by rw [hs]; decide), if_neg (by rw [hs]; decide), if_pos hs]
    exact ⟨rfl, rfl, rfl⟩
  · intro hmove
    rw [if_neg hmove]

/-- C29.  In a menu navigation step of `rotary_loop` (the encoder has moved,
the encoder direction is 1 or -1) with item count n > 0 and current index i
in [0, n): the direction d is 1 or -1; the new index of the menu that is
open (main menu, mode menu, configuration menu, n being the item count of
that menu) equals (i + d) mod n, lies in [0, n) and, when there is more than
one item, differs from i; the new encoder value is recorded.  The index
computation gives (i + d) mod n in [0, n) for both directions, and the
previous and next indices of the menu screens lie in [0, n). -/
theorem menu_index_in_bounds (i n encoderDir encoderValue newValue : Int)
    (hn : 0 < n) (hi : 0 ≤ i) (hin : i < n)
    (hdir : encoderDir = 1 ∨ encoderDir = -1)
    (hmove : |newValue - encoderValue| ≥ 1) :
    (menuDirection (newValue - encoderValue) encoderDir = 1 ∨
      menuDirection (newValue - encoderValue) encoderDir = -1) ∧
    (∀ (m c : Int) (s : State), s.currentSubmenu = 0 → s.currentMenuItem = i →
      (navigateMenu encoderDir encoderValue newValue n m c s).1.currentMenuItem =
        (i + menuDirection (newValue - encoderValue) encoderDir) % n ∧
      0 ≤ (navigateMenu encoderDir encoderValue newValue n m c s).1.currentMenuItem ∧
      (navigateMenu encoderDir encoderValue newValue n m c s).1.currentMenuItem < n ∧
      (1 < n →
        (navigateMenu encoderDir encoderValue newValue n m c s).1.currentMenuItem ≠ i) ∧
      (navigateMenu encoderDir encoderValue newValue n m c s).2 = newValue) ∧
    (∀ (m c : Int) (s : State), s.currentSubmenu = 1 → s.currentSubmenuItem = i →
      (navigateMenu encoderDir encoderValue newValue m n c s).1.currentSubmenuItem =
        (i + menuDirection (newValue - encoderValue) encoderDir) % n ∧
      0 ≤ (navigateMenu encoderDir encoderValue newValue m n c s).1.currentSubmenuItem ∧
      (navigateMenu encoderDir encoderValue newValue m n c s).1.currentSubmenuItem < n ∧
      (1 < n →
        (navigateMenu encoderDir encoderValue newValue m n c s).1.currentSubmenuItem ≠ i) ∧
      (navigateMenu encoderDir encoderValue newValue m n c s).2 = newValue) ∧
    (∀ (m c : Int) (s : State), s.currentSubmenu = 2 → s.currentSubmenuItem = i →
      (navigateMenu encoderDir encoderValue newValue m c n s).1.currentSubmenuItem =
        (i + menuDirection (newValue - encoderValue) encoderDir) % n ∧
      0 ≤ (navigateMenu encoderDir encoderValue newValue m c n s).1.currentSubmenuItem ∧
      (navigateMenu encoderDir encoderValue newValue m c n s).1.currentSubmenuItem < n ∧
      (1 < n →
        (navigateMenu encoderDir encoderValue newValue m c n s).1.currentSubmenuItem ≠ i) ∧
      (navigateMenu encoderDir encoderValue newValue m c n s).2 = newValue) ∧
    (∀ d : Int, d = 1 ∨ d = -1 →
      wrapIndex i d n = (i + d) % n ∧ 0 ≤ wrapIndex i d n ∧ wrapIndex i d n < n) ∧
    (0 ≤ prevIndex i n ∧ prevIndex i n < n) ∧
    (0 ≤ nextIndex i n ∧ nextIndex i n < n) := by
  have hd := menuDirection_unit (newValue - encoderValue) encoderDir hdir
  have hw := wrapIndex_bounds i (menuDirection (newValue - encoderValue) encoderDir) n hn
  refine ⟨hd, ?_, ?_, ?_, fun d _ => wrapIndex_bounds i d n hn, (prevIndex_bounds i n hn).2,
    (nextIndex_bounds i n hn hi).2⟩
  · intro m c s hs hc
    obtain ⟨h1, _, h3⟩ := (navigateMenu_cases encoderDir encoderValue newValue n m c s).1
      hmove hs
    rw [h1, hc, h3, hw.1]
    exact ⟨rfl, Int.emod_nonneg _ (ne_of_gt hn), Int.emod_lt_of_pos _ hn,
      fun h1n => emod_step_ne i _ n h1n hi hin hd, rfl⟩
  · intro m c s hs hc
    obtain ⟨h1, _, h3⟩ := (navigateMenu_cases encoderDir encoderValue newValue m n c s).2.1
      hmove hs
    rw [h1, hc, h3, hw.1]
    exact ⟨rfl, Int.emod_nonneg _ (ne_of_gt hn), Int.emod_lt_of_pos _ hn,
      fun h1n => emod_step_ne i _ n h1n hi hin hd, rfl⟩
  · intro m c s hs hc
    obtain ⟨h1, _, h3⟩ := (navigateMenu_cases encoderDir encoderValue newValue m c n s).2.2.1
      hmove hs
    rw [h1, hc, h3, hw.1]
    exact ⟨rfl, Int.emod_nonneg _ (ne_of_gt hn), Int.emod_lt_of_pos _ hn,
      fun h1n => emod_step_ne i _ n h1n hi hin hd, rfl⟩

/-- Witness of `menu_index_in_bounds`: the main menu (5 items) is open at
index 0, the encoder direction is -1 as in the firmware, and the encoder
moves from 0 to 1: the direction is -1 and the new index is 4. -/
theorem menu_index_in_bounds_witness :
    ((0 : Int) < 5 ∧ ((-1 : Int) = 1 ∨ (-1 : Int) = -1) ∧ |(1 : Int) - 0| ≥ 1 ∧
      menuOpen.currentSubmenu = 0 ∧ menuOpen.currentMenuItem = 0) ∧
    menuDirection (1 - 0) (-1) = -1 ∧
    (navigateMenu (-1) 0 1 5 3 8 menuOpen).1.currentMenuItem = 4 ∧
    (navigateMenu (-1) 0 1 5 3 8 menuOpen).2 = 1 :=
  have h := (menu_index_in_bounds 0 5 (-1) 0 1 (by decide) (by decide) (by decide)
    (Or.inr rfl) (by decide)).2.1 3 8 menuOpen rfl rfl
  ⟨⟨by decide, Or.inr rfl, by decide, rfl, rfl⟩, by decide,
    h.1.trans (by decide), h.2.2.2.2⟩

/-! ## Stability of the raw history (C30) -/

/-- The loop of `checkStability` from the accumulator `(sm, mn, mx)` over
the list `l`: the sum grows by the sum of `l`; the minimum is `mn` or a
member of `l`, at most `mn` and at most every member; likewise the
maximum. -/
theorem stabilityFold (l : List Int) :
    ∀ sm mn mx : Int,
      (l.foldl stabilityStep (sm, mn, mx)).1 = sm + l.sum ∧
      ((l.foldl stabilityStep (sm, mn, mx)).2.1 = mn ∨
        (l.foldl stabilityStep (sm, mn, mx)).2.1 ∈ l) ∧
      (l.foldl stabilityStep (sm, mn, mx)).2.1 ≤ mn ∧
      (∀ x ∈ l, (l.foldl stabilityStep (sm, mn, mx)).2.1 ≤ x) ∧
      ((l.foldl stabilityStep (sm, mn, mx)).2.2 = mx ∨
        (l.foldl stabilityStep (sm, mn, mx)).2.2 ∈ l) ∧
      mx ≤ (l.foldl stabilityStep (sm, mn, mx)).2.2 ∧
      (∀ x ∈ l, x ≤ (l.foldl stabilityStep (sm, mn, mx)).2.2) := by
  induction l with
  | nil =>
    intro sm mn mx
    simp
  | cons a t ih =>
    intro sm mn mx
    obtain ⟨h1, h2, h3, h4, h5, h6, h7⟩ := ih (sm + a) (min mn a) (max mx a)
    have hstep : (a :: t).foldl stabilityStep (sm, mn, mx) =
        t.foldl stabilityStep (sm + a, min mn a, max mx a) := rfl
    rw [hstep]
    refine ⟨?_, ?_, ?_, ?_, ?_, ?_, ?_⟩
    · rw [h1, List.sum_cons]; ring
    · rcases h2 with h | h
      · rcases min_choice mn a with hc | hc
        · left; rw [h, hc]
        · right; rw [h, hc]; exact List.mem_cons_self _ _
      · right; exact List.mem_cons_of_mem _ h
    · exact le_trans h3 (min_le_left _ _)
    · intro x hx
      rcases List.mem_cons.mp hx with rfl | hx
      · exact le_trans h3 (min_le_right _ _)
      · exact h4 x hx
    · rcases h5 with h | h
      · rcases max_choice mx a with hc | hc
        · left; rw [h, hc]
        · right; rw [h, hc]; exact List.mem_cons_self _ _
      · right; exact List.mem_cons_of_mem _ h
    · exact le_trans (le_max_left _ _) h6
    · intro x hx
      rcases List.mem_cons.mp hx with rfl | hx
      · exact le_trans (le_max_right _ _) h6
      · exact h7 x hx

/-- C30.  `checkStability` returns false (and writes no average) when count
is below 20.  When count is at least 20 and the array holds at least count
samples, the returned flag is true if and only if max - min < 2000 for the
maximum and the minimum of the first count samples (members of them that
bound them all), and the reported average is the sum of those samples
divided by count. -/
theorem checkStability_spec (samples : List Int) (count : Int) :
    (count < 20 → checkStability samples count = (false, none)) ∧
    (20 ≤ count → count ≤ samples.length →
      ∃ mn mx : Int,
        mn ∈ samples.take count.toNat ∧ mx ∈ samples.take count.toNat ∧
        (∀ x ∈ samples.take count.toNat, mn ≤ x ∧ x ≤ mx) ∧
        ((checkStability samples count).1 = true ↔ mx - mn < 2000) ∧
        (checkStability samples count).2 =
          some (((samples.take count.toNat).sum : ℚ) / (count : ℚ))) := by
  constructor
  · intro h
    unfold checkStability
    rw [if_pos (by unfold HISTORY_SIZE; exact h)]
  · intro h20 hlen
    unfold checkStability
    rw [if_neg (by unfold HISTORY_SIZE; omega)]
    dsimp only
    cases samples with
    | nil => simp at hlen; omega
    | cons a t =>
      obtain ⟨k, hk⟩ : ∃ k : Nat, count.toNat = k + 1 := ⟨count.toNat - 1, by omega⟩
      have hmem : a ∈ (a :: t).take count.toNat := by
        rw [hk, List.take_succ_cons]; exact List.mem_cons_self _ _
      obtain ⟨h1, h2, _, h4, h5, _, h7⟩ :=
        stabilityFold ((a :: t).take count.toNat) 0 a a
      refine ⟨(((a :: t).take count.toNat).foldl stabilityStep (0, a, a)).2.1,
        (((a :: t).take count.toNat).foldl stabilityStep (0, a, a)).2.2, ?_, ?_, ?_, ?_, ?_⟩
      · rcases h2 with h | h
        · rw [h]; exact hmem
        · exact h
      · rcases h5 with h | h
        · rw [h]; exact hmem
        · exact h
      · intro x hx
        exact ⟨h4 x hx, h7 x hx⟩
      · show decide (_ < STABLE_THRESHOLD) = true ↔ _
        rw [decide_eq_true_iff]
        exact Iff.rfl
      · show some (_ / _) = some (_ / _)
        rw [List.headD_cons, h1, zero_add]

/-- Witness of `checkStability_spec`: twenty samples, nineteen of 1000 and
one of 2500: not stable, average 1075. -/
theorem checkStability_spec_witness :
    (20 : Int) ≤ 20 ∧ (20 : Int) ≤ (2500 :: List.replicate 19 (1000 : Int)).length ∧
    ∃ mn mx : Int,
      mn ∈ (2500 :: List.replicate 19 (1000 : Int)).take (20 : Int).toNat ∧
      mx ∈ (2500 :: List.replicate 19 (1000 : Int)).take (20 : Int).toNat ∧
      (∀ x ∈ (2500 :: List.replicate 19 (1000 : Int)).take (20 : Int).toNat,
        mn ≤ x ∧ x ≤ mx) ∧
      ((checkStability (2500 :: List.replicate 19 (1000 : Int)) 20).1 = true ↔
        mx - mn < 2000) ∧
      (checkStability (2500 :: List.replicate 19 (1000 : Int)) 20).2 =
        some ((((2500 :: List.replicate 19 (1000 : Int)).take (20 : Int).toNat).sum : ℚ) /
          ((20 : Int) : ℚ)) :=
  ⟨by decide, by decide,
    (checkStability_spec (2500 :: List.replicate 19 (1000 : Int)) 20).2
      (by decide) (by decide)⟩

theorem sum_bound (l : List Int) (B : Int) (h : ∀ x ∈ l, -B ≤ x ∧ x < B) :
    -(B * l.length) ≤ l.sum ∧ l.sum ≤ B * l.length := by
  induction l with
  | nil => simp
  | cons a t ih =>
    have ha := h a (List.mem_cons_self _ _)
    have ht := ih (fun x hx => h x (List.mem_cons_of_mem _ hx))
    simp only [List.sum_cons, List.length_cons, Nat.cast_add, Nat.cast_one]
    constructor <;> linarith [ha.1, ha.2, ht.1, ht.2]

/-- The sum of `checkStability` stays inside a 32 bit `long` after every
pass of the loop when the samples are 24 bit readings and count is at most
255, so the unbounded integers of `checkStability` agree with the machine
arithmetic there (the utility calls it with count 20). -/
theorem checkStability_sum_fits (samples : List Int) (count : Int) (hc : count ≤ 255)
    (h24 : ∀ x ∈ samples.take count.toNat, -8388608 ≤ x ∧ x < 8388608)
    (j : Nat) (hj : j ≤ count.toNat) (mn mx : Int) :
    -2147483648 ≤ ((samples.take j).foldl stabilityStep (0, mn, mx)).1 ∧
    ((samples.take j).foldl stabilityStep (0, mn, mx)).1 < 2147483648 := by
  have hsub : ∀ x ∈ samples.take j, -8388608 ≤ x ∧ x < 8388608 := by
    intro x hx
    apply h24
    have : samples.take j = (samples.take count.toNat).take j := by
      rw [List.take_take, min_eq_left hj]
    rw [this] at hx
    exact List.mem_of_mem_take hx
  have hb := sum_bound (samples.take j) 8388608 hsub
  have hl : ((samples.take j).length : Int) ≤ 255 := by
    have h1 : (samples.take j).length ≤ j := List.length_take_le _ _
    omega
  rw [(stabilityFold (samples.take j) 0 mn mx).1]
  constructor <;> linarith [hb.1, hb.2]

/-! ## The line of a `w` command (C25) -/

/-- Whatever the conversion `toFloat` is, the line `w1 48.1` gives sensor 1
and the conversion of the string `1 48.1`: the sensor digit stays in front
of the number. -/
theorem parseWeight_w1_blank (toFloat : List Char → ℚ) :
    parseWeight toFloat "w1 48.1".toList = (1, toFloat "1 48.1".toList) := by
  have h1 : sensorOf (trim "w1 48.1".toList) = 1 := by decide
  have h2 : trim (restOf (trim "w1 48.1".toList)) = "1 48.1".toList := by decide
  unfold parseWeight
  dsimp only
  rw [h1, h2]
  rfl

/-- C25, the code at a failing input.  The line `w1 48.1` supplies 1 g for
sensor 1, not 48.1 g, and the line `w25` supplies 5 g for sensor 2, not 25 g
for sensor 1.  The lines `w48.1`, `w2 48.1` and `w248.1` are read as the
help text says: 48.1 g, with the sensor index 4 (handled as sensor 1, every
index other than 2 is), 2 and 2. -/
theorem weight_line_with_sensor_digit_misread :
    parseWeight atof "w1 48.1".toList = (1, 1) ∧
    parseWeight atof "w25".toList = (2, 5) ∧
    parseWeight atof "w48.1".toList = (4, 481 / 10) ∧
    parseWeight atof "w2 48.1".toList = (2, 481 / 10) ∧
    parseWeight atof "w248.1".toList = (2, 481 / 10) ∧
    (∀ (w : ℚ) (e : SerialEnv) (s : State), serialWeight 4 w e s = serialWeight 1 w e s) := by
  have a1 : atofParts "1 48.1".toList = (false, 1, 0) := by decide
  have a2 : atofParts "5".toList = (false, 5, 0) := by decide
  have a3 : atofParts "48.1".toList = (false, 481, 1) := by decide
  have s1 : sensorOf (trim "w1 48.1".toList) = 1 := by decide
  have r1 : trim (restOf (trim "w1 48.1".toList)) = "1 48.1".toList := by decide
  have s2 : sensorOf (trim "w25".toList) = 2 := by decide
  have r2 : trim (restOf (trim "w25".toList)) = "5".toList := by decide
  have s3 : sensorOf (trim "w48.1".toList) = 4 := by decide
  have r3 : trim (restOf (trim "w48.1".toList)) = "48.1".toList := by decide
  have s4 : sensorOf (trim "w2 48.1".toList) = 2 := by decide
  have r4 : trim (restOf (trim "w2 48.1".toList)) = "48.1".toList := by decide
  have s5 : sensorOf (trim "w248.1".toList) = 2 := by decide
  have r5 : trim (restOf (trim "w248.1".toList)) = "48.1".toList := by decide
  have l1 : "1 48.1".toList.length = 6 := by decide
  have l2 : "5".toList.length = 1 := by decide
  have l3 : "48.1".toList.length = 4 := by decide
  have v1 : atof "1 48.1".toList = 1 := by
    unfold atof; dsimp only; rw [a1]; norm_num
  have v2 : atof "5".toList = 5 := by
    unfold atof; dsimp only; rw [a2]; norm_num
  have v3 : atof "48.1".toList = 481 / 10 := by
    unfold atof; dsimp only; rw [a3]; norm_num
  refine ⟨?_, ?_, ?_, ?_, ?_, ?_⟩
  · unfold parseWeight; dsimp only; rw [s1, r1, l1, v1]; rfl
  · unfold parseWeight; dsimp only; rw [s2, r2, l2, v2]; rfl
  · unfold parseWeight; dsimp only; rw [s3, r3, l3, v3]; rfl
  · unfold parseWeight; dsimp only; rw [s4, r4, l3, v3]; rfl
  · unfold parseWeight; dsimp only; rw [s5, r5, l3, v3]; rfl
  · intro w e s
    unfold serialWeight
    rw [if_neg (show ¬ (4 : Int) = 2 by decide), if_neg (show ¬ (1 : Int) = 2 by decide)]

end OpenGBW
